import Mathlib

/-!
# KatikaNaMe portfolio backend: a shallow embedding

The development follows `src/index.js` (and the duplicated fragment
`src/unnamed/part_000`): the PDF route `POST /:id/generate-pdf` with its
helper `hexToRgb`, the web route `POST /:id/generate-web` with
`generateWebPortfolioHTML`, the public listing `GET /public`, the
analytics route `GET /:id/analytics`, the artist routes `GET /directory`
and `GET /stats`, the route `POST /` that creates a portfolio, and the
error-handling middleware.

Conventions of the embedding:

* JavaScript strings are Lean strings; an optional property is an
  `Option`, `none` standing for an absent property (`undefined`): a
  document holds a value for a property or does not hold the property, and
  documents with a property stored as `null` are not represented;
  truthiness of a string is "present and non-empty";
* numbers that stay integral are `Nat` or `Int`; `NaN` is `none` in
  `Option Int`; PDF lengths are exact numbers of hundredths of a point, an
  idealisation of IEEE doubles; where the rounding of a floating-point
  operation matters (the verification rate), it is a parameter, with the
  nearest-double rounding given as one instance;
* upper- and lower-casing of strings are those of the JavaScript engine,
  which follow Unicode: they are passed in (`Casing`);
* the PDF library and the document store are collaborators: what the
  routes ask of them is recorded (the calls on the PDF document) or passed
  in (text metrics, the clock, the outcome of a save); the pipeline stages
  of the store are given the semantics the routes rely on, while the way
  the store reads a regular expression and the order in which it leaves
  documents of equal sort keys are passed in (`Engine`).
-/

namespace Katika

/-! ## Built-ins used by `hexToRgb` -/

/-- Canonicalisation of a character by a regular expression with flag `i`
and without flag `u`: the character is upper-cased, except that a
non-ASCII character is never mapped to an ASCII one. On the ASCII range
this is `Char.toUpper`, and a non-ASCII character stays non-ASCII, which
is all that matters against a class of ASCII characters. -/
def canonicalize (c : Char) : Char := c.toUpper

/-- Membership of `c` in the code-point range `lo-hi`. -/
def inRange (lo hi c : Char) : Bool :=
  decide (lo.toNat ≤ c.toNat) && decide (c.toNat ≤ hi.toNat)

/-- The class `[a-f\d]` under flag `i`: both the input character and the
class members are canonicalised before they are compared. -/
def hexClass (c : Char) : Bool :=
  let u := canonicalize c
  inRange (canonicalize 'a') (canonicalize 'f') u || inRange '0' '9' u

/-- White space skipped by `parseInt` (ECMAScript `StrWhiteSpaceChar`). -/
def isStrWhiteSpace (c : Char) : Bool :=
  let n := c.toNat
  n == 0x09 || n == 0x0A || n == 0x0B || n == 0x0C || n == 0x0D || n == 0x20
    || n == 0xA0 || n == 0x1680 || (decide (0x2000 ≤ n) && decide (n ≤ 0x200A))
    || n == 0x2028 || n == 0x2029 || n == 0x202F || n == 0x205F || n == 0x3000
    || n == 0xFEFF

/-- Value of a character as a digit of `parseInt`: `0-9` are 0..9 and the
letters `a-z`, `A-Z` are 10..35. -/
def digitValue (c : Char) : Option Nat :=
  if inRange '0' '9' c then some (c.toNat - ('0' : Char).toNat)
  else if inRange 'a' 'z' c then some (c.toNat - ('a' : Char).toNat + 10)
  else if inRange 'A' 'Z' c then some (c.toNat - ('A' : Char).toNat + 10)
  else none

/-- Values of the longest prefix of `cs` made of digits below `radix`. -/
def digitPrefix (radix : Nat) : List Char → List Nat
  | [] => []
  | c :: cs =>
    match digitValue c with
    | some d => if d < radix then d :: digitPrefix radix cs else []
    | none => []

/-- Removes a leading `0x` or `0X`. -/
def stripHexPrefix : List Char → Option (List Char)
  | c0 :: c1 :: rest => if c0 = '0' ∧ (c1 = 'x' ∨ c1 = 'X') then some rest else none
  | _ => none

/-- The built-in `parseInt(string, radix)`; `none` is `NaN`. Radix `0`
stands for an omitted radix. -/
def parseInt (str : List Char) (radix : Nat) : Option Int :=
  let s1 := str.dropWhile isStrWhiteSpace
  let neg : Bool := s1.head? = some '-'
  let s2 := if s1.head? = some '-' ∨ s1.head? = some '+' then s1.tail else s1
  if radix ≠ 0 ∧ (radix < 2 ∨ 36 < radix) then none
  else
    let r0 := if radix = 0 then 10 else radix
    let stripPrefix : Bool := radix = 0 ∨ radix = 16
    let (s3, r) :=
      match (if stripPrefix then stripHexPrefix s2 else none) with
      | some rest => (rest, 16)
      | none => (s2, r0)
    let ds := digitPrefix r s3
    if ds = [] then none
    else
      let v : Int := ((ds.foldl (fun acc d => acc * r + d) 0 : Nat) : Int)
      some (if neg then -v else v)

/-! ## The colour decoder of the PDF route -/

/-- An `{ r, g, b }` object. -/
structure Rgb where
  r : Option Int
  g : Option Int
  b : Option Int
  deriving DecidableEq, Repr

/-- The tail `([a-f\d]{2})([a-f\d]{2})([a-f\d]{2})$` of the pattern, tried
at the current position: exactly six class characters up to the end of the
input. Returns the capture groups 1 to 3. -/
def matchGroups : List Char → Option (List Char × List Char × List Char)
  | [c1, c2, c3, c4, c5, c6] =>
    if hexClass c1 && hexClass c2 && hexClass c3 && hexClass c4 && hexClass c5 && hexClass c6
    then some ([c1, c2], [c3, c4], [c5, c6]) else none
  | _ => none

/-- The call `/^#?([a-f\d]{2})([a-f\d]{2})([a-f\d]{2})$/i.exec(hex)`. The
pattern is anchored at the start; `#?` is greedy, so a leading `#` is first
consumed and, if the rest fails, the match is retried without consuming
it. -/
def hexExec (hex : String) : Option (List Char × List Char × List Char) :=
  match hex.data with
  | c :: rest =>
    if c = '#' then (matchGroups rest).orElse (fun _ => matchGroups (c :: rest))
    else matchGroups (c :: rest)
  | [] => matchGroups []

/-- The fallback object `{ r: 176, g: 38, b: 255 }`. -/
def defaultRgb : Rgb := ⟨some 176, some 38, some 255⟩

/-- The helper `hexToRgb(hex)` of the PDF route. -/
def hexToRgb (hex : String) : Rgb :=
  match hexExec hex with
  | some (g1, g2, g3) => ⟨parseInt g1 16, parseInt g2 16, parseInt g3 16⟩
  | none => defaultRgb

/-! ## Reference notions for the colour decoder -/

/-- The hexadecimal digits: `0-9` and `a-f` in either case. -/
def hexChars : List Char := "0123456789abcdefABCDEF".data

/-- Base-16 value of a hexadecimal digit, read off its position among
`0123456789abcdef` after lower-casing. -/
def specHexValue (c : Char) : Int :=
  ("0123456789abcdef".data.indexOf c.toLower : Nat)

/-- Base-16 value of a pair of hexadecimal digits. -/
def specPairValue (hi lo : Char) : Int := 16 * specHexValue hi + specHexValue lo

/-! ## JavaScript idioms -/

/-- Truthiness of an optional string: present and non-empty. -/
def truthy : Option String → Bool
  | some s => s ≠ ""
  | none => false

/-- The expression `a || b` on optional strings. -/
def jsOr (a b : Option String) : Option String :=
  if truthy a then a else b

/-- A value interpolated into a template literal; an absent property reads
as `undefined`, which is spelled out. -/
def interp : Option String → String
  | some s => s
  | none => "undefined"

/-- The call `s.replace(x, y)` with one-character strings: only the first
occurrence is replaced. -/
def replaceFirstChar (x y : Char) : List Char → List Char
  | [] => []
  | c :: cs => if c = x then y :: cs else c :: replaceFirstChar x y cs

/-- The case conversions of the JavaScript engine,
`String.prototype.toUpperCase` and `String.prototype.toLowerCase`. They
follow the Unicode case mappings (`é` becomes `É`, `ß` becomes `SS`), which
are not spelled out here: the two functions are a parameter of every
definition that calls them. -/
structure Casing where
  toUpperCase : String → String
  toLowerCase : String → String

/-- The case conversions cut down to the letters `a` to `z` and `A` to `Z`,
every other character kept: what the engine does on a string of ASCII
characters. It serves to evaluate examples made of such strings. -/
def asciiCasing : Casing where
  toUpperCase s := String.mk (s.data.map Char.toUpper)
  toLowerCase s := String.mk (s.data.map Char.toLower)

/-- The expression `s.charAt(0).toUpperCase() + s.slice(1)`. A character
of a JavaScript string is a UTF-16 code unit: when the string starts with a
character beyond `U+FFFF`, `charAt(0)` is the first half of its surrogate
pair, which upper-casing leaves alone, and `slice(1)` starts with the
second half, so that the string comes back unchanged. For the empty string
`charAt(0)` is empty, and so is the result. -/
def capitalize (js : Casing) (s : String) : String :=
  match s.data with
  | [] => ""
  | c :: cs =>
    if c.toNat < 0x10000 then js.toUpperCase (String.singleton c) ++ String.mk cs else s

/-! ## Data model -/

/-- The `location` sub-document of an artist. -/
structure Location where
  city : Option String
  country : Option String
  deriving DecidableEq, Repr

/-- An entry of `artist.media`. -/
structure MediaItem where
  url : Option String
  deriving DecidableEq, Repr

/-- The `rating` aggregate of an artist; the source names its `average`. -/
structure Rating where
  average : Option ℚ
  deriving DecidableEq, Repr

/-- An artist document. Object ids are kept in their string form. -/
structure Artist where
  _id : String
  name : String
  email : Option String
  category : Option String
  experience : Option String
  bio : Option String
  location : Option Location
  genres : Option (List String)
  socialLinks : Option (List (String × Option String))
  media : Option (List MediaItem)
  isActive : Bool
  isVerified : Bool
  /-- The back-reference to the artist's portfolio, if one was created. -/
  portfolio : Option String
  rating : Option Rating
  /-- The field `views` named by the featured order of the directory. -/
  views : Option Nat
  createdAt : Nat
  deriving DecidableEq, Repr

/-- A section of a portfolio. -/
structure Section where
  type : String
  title : Option String
  content : Option String
  media : Option (List String)
  deriving DecidableEq, Repr

/-- The `customizations.colors` object. -/
structure Colors where
  primary : Option String
  secondary : Option String
  accent : Option String
  deriving DecidableEq, Repr

/-- The `customizations.fonts` object. -/
structure Fonts where
  heading : Option String
  body : Option String
  deriving DecidableEq, Repr

/-- The `customizations` bundle of a portfolio. -/
structure Customizations where
  colors : Option Colors
  fonts : Option Fonts
  layout : Option String
  deriving DecidableEq, Repr

/-- A record of `portfolio.generatedFiles`. -/
structure GeneratedFile where
  format : String
  filename : String
  url : String
  generatedAt : Nat
  deriving DecidableEq, Repr

/-- A stored portfolio document; `artist` is the reference to its artist. -/
structure Portfolio where
  _id : String
  artist : String
  template : String
  title : String
  description : Option String
  customizations : Option Customizations
  sections : List Section
  views : Nat
  isPublic : Bool
  generatedFiles : List GeneratedFile
  createdAt : Nat
  updatedAt : Nat
  deriving DecidableEq, Repr

/-- The document store: the two collections. -/
structure Db where
  artists : List Artist
  portfolios : List Portfolio
  deriving DecidableEq, Repr

/-- A portfolio after `.populate('artist')`: the referenced artist, or
`null` (here `none`) when the reference resolves to no document. -/
structure Populated where
  doc : Portfolio
  artist : Option Artist
  deriving DecidableEq, Repr

/-- The query `Portfolio.findById(id).populate('artist')`. -/
def findByIdPopulated (db : Db) (id : String) : Option Populated :=
  (db.portfolios.find? (fun p => p._id == id)).map
    (fun p => ⟨p, db.artists.find? (fun a => a._id == p.artist)⟩)

/-- The call `portfolio.save()` when it succeeds: the stored document with
the same id is replaced. -/
def Db.save (db : Db) (p : Portfolio) : Db :=
  { db with portfolios := db.portfolios.map (fun q => if q._id == p._id then p else q) }

/-- The call `portfolio.save()` on a new document when it succeeds: the
document is added to the collection. -/
def Db.insert (db : Db) (p : Portfolio) : Db :=
  { db with portfolios := db.portfolios ++ [p] }

/-- The call `artist.save()` when it succeeds: the stored document with the
same id is replaced. -/
def Db.saveArtist (db : Db) (a : Artist) : Db :=
  { db with artists := db.artists.map (fun b => if b._id == a._id then a else b) }

/-! ### Documents of the public listing -/

/-- The `artist` field of a document inside the aggregation pipeline: the
stored reference, the array left by `$lookup`, or the single document left
by `$unwind`. -/
inductive ArtistField
  | ref (id : String)
  | docs (l : List Artist)
  | doc (a : Artist)
  deriving DecidableEq, Repr

/-- A portfolio document flowing through the pipeline. -/
structure Row where
  p : Portfolio
  artist : ArtistField
  deriving DecidableEq, Repr

/-- The artist fields kept by `$project`: name, category, genres, location
and the first media item (`$slice: ['$artist.media', 1]`). -/
structure ListedArtist where
  name : String
  category : Option String
  genres : Option (List String)
  location : Option Location
  media : Option (List MediaItem)
  deriving DecidableEq, Repr

/-- The projected `artist` field, following the shape of the input field. -/
inductive ListedArtistField
  | absent
  | one (a : ListedArtist)
  | many (l : List ListedArtist)
  deriving DecidableEq, Repr

/-- An entry of the listing: the fields kept by `$project` (and `_id`). -/
structure Listed where
  _id : String
  title : String
  description : Option String
  template : String
  views : Nat
  createdAt : Nat
  artist : ListedArtistField
  deriving DecidableEq, Repr

/-- A document produced by a stage of the pipeline. -/
inductive AggDoc
  | row (r : Row)
  | listed (l : Listed)
  | count (total : Nat)
  deriving DecidableEq, Repr

/-- The `pagination` block of the listing. `pages` is `none` when
`Math.ceil(total / limit)` is not finite (serialised as `null`). -/
structure Pagination where
  current : Nat
  pages : Option Int
  total : Nat
  hasNext : Bool
  hasPrev : Bool
  deriving DecidableEq, Repr

/-- The artist fields selected by
`populate('artist', 'name email category experience')` (and `_id`). -/
structure ArtistSummary where
  _id : String
  name : String
  email : Option String
  category : Option String
  experience : Option String
  deriving DecidableEq, Repr

/-- The `analytics` object of the analytics route. -/
structure Analytics where
  views : Nat
  generatedFiles : Nat
  lastUpdated : Nat
  createdAt : Nat
  sectionsCount : Nat
  isPublic : Bool
  template : String
  filesGeneratedPdf : Nat
  filesGeneratedHtml : Nat
  recentActivity : List GeneratedFile
  deriving DecidableEq, Repr

/-- The portfolio fields selected by `populate('portfolio', 'title views template')`
(and `_id`). -/
structure PortfolioSummary where
  _id : String
  title : String
  views : Nat
  template : String
  deriving DecidableEq, Repr

/-- An entry of the artist directory: the fields selected by
`select('name category experience location genres media rating portfolio createdAt')`
(and `_id`), followed by the `email` property that the route sets. -/
structure DirectoryArtist where
  _id : String
  name : String
  category : Option String
  experience : Option String
  location : Option Location
  genres : Option (List String)
  media : Option (List MediaItem)
  rating : Option Rating
  portfolio : Option PortfolioSummary
  createdAt : Nat
  email : Option String
  deriving DecidableEq, Repr

/-- A document produced by a `$group` stage with `count: { $sum: 1 }`. -/
structure GroupCount where
  _id : Option String
  count : Nat
  deriving DecidableEq, Repr

/-- The `stats` object of the statistics route. `verificationRate` is
`none` when the number is not finite (serialised as `null`). -/
structure Stats where
  totalArtists : Nat
  verifiedArtists : Nat
  recentJoins : Nat
  verificationRate : Option Int
  categoryCounts : List GroupCount
  topLocations : List GroupCount
  deriving DecidableEq, Repr

/-- Body of a JSON response. -/
inductive Body
  | error (msg : String)
  | pdfGenerated (message downloadUrl filename : String) (fileSize : Nat)
  | webGenerated (message liveUrl previewUrl filename domain : String)
  | listing (portfolios : List AggDoc) (pagination : Pagination)
  | portfolioCreated (message : String) (portfolio : Portfolio) (artist : Option ArtistSummary)
  | analytics (analytics : Analytics)
  | directory (artists : List DirectoryArtist)
  | stats (stats : Stats)
  deriving DecidableEq, Repr

/-- An HTTP response: status code and JSON body. -/
structure Response where
  status : Nat
  body : Body
  deriving DecidableEq, Repr

/-- The fallback `{ primary: '#B026FF', secondary: '#ffffff', accent: '#FFD23F' }`. -/
def defaultColors : Colors := ⟨some "#B026FF", some "#ffffff", some "#FFD23F"⟩

/-- The expression `portfolio.customizations?.colors || { ... }`. -/
def resolveColors (p : Portfolio) : Colors :=
  match p.customizations with
  | some c =>
    match c.colors with
    | some cols => cols
    | none => defaultColors
  | none => defaultColors

/-- Message of the `TypeError` raised by reading `name` of a `null` artist. -/
def nullArtistError : String := "Cannot read properties of null (reading 'name')"

/-! ## The PDF route `POST /:id/generate-pdf` -/

/-- A length in PDF points, kept exactly as a number of hundredths of a
point (the page size `595.28 x 841.89` is exact in this unit). -/
structure Pt where
  cents : Int
  deriving DecidableEq, Repr

instance : OfNat Pt n := ⟨⟨100 * (n : Int)⟩⟩
instance : Add Pt := ⟨fun a b => ⟨a.cents + b.cents⟩⟩
instance : Sub Pt := ⟨fun a b => ⟨a.cents - b.cents⟩⟩
instance : LE Pt := ⟨fun a b => a.cents ≤ b.cents⟩
instance : LT Pt := ⟨fun a b => a.cents < b.cents⟩
instance (a b : Pt) : Decidable (a ≤ b) := inferInstanceAs (Decidable (a.cents ≤ b.cents))
instance (a b : Pt) : Decidable (a < b) := inferInstanceAs (Decidable (a.cents < b.cents))

/-- Width of an A4 page (`doc.page.width`): 595.28 points. -/
def pageWidth : Pt := ⟨59528⟩

/-- Height of an A4 page (`doc.page.height`): 841.89 points. -/
def pageHeight : Pt := ⟨84189⟩

/-- The `margin: 50` option of the document. -/
def pageMargin : Pt := 50

/-- A colour argument: an `[r, g, b]` array or a colour string. -/
inductive Ink
  | rgb (c : Rgb)
  | named (s : String)
  deriving DecidableEq, Repr

/-- Options object of `doc.text`. -/
structure TextOpts where
  align : Option String
  width : Option Pt
  link : Option String
  underline : Bool
  deriving DecidableEq, Repr

/-- The empty options object. -/
def noOpts : TextOpts := ⟨none, none, none, false⟩

/-- Calls made on the PDF document, in the order they are issued. -/
inductive PdfOp
  | addPage
  | rect (x y w h : Pt)
  | fill (c : Ink)
  | stroke (c : Ink)
  | fontSize (n : Nat)
  | fillColor (c : Ink)
  | text (s : Option String) (x y : Pt) (o : TextOpts)
  | moveDown (n : Nat)
  | finish
  deriving DecidableEq, Repr

/-- What the route reads from its surroundings: the clock, the PDF
library's text layout, the file system and the outcome of the save. The
library functions receive the calls issued so far, on which the cursor,
the current font and its size depend. -/
structure PdfEnv where
  /-- The value of `Date.now()` when the file name is built. -/
  now : Nat
  /-- The value of `new Date().toLocaleDateString()` for the footer. -/
  dateString : String
  /-- The value of `new Date()` in the completion handler. -/
  endTime : Nat
  /-- The cursor `doc.y` after the given calls. -/
  cursor : List PdfOp → Pt
  /-- The measurement `doc.widthOfString(s)` after the given calls. -/
  widthOfString : List PdfOp → String → Pt
  /-- The value of `fs.statSync(filepath).size`. -/
  fileSize : Nat
  /-- Whether `portfolio.save()` succeeds. -/
  saveOk : Bool
  /-- The case conversions of the engine. -/
  js : Casing

/-- The colour string `'white'`. -/
def white : Ink := Ink.named "white"

/-- Options `{ align: 'center' }`. -/
def centered : TextOpts := ⟨some "center", none, none, false⟩

/-- Options `{ align: 'justify', width: doc.page.width - 100 }`. -/
def justified : TextOpts := ⟨some "justify", some (pageWidth - 100), none, false⟩

/-- The expression
`artist.category?.replace('_', ' ').toUpperCase() || 'CREATIVE PROFESSIONAL'`. -/
def categoryLabel (js : Casing) (a : Artist) : String :=
  match a.category with
  | some c =>
    let u := js.toUpperCase (String.mk (replaceFirstChar '_' ' ' c.data))
    if u ≠ "" then u else "CREATIVE PROFESSIONAL"
  | none => "CREATIVE PROFESSIONAL"

/-- The template `${artist.experience?.toUpperCase()} LEVEL`. -/
def experienceLabel (js : Casing) (a : Artist) : String :=
  interp (a.experience.map js.toUpperCase) ++ " LEVEL"

/-- The section-header band drawn at the top of every page but the cover. -/
def headerBand (accent : Ink) (title : String) : List PdfOp :=
  [PdfOp.rect 50 50 (pageWidth - 100) 40, PdfOp.fill accent,
   PdfOp.fontSize 18, PdfOp.fillColor white, PdfOp.text (some title) 60 65 noOpts]

/-- The cover page. -/
def coverPage (env : PdfEnv) (p : Portfolio) (a : Artist) (primary accent : Ink)
    (d : List PdfOp) : List PdfOp :=
  let d1 := d ++ [PdfOp.rect 0 0 pageWidth 200, PdfOp.fill primary,
    PdfOp.fontSize 32, PdfOp.fillColor white, PdfOp.text (some a.name) 50 80 centered,
    PdfOp.fontSize 18, PdfOp.text (some (categoryLabel env.js a)) 50 120 centered,
    PdfOp.fontSize 14, PdfOp.text (some (experienceLabel env.js a)) 50 145 centered,
    PdfOp.rect 50 180 (pageWidth - 100) 3, PdfOp.fill accent,
    PdfOp.fontSize 24, PdfOp.fillColor primary, PdfOp.text (some p.title) 50 220 noOpts,
    PdfOp.moveDown 1]
  if truthy p.description then
    let d2 := d1 ++ [PdfOp.fontSize 12, PdfOp.fillColor (Ink.named "#333333")]
    d2 ++ [PdfOp.text p.description 50 (env.cursor d2) justified, PdfOp.moveDown 2]
  else d1

/-- The biography page, present when `artist.bio` is truthy. -/
def bioPage (a : Artist) (accent : Ink) (d : List PdfOp) : List PdfOp :=
  if truthy a.bio then
    d ++ [PdfOp.addPage] ++ headerBand accent "ABOUT THE ARTIST" ++
      [PdfOp.fontSize 12, PdfOp.fillColor (Ink.named "#333333"),
       PdfOp.text a.bio 50 110 justified, PdfOp.moveDown 2]
  else d

/-- One round of the media loop: the state is the calls issued so far and
`yPosition`. -/
def drawMedia (primary : Ink) (st : List PdfOp × Pt) (_mediaUrl : String) :
    List PdfOp × Pt :=
  let st1 : List PdfOp × Pt :=
    if st.2 > pageHeight - 100 then (st.1 ++ [PdfOp.addPage], 50) else st
  (st1.1 ++ [PdfOp.rect 50 st1.2 150 100, PdfOp.stroke primary,
      PdfOp.fontSize 10, PdfOp.fillColor primary,
      PdfOp.text (some "Media Content") 60 (st1.2 + 45) ⟨some "center", some 130, none, false⟩],
    st1.2 + 120)

/-- The page of one section: header band, content text, media placeholders. -/
def drawSection (env : PdfEnv) (primary accent : Ink) (d : List PdfOp) (sec : Section) :
    List PdfOp :=
  let d1 := d ++ [PdfOp.addPage] ++
    headerBand accent (env.js.toUpperCase (interp (jsOr sec.title (some sec.type))))
  let st : List PdfOp × Pt :=
    if truthy sec.content then
      let d2 := d1 ++ [PdfOp.fontSize 12, PdfOp.fillColor (Ink.named "#333333"),
        PdfOp.text sec.content 50 110 justified]
      (d2, env.cursor d2 + 20)
    else (d1, 110)
  match sec.media with
  | some media => if media.length > 0 then (media.foldl (drawMedia primary) st).1 else st.1
  | none => st.1

/-- One round of the genre loop: the state is the calls issued so far,
`skillX` and `skillY`. -/
def drawSkill (env : PdfEnv) (primary : Ink) (st : List PdfOp × Pt × Pt) (genre : String) :
    List PdfOp × Pt × Pt :=
  let skillWidth := env.widthOfString st.1 genre + 20
  let xy : Pt × Pt :=
    if st.2.1 + skillWidth > pageWidth - 50 then (50, st.2.2 + 35) else st.2
  (st.1 ++ [PdfOp.rect xy.1 xy.2 skillWidth 25, PdfOp.fill primary,
      PdfOp.fontSize 10, PdfOp.fillColor white,
      PdfOp.text (some genre) (xy.1 + 10) (xy.2 + 8) noOpts],
    xy.1 + skillWidth + 10, xy.2)

/-- The skills page, present when the artist has at least one genre. -/
def skillsPage (env : PdfEnv) (a : Artist) (primary accent : Ink) (d : List PdfOp) :
    List PdfOp :=
  match a.genres with
  | some genres =>
    if genres.length > 0 then
      let d1 := d ++ [PdfOp.addPage] ++ headerBand accent "SKILLS & SPECIALTIES"
      (genres.foldl (drawSkill env primary) (d1, 50, 120)).1
    else d
  | none => d

/-- One round of the social-links loop: the state is the calls issued so
far and `contactY`. -/
def drawSocial (js : Casing) (st : List PdfOp × Pt) (entry : String × Option String) :
    List PdfOp × Pt :=
  if truthy entry.2 then
    (st.1 ++ [PdfOp.fontSize 12, PdfOp.fillColor (Ink.named "#0066cc"),
        PdfOp.text (some (capitalize js entry.1 ++ ": " ++ interp entry.2)) 50 st.2
          ⟨none, none, entry.2, true⟩],
      st.2 + 20)
  else st

/-- The expression `location?.city || location?.country`. -/
def hasLocation (a : Artist) : Bool :=
  match a.location with
  | some l => truthy l.city || truthy l.country
  | none => false

/-- The expression `[city, country].filter(Boolean).join(', ')`. -/
def locationLine (l : Location) : String :=
  String.intercalate ", " (([l.city, l.country].filter truthy).map interp)

/-- The contact page and the footer. -/
def contactPage (env : PdfEnv) (a : Artist) (primary accent : Ink) (d : List PdfOp) :
    List PdfOp :=
  let d1 := d ++ [PdfOp.addPage] ++ headerBand accent "CONTACT INFORMATION" ++
    [PdfOp.fontSize 14, PdfOp.fillColor primary, PdfOp.text (some "Email:") 50 120 noOpts,
     PdfOp.fontSize 12, PdfOp.fillColor (Ink.named "#333333"),
     PdfOp.text a.email 50 (120 + 20) noOpts]
  let contactY : Pt := 120 + 50
  let st2 : List PdfOp × Pt :=
    match a.location with
    | some l =>
      if hasLocation a then
        (d1 ++ [PdfOp.fontSize 14, PdfOp.fillColor primary,
            PdfOp.text (some "Location:") 50 contactY noOpts,
            PdfOp.fontSize 12, PdfOp.fillColor (Ink.named "#333333"),
            PdfOp.text (some (locationLine l)) 50 (contactY + 20) noOpts],
          contactY + 50)
      else (d1, contactY)
    | none => (d1, contactY)
  let st3 : List PdfOp × Pt :=
    match a.socialLinks with
    | some links =>
      links.foldl (drawSocial env.js)
        (st2.1 ++ [PdfOp.fontSize 14, PdfOp.fillColor primary,
            PdfOp.text (some "Connect Online:") 50 st2.2 noOpts],
          st2.2 + 25)
    | none => st2
  st3.1 ++ [PdfOp.fontSize 8, PdfOp.fillColor (Ink.named "#666666"),
    PdfOp.text
      (some ("Generated by KatikaNaMe Platform • " ++ env.dateString ++ " • www.katikaname.com"))
      50 (pageHeight - 30) ⟨some "center", some (pageWidth - 100), none, false⟩,
    PdfOp.finish]

/-- The drawing part of the route, from the colour lookup to `doc.end()`,
for a portfolio whose artist is populated. -/
def drawPortfolio (env : PdfEnv) (p : Portfolio) (a : Artist) : List PdfOp :=
  let colors := resolveColors p
  let primary := Ink.rgb (hexToRgb (interp colors.primary))
  let accent := Ink.rgb (hexToRgb (interp colors.accent))
  let d1 := coverPage env p a primary accent []
  let d2 := bioPage a accent d1
  let d3 := p.sections.foldl (drawSection env primary accent) d2
  let d4 := skillsPage env a primary accent d3
  contactPage env a primary accent d4

/-- Everything up to `doc.end()`: reading `portfolio.artist.name` for the
document's `info` raises a `TypeError` when the artist is `null`, before
the document exists. -/
def renderPdf (env : PdfEnv) (pp : Populated) : Except String (List PdfOp) :=
  match pp.artist with
  | none => Except.error nullArtistError
  | some a => Except.ok (drawPortfolio env pp.doc a)

/-- The file name `portfolio-<id>-<epoch-ms>.pdf`. -/
def pdfFilename (env : PdfEnv) (p : Portfolio) : String :=
  "portfolio-" ++ p._id ++ "-" ++ toString env.now ++ ".pdf"

/-- What a request to the PDF route leaves behind. -/
structure PdfResult where
  /-- The response sent to the client. -/
  response : Response
  /-- The calls issued on the PDF document, if any. -/
  ops : List PdfOp
  /-- The store after the request. -/
  db : Db
  deriving DecidableEq, Repr

/-- The completion handler `doc.on('end', ...)`. -/
def onPdfEnd (env : PdfEnv) (db : Db) (p : Portfolio) (ops : List PdfOp) : PdfResult :=
  let filename := pdfFilename env p
  let url := "/uploads/portfolios/" ++ filename
  let p1 := { p with generatedFiles := p.generatedFiles ++ [⟨"pdf", filename, url, env.endTime⟩] }
  if env.saveOk then
    ⟨⟨200, Body.pdfGenerated "Enhanced portfolio PDF generated successfully" url filename
      env.fileSize⟩, ops, db.save p1⟩
  else ⟨⟨500, Body.error "Failed to save portfolio file info"⟩, ops, db⟩

/-- The route `POST /:id/generate-pdf`. -/
def generatePdf (env : PdfEnv) (db : Db) (id : String) : PdfResult :=
  match findByIdPopulated db id with
  | none => ⟨⟨404, Body.error "Portfolio not found"⟩, [], db⟩
  | some pp =>
    match renderPdf env pp with
    | Except.error msg => ⟨⟨500, Body.error msg⟩, [], db⟩
    | Except.ok ops => onPdfEnd env db pp.doc ops

/-- The lowest point of the text area of a page, `page.height -
page.margins.bottom` (the library's `page.maxY()`): before it lays out a
text whose position is below this point, the library continues on a new
page, which it adds by itself. -/
def pageMaxY : Pt := pageHeight - pageMargin

/-- Whether a call is a text placed below the text area of the page. -/
def textBelowMargin : PdfOp → Bool
  | PdfOp.text _ _ y _ => decide (y > pageMaxY)
  | _ => false

/-- Number of pages that the calls start in a document for sure: the first
page, which the library opens with the document, one per call of
`addPage`, and one per text placed below the text area, for which the
library adds a page before it draws the text. A text placed inside the text
area may run over its end and make the library add further pages; these
depend on the fonts and on the length of the text and are not counted, so
that the document has at least this many pages. -/
def pagesStarted (ops : List PdfOp) : Nat :=
  1 + ops.countP (fun o => o == PdfOp.addPage) + ops.countP textBelowMargin

/-- The media placeholder boxes among the calls: the rectangles of size
`150 x 100`, given by their `y`. No other rectangle of the route has
height 100. -/
def mediaBoxes (ops : List PdfOp) : List Pt :=
  ops.filterMap fun o =>
    match o with
    | PdfOp.rect _ y w h => if w = 150 ∧ h = 100 then some y else none
    | _ => none

/-! ## The page built by `generateWebPortfolioHTML` -/

/-- The expression `artist.genres ? artist.genres.join(', ') : ''`. -/
def keywords (a : Artist) : String :=
  match a.genres with
  | some g => String.intercalate ", " g
  | none => ""

/-- The static style rules of the page, from `--dark` to the end of `<head>`. -/
def styleRules : String :=
  String.join [
    "            --dark: #0a0a12;\n",
    "            --light: #f5f5f7;\n",
    "            --text-gray: #a1a1a6;\n",
    "        \x7d\n",
    "        \n",
    "        * \x7b\n",
    "            margin: 0;\n",
    "            padding: 0;\n",
    "            box-sizing: border-box;\n",
    "        \x7d\n",
    "        \n",
    "        body \x7b\n",
    "            font-family: 'Poppins', sans-serif;\n",
    "            background-color: var(--dark);\n",
    "            color: var(--light);\n",
    "            line-height: 1.6;\n",
    "        \x7d\n",
    "        \n",
    "        .container \x7b\n",
    "            max-width: 1200px;\n",
    "            margin: 0 auto;\n",
    "            padding: 0 20px;\n",
    "        \x7d\n",
    "        \n",
    "        /* Header Styles */\n",
    "        header \x7b\n",
    "            background: linear-gradient(135deg, var(--primary), var(--accent));\n",
    "            color: white;\n",
    "            padding: 4rem 0;\n",
    "            text-align: center;\n",
    "            position: relative;\n",
    "            overflow: hidden;\n",
    "        \x7d\n",
    "        \n",
    "        header::before \x7b\n",
    "            content: '';\n",
    "            position: absolute;\n",
    "            top: 0;\n",
    "            left: 0;\n",
    "            right: 0;\n",
    "            bottom: 0;\n",
    "            background: url('data:image/svg+xml,<svg xmlns=\"http://www.w3.org/2000/svg\" viewBox=\"0 0 100 100\"><circle cx=\"50\" cy=\"50\" r=\"2\" fill=\"white\" opacity=\"0.1\"/></svg>') repeat;\n",
    "            animation: float 20s infinite linear;\n",
    "        \x7d\n",
    "        \n",
    "        @keyframes float \x7b\n",
    "            0% \x7b transform: translateY(0) rotate(0deg); \x7d\n",
    "            100% \x7b transform: translateY(-100px) rotate(360deg); \x7d\n",
    "        \x7d\n",
    "        \n",
    "        .profile \x7b\n",
    "            position: relative;\n",
    "            z-index: 2;\n",
    "        \x7d\n",
    "        \n",
    "        .profile-img \x7b\n",
    "            width: 200px;\n",
    "            height: 200px;\n",
    "            border-radius: 50%;\n",
    "            object-fit: cover;\n",
    "            border: 5px solid var(--accent);\n",
    "            box-shadow: 0 10px 30px rgba(0,0,0,0.3);\n",
    "            margin-bottom: 2rem;\n",
    "        \x7d\n",
    "        \n",
    "        h1 \x7b\n",
    "            font-family: 'Montserrat', sans-serif;\n",
    "            font-size: 3rem;\n",
    "            font-weight: 700;\n",
    "            margin-bottom: 1rem;\n",
    "            text-shadow: 2px 2px 4px rgba(0,0,0,0.3);\n",
    "        \x7d\n",
    "        \n",
    "        .subtitle \x7b\n",
    "            font-size: 1.3rem;\n",
    "            margin-bottom: 0.5rem;\n",
    "            opacity: 0.9;\n",
    "        \x7d\n",
    "        \n",
    "        .experience-badge \x7b\n",
    "            display: inline-block;\n",
    "            background: rgba(255,255,255,0.2);\n",
    "            padding: 0.5rem 1rem;\n",
    "            border-radius: 25px;\n",
    "            font-size: 0.9rem;\n",
    "            margin-top: 1rem;\n",
    "            backdrop-filter: blur(10px);\n",
    "        \x7d\n",
    "        \n",
    "        /* Navigation */\n",
    "        nav \x7b\n",
    "            background: rgba(10, 10, 18, 0.95);\n",
    "            backdrop-filter: blur(10px);\n",
    "            position: sticky;\n",
    "            top: 0;\n",
    "            z-index: 1000;\n",
    "            padding: 1rem 0;\n",
    "        \x7d\n",
    "        \n",
    "        nav ul \x7b\n",
    "            display: flex;\n",
    "            justify-content: center;\n",
    "            list-style: none;\n",
    "            gap: 2rem;\n",
    "        \x7d\n",
    "        \n",
    "        nav a \x7b\n",
    "            color: var(--light);\n",
    "            text-decoration: none;\n",
    "            padding: 0.5rem 1rem;\n",
    "            border-radius: 25px;\n",
    "            transition: all 0.3s;\n",
    "        \x7d\n",
    "        \n",
    "        nav a:hover \x7b\n",
    "            background: var(--primary);\n",
    "            color: white;\n",
    "        \x7d\n",
    "        \n",
    "        /* Main Content */\n",
    "        main \x7b\n",
    "            padding: 4rem 0;\n",
    "        \x7d\n",
    "        \n",
    "        section \x7b\n",
    "            margin-bottom: 4rem;\n",
    "            padding: 2rem 0;\n",
    "        \x7d\n",
    "        \n",
    "        h2 \x7b\n",
    "            font-family: 'Montserrat', sans-serif;\n",
    "            font-size: 2.5rem;\n",
    "            color: var(--accent);\n",
    "            text-align: center;\n",
    "            margin-bottom: 3rem;\n",
    "            position: relative;\n",
    "        \x7d\n",
    "        \n",
    "        h2::after \x7b\n",
    "            content: '';\n",
    "            position: absolute;\n",
    "            bottom: -10px;\n",
    "            left: 50%;\n",
    "            transform: translateX(-50%);\n",
    "            width: 80px;\n",
    "            height: 4px;\n",
    "            background: linear-gradient(90deg, var(--primary), var(--accent));\n",
    "            border-radius: 2px;\n",
    "        \x7d\n",
    "        \n",
    "        .content-card \x7b\n",
    "            background: rgba(26, 26, 36, 0.8);\n",
    "            padding: 2.5rem;\n",
    "            border-radius: 15px;\n",
    "            backdrop-filter: blur(10px);\n",
    "            border: 1px solid rgba(176, 38, 255, 0.2);\n",
    "            box-shadow: 0 10px 30px rgba(0,0,0,0.2);\n",
    "            margin-bottom: 2rem;\n",
    "            transition: transform 0.3s;\n",
    "        \x7d\n",
    "        \n",
    "        .content-card:hover \x7b\n",
    "            transform: translateY(-5px);\n",
    "        \x7d\n",
    "        \n",
    "        /* Skills Grid */\n",
    "        .skills-grid \x7b\n",
    "            display: grid;\n",
    "            grid-template-columns: repeat(auto-fit, minmax(150px, 1fr));\n",
    "            gap: 1rem;\n",
    "            margin-top: 2rem;\n",
    "        \x7d\n",
    "        \n",
    "        .skill-tag \x7b\n",
    "            background: linear-gradient(135deg, var(--primary), var(--accent));\n",
    "            color: white;\n",
    "            padding: 1rem;\n",
    "            border-radius: 10px;\n",
    "            text-align: center;\n",
    "            font-weight: 600;\n",
    "            box-shadow: 0 5px 15px rgba(176, 38, 255, 0.3);\n",
    "            transition: transform 0.3s;\n",
    "        \x7d\n",
    "        \n",
    "        .skill-tag:hover \x7b\n",
    "            transform: scale(1.05);\n",
    "        \x7d\n",
    "        \n",
    "        /* Social Links */\n",
    "        .social-links \x7b\n",
    "            display: flex;\n",
    "            justify-content: center;\n",
    "            gap: 2rem;\n",
    "            margin-top: 2rem;\n",
    "        \x7d\n",
    "        \n",
    "        .social-links a \x7b\n",
    "            display: flex;\n",
    "            align-items: center;\n",
    "            justify-content: center;\n",
    "            width: 60px;\n",
    "            height: 60px;\n",
    "            background: linear-gradient(135deg, var(--primary), var(--accent));\n",
    "            color: white;\n",
    "            border-radius: 50%;\n",
    "            font-size: 1.5rem;\n",
    "            text-decoration: none;\n",
    "            transition: all 0.3s;\n",
    "            box-shadow: 0 5px 15px rgba(0,0,0,0.2);\n",
    "        \x7d\n",
    "        \n",
    "        .social-links a:hover \x7b\n",
    "            transform: translateY(-5px) scale(1.1);\n",
    "            box-shadow: 0 10px 25px rgba(176, 38, 255, 0.4);\n",
    "        \x7d\n",
    "        \n",
    "        /* Contact Section */\n",
    "        .contact-info \x7b\n",
    "            display: grid;\n",
    "            grid-template-columns: repeat(auto-fit, minmax(300px, 1fr));\n",
    "            gap: 2rem;\n",
    "            margin-top: 2rem;\n",
    "        \x7d\n",
    "        \n",
    "        .contact-item \x7b\n",
    "            display: flex;\n",
    "            align-items: center;\n",
    "            gap: 1rem;\n",
    "            padding: 1rem;\n",
    "            background: rgba(176, 38, 255, 0.1);\n",
    "            border-radius: 10px;\n",
    "        \x7d\n",
    "        \n",
    "        .contact-item i \x7b\n",
    "            font-size: 1.5rem;\n",
    "            color: var(--accent);\n",
    "        \x7d\n",
    "        \n",
    "        /* Footer */\n",
    "        footer \x7b\n",
    "            background: rgba(26, 26, 36, 0.9);\n",
    "            padding: 3rem 0 1rem;\n",
    "            text-align: center;\n",
    "            border-top: 1px solid rgba(176, 38, 255, 0.2);\n",
    "        \x7d\n",
    "        \n",
    "        .footer-brand \x7b\n",
    "            font-family: 'Montserrat', sans-serif;\n",
    "            font-size: 1.5rem;\n",
    "            margin-bottom: 1rem;\n",
    "        \x7d\n",
    "        \n",
    "        .footer-brand .highlight \x7b\n",
    "            color: var(--accent);\n",
    "        \x7d\n",
    "        \n",
    "        /* Responsive Design */\n",
    "        @media (max-width: 768px) \x7b\n",
    "            h1 \x7b font-size: 2rem; \x7d\n",
    "            h2 \x7b font-size: 2rem; \x7d\n",
    "            nav ul \x7b flex-direction: column; align-items: center; \x7d\n",
    "            .social-links \x7b flex-wrap: wrap; \x7d\n",
    "            .profile-img \x7b width: 150px; height: 150px; \x7d\n",
    "        \x7d\n",
    "        \n",
    "        /* Smooth Scrolling */\n",
    "        html \x7b\n",
    "            scroll-behavior: smooth;\n",
    "        \x7d\n",
    "        \n",
    "        /* Loading Animation */\n",
    "        .fade-in \x7b\n",
    "            opacity: 0;\n",
    "            transform: translateY(30px);\n",
    "            animation: fadeInUp 0.8s forwards;\n",
    "        \x7d\n",
    "        \n",
    "        @keyframes fadeInUp \x7b\n",
    "            to \x7b\n",
    "                opacity: 1;\n",
    "                transform: translateY(0);\n",
    "            \x7d\n",
    "        \x7d\n",
    "    </style>\n",
    "</head>\n"]

/-- The `<head>` of the page: title, meta tags, the colours of the customisation as style variables, and the style rules. -/
def webHead (p : Portfolio) (a : Artist) : String :=
  String.join [
    "<!DOCTYPE html>\n",
    "<html lang=\"en\">\n",
    "<head>\n",
    "    <meta charset=\"UTF-8\">\n",
    "    <meta name=\"viewport\" content=\"width=device-width, initial-scale=1.0\">\n",
    "    <title>",
    a.name,
    " - ",
    p.title,
    "</title>\n",
    "    <meta name=\"description\" content=\"",
    interp (jsOr p.description a.bio),
    "\">\n",
    "    <meta name=\"keywords\" content=\"",
    keywords a,
    "\">\n",
    "    <link rel=\"stylesheet\" href=\"https://cdnjs.cloudflare.com/ajax/libs/font-awesome/6.4.0/css/all.min.css\">\n",
    "    <link href=\"https://fonts.googleapis.com/css2?family=Poppins:wght@400;600&family=Montserrat:wght@700&display=swap\" rel=\"stylesheet\">\n",
    "    <style>\n",
    "        :root \x7b\n",
    "            --primary: ",
    interp (resolveColors p).primary,
    ";\n",
    "            --secondary: ",
    interp (resolveColors p).secondary,
    ";\n",
    "            --accent: ",
    interp (resolveColors p).accent,
    ";\n",
    styleRules]

/-- The expression `s.charAt(0)`. -/
def charAt0 (s : String) : String :=
  match s.data with
  | [] => ""
  | c :: _ => String.mk [c]

/-- The expression `location.country ? ', ' + location.country : ''`. -/
def countrySuffix (l : Location) : String :=
  if truthy l.country then ", " ++ interp l.country else ""

/-- The profile image for the first media item `m`. -/
def profileImg (a : Artist) (m : MediaItem) : String :=
  String.join [
    "<img src=\"",
    interp m.url,
    "\" alt=\"",
    a.name,
    "\" class=\"profile-img\">"]

/-- The initial-letter placeholder shown without media. -/
def profilePlaceholder (a : Artist) : String :=
  String.join [
    "<div class=\"profile-img\" style=\"background: linear-gradient(135deg, var(--primary), var(--accent)); display: flex; align-items: center; justify-content: center; font-size: 2rem; color: white;\">",
    charAt0 a.name,
    "</div>"]

/-- The profile picture: the first media item, or the placeholder. -/
def profileImage (a : Artist) : String :=
  match a.media with
  | some (m :: _) => profileImg a m
  | _ => profilePlaceholder a

/-- The city and country shown in the badge of the header. -/
def locationBadgeText (l : Location) : String :=
  String.join [
    " \u2022 ",
    interp l.city,
    countrySuffix l]

/-- The expression `artist.location?.city ? ... : ''` of the header. -/
def locationBadge (a : Artist) : String :=
  match a.location with
  | some l => if truthy l.city then locationBadgeText l else ""
  | none => ""

/-- The `<header>` of the page. -/
def webHeader (js : Casing) (a : Artist) : String :=
  String.join [
    "<body>\n",
    "    <header>\n",
    "        <div class=\"container\">\n",
    "            <div class=\"profile\">\n",
    "                ",
    profileImage a,
    "\n",
    "                <h1>",
    a.name,
    "</h1>\n",
    "                <p class=\"subtitle\">",
    categoryLabel js a,
    "</p>\n",
    "                <div class=\"experience-badge\">\n",
    "                    ",
    interp (a.experience.map js.toUpperCase),
    " LEVEL\n",
    "                    ",
    locationBadge a,
    "\n",
    "                </div>\n",
    "            </div>\n",
    "        </div>\n",
    "    </header>\n",
    "\n"]

/-- The navigation entry of the experience sections. -/
def experienceEntry : String := "<li><a href=\"#experience\">Experience</a></li>"

/-- The navigation entry of the gallery sections. -/
def galleryEntry : String := "<li><a href=\"#gallery\">Gallery</a></li>"

/-- The entries of the navigation list, one per line of the template; an
entry whose condition fails is the empty string. -/
def navEntries (p : Portfolio) : List String :=
  ["<li><a href=\"#about\">About</a></li>",
   "<li><a href=\"#skills\">Skills</a></li>",
   if p.sections.any (fun s => s.type == "experience") then experienceEntry else "",
   if p.sections.any (fun s => s.type == "gallery") then galleryEntry else "",
   "<li><a href=\"#contact\">Contact</a></li>"]

/-- A line of the navigation list. -/
def navLine (e : String) : String := "                " ++ e ++ "\n"

/-- The `<nav>` of the page. -/
def webNav (p : Portfolio) : String :=
  String.join [
    "    <nav>\n",
    "        <div class=\"container\">\n",
    "            <ul>\n",
    String.join ((navEntries p).map navLine),
    "            </ul>\n",
    "        </div>\n",
    "    </nav>\n",
    "\n"]

/-- The about block. -/
def aboutBlock (p : Portfolio) (a : Artist) : String :=
  String.join [
    "        <section id=\"about\" class=\"fade-in\">\n",
    "            <h2>About Me</h2>\n",
    "            <div class=\"content-card\">\n",
    "                <p style=\"font-size: 1.1rem; line-height: 1.8;\">",
    interp (jsOr a.bio p.description),
    "</p>\n",
    "            </div>\n",
    "        </section>"]

/-- One skill tag. -/
def skillTag (genre : String) : String :=
  String.join [
    "<div class=\"skill-tag\">",
    genre,
    "</div>"]

/-- The skills block for a non-empty genre list. -/
def skillsSection (genres : List String) : String :=
  String.join [
    "\n",
    "        <section id=\"skills\" class=\"fade-in\">\n",
    "            <h2>Skills & Specialties</h2>\n",
    "            <div class=\"skills-grid\">\n",
    "                ",
    String.join (genres.map skillTag),
    "\n",
    "            </div>\n",
    "        </section>\n",
    "        "]

/-- The expression `artist.genres && artist.genres.length > 0 ? ... : ''`. -/
def skillsBlock (a : Artist) : String :=
  match a.genres with
  | some genres => if genres.length > 0 then skillsSection genres else ""
  | none => ""

/-- The heading of a section:
`section.title || section.type.charAt(0).toUpperCase() + section.type.slice(1)`. -/
def sectionHeading (js : Casing) (sec : Section) : String :=
  interp (jsOr sec.title (some (capitalize js sec.type)))

/-- The block of one section. -/
def sectionBlock (js : Casing) (sec : Section) : String :=
  String.join [
    "\n",
    "        <section id=\"",
    sec.type,
    "\" class=\"fade-in\">\n",
    "            <h2>",
    sectionHeading js sec,
    "</h2>\n",
    "            <div class=\"content-card\">\n",
    "                <div style=\"white-space: pre-line; font-size: 1.1rem; line-height: 1.8;\">",
    interp sec.content,
    "</div>\n",
    "            </div>\n",
    "        </section>\n",
    "        "]

/-- The location item of the contact block. -/
def locationItem (l : Location) : String :=
  String.join [
    "\n",
    "                    <div class=\"contact-item\">\n",
    "                        <i class=\"fas fa-map-marker-alt\"></i>\n",
    "                        <div>\n",
    "                            <strong>Location</strong><br>\n",
    "                            ",
    interp l.city,
    countrySuffix l,
    "\n",
    "                        </div>\n",
    "                    </div>\n",
    "                    "]

/-- The expression `artist.location?.city ? ... : ''` of the contact block. -/
def locationBlock (a : Artist) : String :=
  match a.location with
  | some l => if truthy l.city then locationItem l else ""
  | none => ""

/-- The icon link of one entry of the social-links map; empty when the URL is falsy. -/
def socialLink (entry : String × Option String) : String :=
  if truthy entry.2 then
    String.join [
      "<a href=\"",
      interp entry.2,
      "\" target=\"_blank\" title=\"",
      entry.1,
      "\">\n",
      "                        <i class=\"fab fa-",
      (if entry.1 = "website" then "globe" else entry.1),
      "\"></i>\n",
      "                      </a>"]
  else ""

/-- The row of social icons. -/
def socialLinksRow (links : List (String × Option String)) : String :=
  String.join [
    "\n",
    "                <div class=\"social-links\">\n",
    "                    ",
    String.join (links.map socialLink),
    "\n",
    "                </div>\n",
    "                "]

/-- The expression `artist.socialLinks ? ... : ''`. -/
def socialLinksBlock (a : Artist) : String :=
  match a.socialLinks with
  | some links => socialLinksRow links
  | none => ""

/-- The contact block. -/
def contactBlock (a : Artist) : String :=
  String.join [
    "        <section id=\"contact\" class=\"fade-in\">\n",
    "            <h2>Let's Connect</h2>\n",
    "            <div class=\"content-card\">\n",
    "                <div class=\"contact-info\">\n",
    "                    <div class=\"contact-item\">\n",
    "                        <i class=\"fas fa-envelope\"></i>\n",
    "                        <div>\n",
    "                            <strong>Email</strong><br>\n",
    "                            <a href=\"mailto:",
    interp a.email,
    "\" style=\"color: var(--accent);\">",
    interp a.email,
    "</a>\n",
    "                        </div>\n",
    "                    </div>\n",
    "                    ",
    locationBlock a,
    "\n",
    "                </div>\n",
    "                \n",
    "                ",
    socialLinksBlock a,
    "\n",
    "            </div>\n",
    "        </section>\n"]

/-- The `<main>` of the page: the about block, the skills block, one block per section in input order, and the contact block. -/
def webMain (js : Casing) (p : Portfolio) (a : Artist) : String :=
  String.join [
    "    <main class=\"container\">\n",
    aboutBlock p a,
    "\n",
    "\n",
    "        ",
    skillsBlock a,
    "\n",
    "\n",
    "        ",
    String.join (p.sections.map (sectionBlock js)),
    "\n",
    "\n",
    contactBlock a,
    "    </main>\n",
    "\n"]

/-- The `<footer>` of the page. -/
def webFooter (year : Nat) (a : Artist) : String :=
  String.join [
    "    <footer>\n",
    "        <div class=\"container\">\n",
    "            <div class=\"footer-brand\">\n",
    "                <span>Katika</span><span class=\"highlight\">NaMe</span>\n",
    "            </div>\n",
    "            <p>&copy; ",
    toString year,
    " ",
    a.name,
    ". All rights reserved.</p>\n",
    "            <p style=\"color: var(--text-gray); font-size: 0.9rem; margin-top: 1rem;\">\n",
    "                Powered by KatikaNaMe Platform\n",
    "            </p>\n",
    "        </div>\n",
    "    </footer>\n",
    "\n"]

/-- The trailing script and the end of the document. -/
def webScript : String :=
  String.join [
    "    <script>\n",
    "        // Smooth scrolling for navigation links\n",
    "        document.querySelectorAll('nav a[href^=\"#\"]').forEach(anchor => \x7b\n",
    "            anchor.addEventListener('click', function (e) \x7b\n",
    "                e.preventDefault();\n",
    "                const target = document.querySelector(this.getAttribute('href'));\n",
    "                if (target) \x7b\n",
    "                    target.scrollIntoView(\x7b behavior: 'smooth', block: 'start' \x7d);\n",
    "                \x7d\n",
    "            \x7d);\n",
    "        \x7d);\n",
    "\n",
    "        // Fade in animation on scroll\n",
    "        const observerOptions = \x7b\n",
    "            threshold: 0.1,\n",
    "            rootMargin: '0px 0px -50px 0px'\n",
    "        \x7d;\n",
    "\n",
    "        const observer = new IntersectionObserver((entries) => \x7b\n",
    "            entries.forEach(entry => \x7b\n",
    "                if (entry.isIntersecting) \x7b\n",
    "                    entry.target.style.animationDelay = '0.2s';\n",
    "                    entry.target.classList.add('fade-in');\n",
    "                \x7d\n",
    "            \x7d);\n",
    "        \x7d, observerOptions);\n",
    "\n",
    "        document.querySelectorAll('.fade-in').forEach(el => \x7b\n",
    "            observer.observe(el);\n",
    "        \x7d);\n",
    "\n",
    "        // Add loading state\n",
    "        window.addEventListener('load', () => \x7b\n",
    "            document.body.style.opacity = '1';\n",
    "        \x7d);\n",
    "    </script>\n",
    "</body>\n",
    "</html>"]

/-- The document returned by `generateWebPortfolioHTML` for a portfolio `p`
whose populated artist is `a`; `year` is `new Date().getFullYear()`. -/
def webPage (js : Casing) (year : Nat) (p : Portfolio) (a : Artist) : String :=
  String.join [webHead p a, webHeader js a, webNav p, webMain js p a, webFooter year a,
    webScript]

/-- The function `generateWebPortfolioHTML(portfolio)`. Reading
`artist.name` of a `null` artist raises a `TypeError`. -/
def generateWebPortfolioHTML (js : Casing) (year : Nat) (pp : Populated) :
    Except String String :=
  match pp.artist with
  | none => Except.error nullArtistError
  | some a => Except.ok (webPage js year pp.doc a)

/-! ## The web route `POST /:id/generate-web` -/

/-- The call `s.replace(/\s+/g, '-')`: every maximal run of white space
becomes one hyphen. The flag tells whether the previous character was
white space. -/
def replaceSpaceRuns : Bool → List Char → List Char
  | _, [] => []
  | inRun, c :: cs =>
    if isStrWhiteSpace c then
      if inRun then replaceSpaceRuns true cs else '-' :: replaceSpaceRuns true cs
    else c :: replaceSpaceRuns false cs

/-- The default domain `artist.name.toLowerCase().replace(/\s+/g, '-')`. -/
def defaultDomain (js : Casing) (name : String) : String :=
  String.mk (replaceSpaceRuns false (js.toLowerCase name).data)

/-- What lower-casing does to text that is lower-cased already. The
predicate `lower` tells the characters that lower-casing leaves alone (those
without a lower-case form of their own, the hyphen among them): the result
of `toLowerCase` is made of such characters, and a string made of such
characters is returned as it is. -/
structure LowerStable (js : Casing) (lower : Char → Prop) : Prop where
  hyphen : lower '-'
  result : ∀ (s : String), ∀ c ∈ (js.toLowerCase s).data, lower c
  fixed : ∀ s : String, (∀ c ∈ s.data, lower c) → js.toLowerCase s = s

/-- The expression `customDomain || <default domain>`. -/
def webDomain (js : Casing) (customDomain : Option String) (name : String) : String :=
  match customDomain with
  | some d => if d ≠ "" then d else defaultDomain js name
  | none => defaultDomain js name

/-- What the web route reads from its surroundings. -/
structure WebEnv where
  /-- The value of `Date.now()` when the file name is built. -/
  now : Nat
  /-- The value of `new Date().getFullYear()` inside the template. -/
  year : Nat
  /-- The value of `new Date()` of the pushed record. -/
  generatedAt : Nat
  /-- The error of `fs.writeFileSync`, if it fails. -/
  writeError : Option String
  /-- The error of `portfolio.save()`, if it fails. -/
  saveError : Option String
  /-- The case conversions of the engine. -/
  js : Casing

/-- What a request to the web route leaves behind. -/
structure WebResult where
  /-- The response sent to the client. -/
  response : Response
  /-- The file written into the web-portfolios directory: name and content. -/
  written : Option (String × String)
  /-- The store after the request. -/
  db : Db
  deriving DecidableEq, Repr

/-- The query `Portfolio.findById(id).populate('artist', '-email')`. -/
def findByIdWithoutEmail (db : Db) (id : String) : Option Populated :=
  (findByIdPopulated db id).map
    (fun pp => { pp with artist := pp.artist.map (fun a => { a with email := none }) })

/-- The route `POST /:id/generate-web` with body `{ customDomain }`. -/
def generateWeb (env : WebEnv) (db : Db) (id : String) (customDomain : Option String) :
    WebResult :=
  match findByIdWithoutEmail db id with
  | none => ⟨⟨404, Body.error "Portfolio not found"⟩, none, db⟩
  | some pp =>
    match generateWebPortfolioHTML env.js env.year pp, pp.artist with
    | Except.error msg, _ => ⟨⟨500, Body.error msg⟩, none, db⟩
    | Except.ok _, none => ⟨⟨500, Body.error nullArtistError⟩, none, db⟩
    | Except.ok webPortfolioHtml, some a =>
      let domain := webDomain env.js customDomain a.name
      let filename := domain ++ "-" ++ toString env.now ++ ".html"
      match env.writeError with
      | some msg => ⟨⟨500, Body.error msg⟩, none, db⟩
      | none =>
        let url := "/uploads/web-portfolios/" ++ filename
        let p1 := { pp.doc with
          generatedFiles := pp.doc.generatedFiles ++ [⟨"html", filename, url, env.generatedAt⟩] }
        match env.saveError with
        | some msg => ⟨⟨500, Body.error msg⟩, some (filename, webPortfolioHtml), db⟩
        | none =>
          ⟨⟨200, Body.webGenerated "Web portfolio generated successfully"
              ("https://" ++ domain ++ ".katikaname.com") url filename domain⟩,
            some (filename, webPortfolioHtml), db.save p1⟩

/-! ## The public listing `GET /public` -/

/-! ### Regular expressions of the search stage

The search term is used as a regular expression (`$regex: search` and
`new RegExp(search, 'i')`), run by the store. How a pattern is read is a
parameter of the routes (`Engine.regex`). The fragment below, the patterns
that are a sequence of literal characters, `.`, `^` and `$`, gives one
engine in executable form (`fragmentEngine`), on which examples are
evaluated; it reads no term with another metacharacter. -/

/-- An element of a pattern of the fragment. -/
inductive RxAtom
  | lit (c : Char)
  | any
  | bol
  | eol
  deriving DecidableEq, Repr

/-- The metacharacters that the fragment leaves out: the backslash, the
bar, the quantifiers and the brackets. -/
def rxUnsupported : List Char := "\\|?*+()[]\x7b\x7d".data

/-- Reads a search term as a pattern; `none` outside the fragment. -/
def compilePattern (term : String) : Option (List RxAtom) :=
  term.data.mapM fun c =>
    if c = '.' then some RxAtom.any
    else if c = '^' then some RxAtom.bol
    else if c = '$' then some RxAtom.eol
    else if c ∈ rxUnsupported then none
    else some (RxAtom.lit c)

/-- Case folding of option `i`, on ASCII letters. -/
def foldCase (c : Char) : Char := c.toLower

/-- Whether the atoms match at the current position; `atStart` tells
whether the position is the start of the subject. The dot matches any
character but a line feed; `^` matches at the start of the subject; `$`
matches at its end or before a final line feed. -/
def matchHere : List RxAtom → Bool → List Char → Bool
  | [], _, _ => true
  | RxAtom.lit c :: rest, _, x :: xs => foldCase c == foldCase x && matchHere rest false xs
  | RxAtom.lit _ :: _, _, [] => false
  | RxAtom.any :: rest, _, x :: xs => x != '\n' && matchHere rest false xs
  | RxAtom.any :: _, _, [] => false
  | RxAtom.bol :: rest, atStart, xs => atStart && matchHere rest atStart xs
  | RxAtom.eol :: rest, atStart, xs => (xs == [] || xs == ['\n']) && matchHere rest atStart xs

/-- Whether the atoms match at some position from the current one on. -/
def searchFrom (atoms : List RxAtom) : Bool → List Char → Bool
  | atStart, [] => matchHere atoms atStart []
  | atStart, x :: xs => matchHere atoms atStart (x :: xs) || searchFrom atoms false xs

/-- Whether the pattern matches somewhere in the subject. -/
def regexTest (atoms : List RxAtom) (subject : String) : Bool :=
  searchFrom atoms true subject.data

/-! ### What the store decides by itself -/

/-- What the store decides when it runs a query: how it reads a regular
expression, and in which order it meets the documents that it sorts. A
sort leaves documents of equal keys in the order in which it meets them,
and the store fixes no such order: it may differ from one request to the
next, so that every request comes with its own engine. -/
structure Engine where
  /-- The test of a pattern with option `i` on a subject; `none` for a term
  that is rejected as a regular expression. -/
  regex : String → Option (String → Bool)
  /-- The positions `0 .. n - 1` of `n` documents, in the order in which
  the store meets them. -/
  scan : Nat → List Nat
  /-- Every position is met once. -/
  scan_perm : ∀ n, (scan n).Perm (List.range n)

/-- The documents in the order in which the store meets them. -/
def Engine.arrange (eng : Engine) {α : Type} (l : List α) : List α :=
  (eng.scan l.length).filterMap fun i => l[i]?

/-- The engine that reads the patterns of the fragment, rejects the other
terms, and meets the documents in the order of the collection. -/
def fragmentEngine : Engine where
  regex term := (compilePattern term).map regexTest
  scan := List.range
  scan_perm _ := List.Perm.refl _

/-- The engine that reads the patterns as `fragmentEngine` does and meets
the documents in the reverse order of the collection. -/
def reverseEngine : Engine where
  regex term := (compilePattern term).map regexTest
  scan n := (List.range n).reverse
  scan_perm n := List.reverse_perm (List.range n)

/-! ### The aggregation pipeline -/

/-- The conditions of the `$match` stages of the listing. -/
inductive Cond
  /-- The filter `{ isPublic: true }`. -/
  | isPublic
  /-- The filter `{ 'artist.isActive': true }`. -/
  | artistActive
  /-- The filter `{ 'artist.category': category }`. -/
  | artistCategory (category : String)
  /-- The `$or` of the four regular-expression conditions on artist name,
  title, description and genres. -/
  | search (term : String)
  deriving DecidableEq, Repr

/-- The stages used by the listing. -/
inductive Stage
  | matchDocs (c : Cond)
  | lookup
  | unwind
  | sort
  | skip (n : Int)
  | limit (n : Int)
  | project
  | count
  deriving DecidableEq, Repr

/-- Why an aggregation fails. -/
inductive AggError
  /-- A stage argument the store rejects: a negative `$skip`, a `$limit`
  that is not positive. -/
  | invalidArgument
  /-- A search term that the engine rejects as a regular expression. -/
  | invalidPattern
  /-- A stage applied to documents of a shape it does not meet in the listing. -/
  | unsupportedShape
  deriving DecidableEq, Repr

/-- The message of the error, echoed by the route. -/
def AggError.message : AggError → String
  | AggError.invalidArgument => "invalid argument to a pipeline stage"
  | AggError.invalidPattern => "regular expression is invalid"
  | AggError.unsupportedShape => "stage applied to documents of an unsupported shape"

/-- A condition on a field of the joined artist: on an array it holds when
some element satisfies it, on an unresolved reference it fails. -/
def artistAny (f : Artist → Bool) : ArtistField → Bool
  | ArtistField.doc a => f a
  | ArtistField.docs l => l.any f
  | ArtistField.ref _ => false

/-- The `$or` of the search stage on one row, for the test `rx` of the
pattern: it matches the artist's name, the title, the description, or an
element of the artist's genres. -/
def searchRow (rx : String → Bool) (r : Row) : Bool :=
  artistAny (fun a => rx a.name) r.artist
    || rx r.p.title
    || (match r.p.description with
        | some d => rx d
        | none => false)
    || artistAny (fun a => match a.genres with
        | some gs => gs.any rx
        | none => false) r.artist

/-- The predicate of a condition on rows; a search term is compiled first. -/
def compileCond (eng : Engine) : Cond → Except AggError (Row → Bool)
  | Cond.isPublic => Except.ok fun r => r.p.isPublic
  | Cond.artistActive => Except.ok fun r => artistAny (fun a => a.isActive) r.artist
  | Cond.artistCategory c => Except.ok fun r => artistAny (fun a => a.category == some c) r.artist
  | Cond.search term =>
    match eng.regex term with
    | none => Except.error AggError.invalidPattern
    | some rx => Except.ok (searchRow rx)

/-- The rows of a list of documents, when all of them are rows. -/
def asRows (docs : List AggDoc) : Except AggError (List Row) :=
  docs.mapM fun d =>
    match d with
    | AggDoc.row r => Except.ok r
    | _ => Except.error AggError.unsupportedShape

/-- The order `{ views: -1, createdAt: -1 }`: whether `a` may come before `b`. -/
def sortBefore (a b : Row) : Bool :=
  decide (a.p.views > b.p.views) ||
    (a.p.views == b.p.views && decide (a.p.createdAt ≥ b.p.createdAt))

/-- The projection of an artist. -/
def projectArtist (a : Artist) : ListedArtist :=
  ⟨a.name, a.category, a.genres, a.location, a.media.map (fun m => m.take 1)⟩

/-- The `$project` stage on one row. -/
def projectRow (r : Row) : Listed :=
  ⟨r.p._id, r.p.title, r.p.description, r.p.template, r.p.views, r.p.createdAt,
    match r.artist with
    | ArtistField.doc a => ListedArtistField.one (projectArtist a)
    | ArtistField.docs l => ListedArtistField.many (l.map projectArtist)
    | ArtistField.ref _ => ListedArtistField.absent⟩

/-- The `$lookup` stage on one row: the artists whose `_id` is the
reference held by the row. A field that is no reference joins nothing. -/
def lookupRow (db : Db) (r : Row) : Row :=
  { r with artist :=
      match r.artist with
      | ArtistField.ref id => ArtistField.docs (db.artists.filter (fun a => a._id == id))
      | _ => ArtistField.docs [] }

/-- The `$unwind` stage on one row: one row per element of the array; a
field that is no array is left as it is. -/
def unwindRow (r : Row) : List Row :=
  match r.artist with
  | ArtistField.docs l => l.map fun a => { r with artist := ArtistField.doc a }
  | _ => [r]

/-- One stage of the pipeline run on the documents of the previous one.
The `$sort` stage sorts the documents as the store meets them, those of
equal keys staying in that order. -/
def runStage (eng : Engine) (db : Db) (st : Stage) (docs : List AggDoc) :
    Except AggError (List AggDoc) :=
  match st with
  | Stage.matchDocs c =>
    match compileCond eng c, asRows docs with
    | Except.ok f, Except.ok rows => Except.ok ((rows.filter f).map AggDoc.row)
    | Except.error e, _ => Except.error e
    | _, Except.error e => Except.error e
  | Stage.lookup =>
    match asRows docs with
    | Except.ok rows => Except.ok ((rows.map (lookupRow db)).map AggDoc.row)
    | Except.error e => Except.error e
  | Stage.unwind =>
    match asRows docs with
    | Except.ok rows => Except.ok ((rows.flatMap unwindRow).map AggDoc.row)
    | Except.error e => Except.error e
  | Stage.sort =>
    match asRows docs with
    | Except.ok rows => Except.ok (((eng.arrange rows).mergeSort sortBefore).map AggDoc.row)
    | Except.error e => Except.error e
  | Stage.skip n =>
    if n < 0 then Except.error AggError.invalidArgument else Except.ok (docs.drop n.toNat)
  | Stage.limit n =>
    if n ≤ 0 then Except.error AggError.invalidArgument else Except.ok (docs.take n.toNat)
  | Stage.project =>
    match asRows docs with
    | Except.ok rows => Except.ok ((rows.map projectRow).map AggDoc.listed)
    | Except.error e => Except.error e
  | Stage.count =>
    Except.ok (if docs.length = 0 then [] else [AggDoc.count docs.length])

/-- Runs the stages in order on the given documents. -/
def runStages (eng : Engine) (db : Db) :
    List Stage → List AggDoc → Except AggError (List AggDoc)
  | [], docs => Except.ok docs
  | st :: rest, docs =>
    match runStage eng db st docs with
    | Except.ok docs1 => runStages eng db rest docs1
    | Except.error e => Except.error e

/-- The call `Portfolio.aggregate(pipeline)`: the pipeline runs on the
portfolio collection. -/
def aggregate (eng : Engine) (db : Db) (pipeline : List Stage) :
    Except AggError (List AggDoc) :=
  runStages eng db pipeline
    (db.portfolios.map fun p => AggDoc.row ⟨p, ArtistField.ref p.artist⟩)

/-- The query string of the listing. The numeric parameters are given by
their values; an absent parameter takes its default. -/
structure Query where
  page : Option Nat
  limit : Option Nat
  category : Option String
  search : Option String
  deriving DecidableEq, Repr

/-- The destructuring default `page = 1`. -/
def Query.pageValue (q : Query) : Nat := q.page.getD 1

/-- The destructuring default `limit = 12`. -/
def Query.limitValue (q : Query) : Nat := q.limit.getD 12

/-- The stages up to and including the optional category and search
filters. -/
def filterStages (q : Query) : List Stage :=
  let pipeline := [Stage.matchDocs Cond.isPublic, Stage.lookup, Stage.unwind,
    Stage.matchDocs Cond.artistActive]
  let pipeline1 :=
    if truthy q.category then pipeline ++ [Stage.matchDocs (Cond.artistCategory (interp q.category))]
    else pipeline
  if truthy q.search then pipeline1 ++ [Stage.matchDocs (Cond.search (interp q.search))]
  else pipeline1

/-- The array `pipeline` after the last `push`. -/
def listingPipeline (q : Query) : List Stage :=
  filterStages q ++
    [Stage.sort, Stage.skip (((q.pageValue : Int) - 1) * (q.limitValue : Int)),
     Stage.limit (q.limitValue : Int), Stage.project]

/-- The call `pipeline.slice(0, -3)` followed by the push of `$count`. -/
def countPipeline (q : Query) : List Stage :=
  (listingPipeline q).take ((listingPipeline q).length - 3) ++ [Stage.count]

/-- The expression `totalResult[0]?.total || 0`. -/
def totalOf (totalResult : List AggDoc) : Nat :=
  match totalResult with
  | AggDoc.count n :: _ => n
  | _ => 0

/-- The expression `Math.ceil(total / limit)`; `none` when the quotient is
not finite. -/
def mathCeilDiv (total limit : Nat) : Option Int :=
  if limit = 0 then none else some (Int.ceil ((total : ℚ) / (limit : ℚ)))

/-- The `pagination` object of the response. -/
def pagination (page limit total : Nat) : Pagination :=
  { current := page
    pages := mathCeilDiv total limit
    total := total
    hasNext := decide (page * limit < total)
    hasPrev := decide (page > 1) }

/-- The route `GET /public`. The page of portfolios is computed first
(`const portfolios = await Portfolio.aggregate(pipeline)`, present in the
fragment `part_000`), then the total. -/
def publicListing (eng : Engine) (db : Db) (q : Query) : Response :=
  match aggregate eng db (listingPipeline q) with
  | Except.error e => ⟨500, Body.error e.message⟩
  | Except.ok portfolios =>
    match aggregate eng db (countPipeline q) with
    | Except.error e => ⟨500, Body.error e.message⟩
    | Except.ok totalResult =>
      ⟨200, Body.listing portfolios (pagination q.pageValue q.limitValue (totalOf totalResult))⟩

/-! ## Auxiliary notions of the properties -/

/-- Every media placeholder box among the calls ends on the page: its
bottom edge `y + 100` does not pass the page height. -/
def BoxesOnPage (ops : List PdfOp) : Prop :=
  ∀ y ∈ mediaBoxes ops, y + 100 ≤ pageHeight

/-- Number of explicit page breaks among the calls. -/
def pageBreaks (ops : List PdfOp) : Nat :=
  ops.countP (fun o => o == PdfOp.addPage)

/-! ## Sample data -/

/-- A library whose cursor stays at the top and whose strings have no width. -/
def plainPdfEnv : PdfEnv :=
  { now := 1700000000000
    dateString := "11/14/2023"
    endTime := 1700000000500
    cursor := fun _ => 0
    widthOfString := fun _ _ => 0
    fileSize := 4096
    saveOk := true
    js := asciiCasing }

/-- An artist with a name and an email and nothing else. -/
def plainArtist : Artist :=
  { _id := "a1", name := "Amina", email := some "amina@example.com", category := none,
    experience := none, bio := none, location := none, genres := none, socialLinks := none,
    media := none, isActive := true, isVerified := true, portfolio := none, rating := none,
    views := none, createdAt := 0 }

/-- A portfolio of `plainArtist` without sections. -/
def plainPortfolio : Portfolio :=
  { _id := "p1", artist := "a1", template := "modern", title := "Work", description := none,
    customizations := none, sections := [], views := 0, isPublic := true,
    generatedFiles := [], createdAt := 0, updatedAt := 0 }

/-- A portfolio with one section that has no content text and six media
references. -/
def sixMediaPortfolio : Portfolio :=
  { plainPortfolio with
    sections := [⟨"gallery", none, none, some ["m1", "m2", "m3", "m4", "m5", "m6"]⟩] }

/-! ## Reference notions for the listing -/

/-- Whether the test `rx` of a search pattern hits a portfolio joined to
its artist: in the artist's name, the title, the description or one of the
genre tags. -/
def searchHit (rx : String → Bool) (p : Portfolio) (a : Artist) : Bool :=
  rx a.name || rx p.title
    || (match p.description with
        | some d => rx d
        | none => false)
    || (match a.genres with
        | some gs => gs.any rx
        | none => false)

/-- The public portfolios joined to their active artists, in the order of
the collection. -/
def publicActivePairs (db : Db) : List (Portfolio × Artist) :=
  ((db.portfolios.filter fun p => p.isPublic).flatMap fun p =>
    (db.artists.filter fun a => a._id == p.artist).map fun a => (p, a)).filter
      fun pa => pa.2.isActive

/-- The filtered set of a query in closed form: the public portfolios of
active artists, restricted to the category when one is given and to the
hits of the search pattern when a term is given; an error when the engine
rejects the term. -/
def filteredSet (eng : Engine) (db : Db) (q : Query) :
    Except AggError (List (Portfolio × Artist)) :=
  let byCategory :=
    if truthy q.category then
      (publicActivePairs db).filter fun pa => pa.2.category == some (interp q.category)
    else publicActivePairs db
  if truthy q.search then
    match eng.regex (interp q.search) with
    | none => Except.error AggError.invalidPattern
    | some rx => Except.ok (byCategory.filter fun pa => searchHit rx pa.1 pa.2)
  else Except.ok byCategory

/-- The pipeline document of a portfolio joined to its artist. -/
def pairRow (pa : Portfolio × Artist) : AggDoc :=
  AggDoc.row ⟨pa.1, ArtistField.doc pa.2⟩

/-- The characters with a special meaning in a regular expression. -/
def rxMeta : List Char := '.' :: '^' :: '$' :: rxUnsupported

/-- Whether `term` occurs in `subject` when letter case is ignored. -/
def occursIgnoringCase (term subject : String) : Prop :=
  (term.data.map foldCase) <:+: (subject.data.map foldCase)

/-- An artist whose only genre tag holds a dollar sign. -/
def dollarArtist : Artist :=
  { plainArtist with genres := some ["US$ rates"] }

/-- An artist whose only genre tag is `Afro Jazz`. -/
def jazzArtist : Artist :=
  { plainArtist with genres := some ["Afro Jazz"] }

/-! ## Reference notions for the social icons -/

/-- The icon class of a platform: `fa-globe` for the platform named exactly
`website`, and `fa-` followed by the platform name otherwise. -/
def iconClass (platform : String) : String :=
  if platform = "website" then "fa-globe" else "fa-" ++ platform

/-- The icon link of a platform: an anchor whose `href` is the platform's
URL, holding an icon of the platform's class. -/
def iconLink (platform url : String) : String :=
  "<a href=\"" ++ url ++ "\" target=\"_blank\" title=\"" ++ platform ++ "\">\n"
    ++ "                        <i class=\"fab " ++ iconClass platform ++ "\"></i>\n"
    ++ "                      </a>"

/-- The platforms of a social-links map whose URL is non-empty, with their
URLs, in the order of the map. -/
def populatedLinks (links : List (String × Option String)) : List (String × String) :=
  links.filterMap fun e =>
    match e.2 with
    | some url => if url ≠ "" then some (e.1, url) else none
    | none => none

/-! ## The error-handling middleware -/

/-- The `code` of an error: a number (`11000`) or a string
(`'LIMIT_FILE_SIZE'`). -/
inductive ErrCode
  | num (n : Int)
  | str (s : String)
  deriving DecidableEq, Repr

/-- An error object as the middleware reads it. `errors` lists the
`message` of each entry of `err.errors` in the order of `Object.values`;
`keyValue` lists the keys of `err.keyValue` in the order of `Object.keys`. -/
structure JsError where
  name : Option String
  message : Option String
  code : Option ErrCode
  status : Option Nat
  stack : Option String
  errors : Option (List (Option String))
  keyValue : Option (List String)
  deriving DecidableEq, Repr

/-- The helper `createError(status, message, code = null)`: an `Error` with
the given message, status and code. The stack is the one the engine records
when the error is built. -/
def createError (stack : String) (status : Nat) (message : String)
    (code : Option ErrCode) : JsError :=
  { name := some "Error"
    message := some message
    code := code
    status := some status
    stack := some stack
    errors := none
    keyValue := none }

/-- Body of a response of the error middleware. -/
inductive ErrorBody
  /-- The object `{ error, details }` of a validation failure. -/
  | validation (error : String) (details : List (Option String))
  /-- The object `{ error, field }` of a duplicate key. -/
  | duplicate (error : String) (field : Option String)
  /-- The object `{ error }`. -/
  | plain (error : String)
  /-- The object `{ error, maxSize }`. -/
  | tooLarge (error : String) (maxSize : String)
  /-- The object of the default response: `{ error }`, spread with
  `{ stack, details }` (the stack and the error itself) in development. -/
  | fallback (error : String) (debug : Option (Option String × JsError))
  deriving DecidableEq, Repr

/-- A response of the error middleware. -/
structure ErrorResponse where
  status : Nat
  body : ErrorBody
  deriving DecidableEq, Repr

/-- Message of the `TypeError` of `Object.values(undefined)` and
`Object.keys(undefined)`. -/
def nullObjectError : String := "Cannot convert undefined or null to object"

/-- The expression `err.status || 500`. -/
def statusOr500 (status : Option Nat) : Nat :=
  match status with
  | some n => if n ≠ 0 then n else 500
  | none => 500

/-- The error middleware `app.use((err, req, res, next) => ...)`; `nodeEnv`
is `process.env.NODE_ENV`. The result is the response sent, or the message
of the exception that the middleware raises itself. -/
def errorMiddleware (nodeEnv : Option String) (err : JsError) : Except String ErrorResponse :=
  if err.name = some "ValidationError" then
    match err.errors with
    | some errors => Except.ok ⟨400, ErrorBody.validation "Validation failed" errors⟩
    | none => Except.error nullObjectError
  else if err.code = some (ErrCode.num 11000) then
    match err.keyValue with
    | some keys =>
      Except.ok ⟨400, ErrorBody.duplicate (interp keys.head? ++ " already exists") keys.head?⟩
    | none => Except.error nullObjectError
  else if err.name = some "JsonWebTokenError" then
    Except.ok ⟨401, ErrorBody.plain "Invalid token"⟩
  else if err.name = some "TokenExpiredError" then
    Except.ok ⟨401, ErrorBody.plain "Token expired"⟩
  else if err.code = some (ErrCode.str "LIMIT_FILE_SIZE") then
    Except.ok ⟨400, ErrorBody.tooLarge "File too large" "10MB"⟩
  else if err.code = some (ErrCode.str "LIMIT_UNEXPECTED_FILE") then
    Except.ok ⟨400, ErrorBody.plain "Too many files or unexpected field name"⟩
  else
    Except.ok ⟨statusOr500 err.status,
      ErrorBody.fallback (if truthy err.message then interp err.message else "Internal Server Error")
        (if nodeEnv = some "development" then some (err.stack, err) else none)⟩

/-! ## The route `POST /` that creates a portfolio -/

/-- The fallback `{ heading: 'Montserrat', body: 'Poppins' }`. -/
def defaultFonts : Fonts := ⟨some "Montserrat", some "Poppins"⟩

/-- The body of a create request. Identifiers are well-formed object ids (a
malformed one makes the store's lookup fail, which is not covered here),
and the title is present. -/
structure CreateBody where
  artistId : Option String
  template : Option String
  title : String
  description : Option String
  sections : Option (List Section)
  customizations : Option Customizations
  deriving DecidableEq, Repr

/-- The `customizations` object that the route hands to `new Portfolio`:
`colors` and `fonts` fall back as whole objects, `layout` as a string. -/
def requestCustomizations (customizations : Option Customizations) : Customizations :=
  { colors := some (match customizations.bind (fun c => c.colors) with
      | some colors => colors
      | none => defaultColors)
    fonts := some (match customizations.bind (fun c => c.fonts) with
      | some fonts => fonts
      | none => defaultFonts)
    layout := some (if truthy (customizations.bind (fun c => c.layout))
      then interp (customizations.bind (fun c => c.layout)) else "grid") }

/-- The defaults that the `Portfolio` schema declares for the view counter
and the public flag, which the route leaves unset. The schema
(`models/Portfolio`) is not part of the route: the two values are taken as
given. -/
structure PortfolioSchema where
  views : Nat
  isPublic : Bool
  deriving DecidableEq, Repr

/-- Modelled from the spec: "customization bundle (primary/secondary/accent
colors, heading/body font names, layout mode — all with documented
defaults)" and "customization fields always resolve to a concrete value
(explicit default fallback chain)". The `Portfolio` schema, which the
routes require from `models/Portfolio`, is taken to declare for every entry
of the colors and of the fonts object the default that the routes use for
the whole object: when the document is built, an entry that is unset takes
its default, and an entry that is set is kept. -/
def applySchema (c : Customizations) : Customizations :=
  { colors := c.colors.map fun cols =>
      ⟨some (cols.primary.getD "#B026FF"), some (cols.secondary.getD "#ffffff"),
       some (cols.accent.getD "#FFD23F")⟩
    fonts := c.fonts.map fun f =>
      ⟨some (f.heading.getD "Montserrat"), some (f.body.getD "Poppins")⟩
    layout := c.layout }

/-- What the create route reads from its surroundings. -/
structure CreateEnv where
  /-- The `_id` given to the new document. -/
  newId : String
  /-- The time of the creation. -/
  now : Nat
  /-- The defaults of the `Portfolio` schema for the fields outside
  the customization bundle. -/
  schema : PortfolioSchema
  /-- The error of `portfolio.save()`, if it fails. -/
  portfolioSaveError : Option String
  /-- The error of `artist.save()`, if it fails. -/
  artistSaveError : Option String

/-- The document built by `new Portfolio({ ... })`: the object that the
route hands over, with the defaults of the schema. -/
def newPortfolio (env : CreateEnv) (body : CreateBody) : Portfolio :=
  { _id := env.newId
    artist := interp body.artistId
    template := if truthy body.template then interp body.template else "modern"
    title := body.title
    description := body.description
    customizations := some (applySchema (requestCustomizations body.customizations))
    sections := body.sections.getD []
    views := env.schema.views
    isPublic := env.schema.isPublic
    generatedFiles := []
    createdAt := env.now
    updatedAt := env.now }

/-- The query `Artist.findById(artistId)`. -/
def findArtistById (db : Db) (artistId : Option String) : Option Artist :=
  match artistId with
  | some id => db.artists.find? (fun a => a._id == id)
  | none => none

/-- What a create request leaves behind. -/
structure CreateResult where
  /-- The response sent to the client. -/
  response : Response
  /-- The store after the request. -/
  db : Db
  deriving DecidableEq, Repr

/-- The selection `'name email category experience'` of an artist. -/
def summarize (a : Artist) : ArtistSummary :=
  ⟨a._id, a.name, a.email, a.category, a.experience⟩

/-- The route `POST /`. -/
def createPortfolio (env : CreateEnv) (db : Db) (body : CreateBody) : CreateResult :=
  match findArtistById db body.artistId with
  | none => ⟨⟨404, Body.error "Artist not found"⟩, db⟩
  | some artist =>
    let portfolio := newPortfolio env body
    match env.portfolioSaveError with
    | some msg => ⟨⟨500, Body.error msg⟩, db⟩
    | none =>
      let db1 := db.insert portfolio
      match env.artistSaveError with
      | some msg => ⟨⟨500, Body.error msg⟩, db1⟩
      | none =>
        let db2 := db1.saveArtist { artist with portfolio := some portfolio._id }
        ⟨⟨201, Body.portfolioCreated "Portfolio created successfully" portfolio
            ((db2.artists.find? (fun a => a._id == portfolio.artist)).map summarize)⟩, db2⟩

/-! ## The path of the file written by the web route -/

/-- Splits a path at the separator `/`; `cur` is the segment being read,
in reverse. -/
def splitSegments : List Char → List Char → List (List Char)
  | cur, [] => [cur.reverse]
  | cur, c :: cs => if c = '/' then cur.reverse :: splitSegments [] cs else splitSegments (c :: cur) cs

/-- The segments of a normalised path, kept in reverse in `acc`: an empty
segment and `.` are dropped, `..` removes the segment before it, and at the
top it is kept only when the path may climb above its start. -/
def normalizeSegments (allowAboveRoot : Bool) : List (List Char) → List (List Char) →
    List (List Char)
  | acc, [] => acc.reverse
  | acc, seg :: rest =>
    if seg = [] ∨ seg = ['.'] then normalizeSegments allowAboveRoot acc rest
    else if seg = ['.', '.'] then
      match acc with
      | top :: below =>
        if top = ['.', '.'] then normalizeSegments allowAboveRoot (seg :: acc) rest
        else normalizeSegments allowAboveRoot below rest
      | [] =>
        if allowAboveRoot then normalizeSegments allowAboveRoot [seg] rest
        else normalizeSegments allowAboveRoot [] rest
    else normalizeSegments allowAboveRoot (seg :: acc) rest

/-- The function `path.normalize` on POSIX paths. -/
def pathNormalize (path : String) : String :=
  if path.data = [] then "."
  else
    let isAbsolute : Bool := path.data.head? = some '/'
    let trailingSeparator : Bool := path.data.getLast? = some '/'
    let segs := normalizeSegments (!isAbsolute) [] (splitSegments [] path.data)
    let body : List Char := List.intercalate ['/'] segs
    let body1 : List Char :=
      if body = [] ∧ !isAbsolute then ['.'] else body
    let body2 : List Char :=
      if body1 ≠ [] ∧ trailingSeparator then body1 ++ ['/'] else body1
    String.mk (if isAbsolute then '/' :: body2 else body2)

/-- The function `path.join` on POSIX paths: the non-empty arguments joined
by `/`, then normalised. -/
def pathJoin (parts : List String) : String :=
  match parts.filter (fun s => s ≠ "") with
  | [] => "."
  | joined => pathNormalize (String.intercalate "/" joined)

/-- The directory `path.join(__dirname, '../uploads/web-portfolios')`. -/
def webDir (dirname : String) : String :=
  pathJoin [dirname, "../uploads/web-portfolios"]

/-- The path `path.join(webDir, filename)` that `fs.writeFileSync` writes. -/
def webFilePath (dirname filename : String) : String :=
  pathJoin [webDir dirname, filename]

/-! ## Sample requests -/

/-- A create request for the plain artist whose `colors` object gives the
primary colour only. -/
def partialColorsBody : CreateBody :=
  { artistId := some "a1", template := none, title := "Work", description := none,
    sections := none,
    customizations := some ⟨some ⟨some "#123456", none, none⟩, none, none⟩ }

/-- Surroundings of a create request in which both saves succeed. -/
def plainCreateEnv : CreateEnv :=
  { newId := "p9", now := 1700000000000, schema := ⟨0, false⟩,
    portfolioSaveError := none, artistSaveError := none }

/-- Surroundings of a web request in which the write and the save succeed. -/
def plainWebEnv : WebEnv :=
  { now := 1700000000000, year := 2023, generatedAt := 1700000000500,
    writeError := none, saveError := none, js := asciiCasing }

/-! ## Named values of the PDF route -/

/-- The constant `primaryRgb = hexToRgb(colors.primary)` of the PDF route. -/
def primaryRgb (p : Portfolio) : Rgb := hexToRgb (interp (resolveColors p).primary)

/-- The constant `accentRgb = hexToRgb(colors.accent)` of the PDF route. -/
def accentRgb (p : Portfolio) : Rgb := hexToRgb (interp (resolveColors p).accent)

/-- A portfolio whose colours object holds a primary and a secondary colour
and no accent. -/
def missingAccentPortfolio : Portfolio :=
  { plainPortfolio with
    customizations := some ⟨some ⟨some "#112233", some "#ffffff", none⟩, none, none⟩ }

/-- The calls of the cover page up to the title: the colour band with the
name, the category and the experience level, the accent line and the
title. -/
def coverHead (env : PdfEnv) (p : Portfolio) (a : Artist) (primary accent : Ink) :
    List PdfOp :=
  [PdfOp.rect 0 0 pageWidth 200, PdfOp.fill primary,
   PdfOp.fontSize 32, PdfOp.fillColor white, PdfOp.text (some a.name) 50 80 centered,
   PdfOp.fontSize 18, PdfOp.text (some (categoryLabel env.js a)) 50 120 centered,
   PdfOp.fontSize 14, PdfOp.text (some (experienceLabel env.js a)) 50 145 centered,
   PdfOp.rect 50 180 (pageWidth - 100) 3, PdfOp.fill accent,
   PdfOp.fontSize 24, PdfOp.fillColor primary, PdfOp.text (some p.title) 50 220 noOpts,
   PdfOp.moveDown 1]

/-! ## The blocks of the PDF contact page

The contact page, cut into its blocks: each block takes the calls issued so
far and `contactY` and returns them updated. -/

/-- The page break, the header band and the email block, which is always
drawn; `contactY` is 170 after it. -/
def contactHead (a : Artist) (primary accent : Ink) (d : List PdfOp) : List PdfOp :=
  d ++ [PdfOp.addPage] ++ headerBand accent "CONTACT INFORMATION" ++
    [PdfOp.fontSize 14, PdfOp.fillColor primary, PdfOp.text (some "Email:") 50 120 noOpts,
     PdfOp.fontSize 12, PdfOp.fillColor (Ink.named "#333333"),
     PdfOp.text a.email 50 (120 + 20) noOpts]

/-- The calls of the location block drawn at offset `y`. -/
def locationOps (primary : Ink) (l : Location) (y : Pt) : List PdfOp :=
  [PdfOp.fontSize 14, PdfOp.fillColor primary, PdfOp.text (some "Location:") 50 y noOpts,
   PdfOp.fontSize 12, PdfOp.fillColor (Ink.named "#333333"),
   PdfOp.text (some (locationLine l)) 50 (y + 20) noOpts]

/-- The block under `if (location?.city || location?.country)`. -/
def pdfLocationBlock (a : Artist) (primary : Ink) (st : List PdfOp × Pt) : List PdfOp × Pt :=
  match a.location with
  | some l => if hasLocation a then (st.1 ++ locationOps primary l st.2, st.2 + 50) else st
  | none => st

/-- The heading of the social-links block drawn at offset `y`. -/
def socialHeading (primary : Ink) (y : Pt) : List PdfOp :=
  [PdfOp.fontSize 14, PdfOp.fillColor primary, PdfOp.text (some "Connect Online:") 50 y noOpts]

/-- The block under `if (portfolio.artist.socialLinks)`. -/
def pdfSocialBlock (js : Casing) (a : Artist) (primary : Ink) (st : List PdfOp × Pt) :
    List PdfOp × Pt :=
  match a.socialLinks with
  | some links => links.foldl (drawSocial js) (st.1 ++ socialHeading primary st.2, st.2 + 25)
  | none => st

/-- The footer and the call `doc.end()`. -/
def contactFooter (env : PdfEnv) : List PdfOp :=
  [PdfOp.fontSize 8, PdfOp.fillColor (Ink.named "#666666"),
   PdfOp.text
     (some ("Generated by KatikaNaMe Platform • " ++ env.dateString ++ " • www.katikaname.com"))
     50 (pageHeight - 30) ⟨some "center", some (pageWidth - 100), none, false⟩,
   PdfOp.finish]

/-- The lines of the populated platforms, one per platform, 20 apart from
offset `y` on: reference layout of the social links. -/
def socialLines (js : Casing) (y : Pt) : List (String × String) → List PdfOp
  | [] => []
  | e :: rest =>
    [PdfOp.fontSize 12, PdfOp.fillColor (Ink.named "#0066cc"),
     PdfOp.text (some (capitalize js e.1 ++ ": " ++ e.2)) 50 y ⟨none, none, some e.2, true⟩]
      ++ socialLines js (y + 20) rest

/-- An artist whose social-links map is present and holds no URL. -/
def emptyLinksArtist : Artist :=
  { plainArtist with socialLinks := some [("instagram", some ""), ("twitter", none)] }

/-! ## Reference notions for the media placeholders -/

/-- One step of the count of media placeholder boxes per page: a page break
opens a page without boxes, a placeholder box (a rectangle of size
`150 x 100`) adds one to the current page. The current page comes first. -/
def countStep (cs : List Nat) (o : PdfOp) : List Nat :=
  match o, cs with
  | PdfOp.addPage, _ => 0 :: cs
  | PdfOp.rect _ _ w h, c :: rest => if w = 150 ∧ h = 100 then (c + 1) :: rest else cs
  | _, _ => cs

/-- Number of media placeholder boxes on each page that the calls touch,
the last page first; the calls start on a page without boxes. -/
def pageBoxCounts (ops : List PdfOp) : List Nat :=
  ops.foldl countStep [0]

/-- The height at which the box of index `i` is expected: `110 + 120 * i`
for the first six boxes and `50 + 120 * (i mod 6)` for the later ones. -/
def boxY (i : Nat) : Pt :=
  ⟨if i < 6 then 100 * (110 + 120 * (i : Int)) else 100 * (50 + 120 * ((i % 6 : Nat) : Int))⟩

/-- The calls that draw one placeholder box at height `y`. -/
def boxOps (primary : Ink) (y : Pt) : List PdfOp :=
  [PdfOp.rect 50 y 150 100, PdfOp.stroke primary, PdfOp.fontSize 10, PdfOp.fillColor primary,
   PdfOp.text (some "Media Content") 60 (y + 45) ⟨some "center", some 130, none, false⟩]

/-- The expected calls of the media loop for `n` media references in a
section without content text: box `i` at height `boxY i`, preceded by a
page break when `i` is a positive multiple of six. -/
def mediaOps (primary : Ink) (n : Nat) : List PdfOp :=
  (List.range n).flatMap fun i =>
    (if 0 < i ∧ i % 6 = 0 then [PdfOp.addPage] else []) ++ boxOps primary (boxY i)

/-- A section without content text whose media list is given. -/
def mediaSection (media : List String) : Section := ⟨"gallery", none, none, some media⟩

/-! ## Reference notions for the skills page -/

/-- A tag of the skills page: its text, the corner `(x, y)` of its
rectangle and its width. -/
structure Tag where
  genre : String
  x : Pt
  y : Pt
  w : Pt
  deriving DecidableEq, Repr

/-- The calls that draw a tag. -/
def tagOps (primary : Ink) (t : Tag) : List PdfOp :=
  [PdfOp.rect t.x t.y t.w 25, PdfOp.fill primary, PdfOp.fontSize 10, PdfOp.fillColor white,
   PdfOp.text (some t.genre) (t.x + 10) (t.y + 8) noOpts]

/-- The place of a tag when the running position is `(cx, cy)`: on a new
row, at `x = 50` and 35 lower, exactly when its right edge `cx + w` would
exceed the page width minus 50; at the running position otherwise. -/
def Placed (cx cy : Pt) (t : Tag) : Prop :=
  if cx + t.w > pageWidth - 50 then t.x = 50 ∧ t.y = cy + 35 else t.x = cx ∧ t.y = cy

/-- The tags are placed one after the other from the running position
`(cx, cy)`: after a tag the running position is 10 to the right of its
right edge, on its row. -/
def Packed : Pt → Pt → List Tag → Prop
  | _, _, [] => True
  | cx, cy, t :: ts => Placed cx cy t ∧ Packed (t.x + t.w + 10) t.y ts

/-- The width of each tag is the measured width of its text, at the time
the tag is drawn, plus 20. -/
def Measured (env : PdfEnv) (primary : Ink) : List PdfOp → List Tag → Prop
  | _, [] => True
  | d, t :: ts =>
    t.w = env.widthOfString d t.genre + 20 ∧ Measured env primary (d ++ tagOps primary t) ts

/-- A library that measures every text as 30 points wide. -/
def wideTextEnv : PdfEnv := { plainPdfEnv with widthOfString := fun _ _ => 30 }

/-- An artist with the genres `jazz` and `soul`. -/
def jazzSoulArtist : Artist := { plainArtist with genres := some ["jazz", "soul"] }

/-! ## Reference notions for the pages of the listing -/

/-- The order of the listing between two rows: more views first and, at
equal views, the later creation time first. -/
def ListedBefore (a b : Row) : Prop :=
  a.p.views > b.p.views ∨ (a.p.views = b.p.views ∧ a.p.createdAt ≥ b.p.createdAt)

/-- The joined portfolios of a filtered set in the order of the listing at
a request: sorted as the store meets them. -/
def listedOrder (eng : Engine) (l : List (Portfolio × Artist)) : List Row :=
  (eng.arrange (l.map fun pa => (⟨pa.1, ArtistField.doc pa.2⟩ : Row))).mergeSort sortBefore

/-- No two joined portfolios of the list have both the same view count and
the same creation time. -/
def NoTies (l : List (Portfolio × Artist)) : Prop :=
  l.Pairwise fun x y => ¬ (x.1.views = y.1.views ∧ x.1.createdAt = y.1.createdAt)

/-- A store with one artist and two public portfolios of equal view count
and creation time. -/
def tiedDb : Db :=
  ⟨[plainArtist],
   [{ plainPortfolio with _id := "p1", views := 5, createdAt := 10 },
    { plainPortfolio with _id := "p2", views := 5, createdAt := 10 }]⟩

/-- A store with one artist and three public portfolios of 5, 9 and 5 views. -/
def threePortfolioDb : Db :=
  ⟨[plainArtist],
   [{ plainPortfolio with _id := "p1", views := 5, createdAt := 10 },
    { plainPortfolio with _id := "p2", views := 9, createdAt := 20 },
    { plainPortfolio with _id := "p3", views := 5, createdAt := 30 }]⟩

/-- The ids of the entries of a page of the listing. -/
def listedIds (docs : List AggDoc) : List String :=
  docs.filterMap fun d =>
    match d with
    | AggDoc.listed x => some x._id
    | _ => none

/-! ## The artist directory `GET /directory` -/

/-- The query string of the directory. The limit is given by its value; an
absent parameter takes its default. -/
structure DirectoryQuery where
  category : Option String
  location : Option String
  featured : Option String
  limit : Option Nat
  deriving DecidableEq, Repr

/-- The destructuring default `limit = 20`. -/
def DirectoryQuery.limitValue (q : DirectoryQuery) : Nat := q.limit.getD 20

/-- Whether a pattern matches an optional field; an absent field matches
no pattern. -/
def fieldMatches (rx : String → Bool) : Option String → Bool
  | some s => rx s
  | none => false

/-- The object `filter` of the directory as a predicate on artists:
`isActive`, `isVerified`, the category when one is given and, when a
location is given, the `$or` of the two case-insensitive patterns on
`location.city` and `location.country`. The pattern is compiled first. -/
def directoryFilter (eng : Engine) (q : DirectoryQuery) : Except AggError (Artist → Bool) :=
  let base : Artist → Bool := fun a =>
    a.isActive && a.isVerified &&
      (if truthy q.category then a.category == some (interp q.category) else true)
  if truthy q.location then
    match eng.regex (interp q.location) with
    | none => Except.error AggError.invalidPattern
    | some rx =>
      Except.ok fun a => base a &&
        (match a.location with
         | some l => fieldMatches rx l.city || fieldMatches rx l.country
         | none => false)
  else Except.ok base

/-- Descending order on a sort key: an absent key sorts as `null`, below
every value. Whether `a` may come before `b`. -/
def keyGe {α : Type} [LE α] [DecidableRel (fun x y : α => x ≤ y)] : Option α → Option α → Bool
  | _, none => true
  | none, some _ => false
  | some x, some y => decide (y ≤ x)

/-- The value of `rating.average` of an artist, if any. -/
def ratingAverage (a : Artist) : Option ℚ := a.rating.bind fun r => r.average

/-- The order of the directory: `{ 'rating.average': -1, createdAt: -1 }`,
or `{ views: -1, 'rating.average': -1 }` when `featured === 'true'`.
Whether `a` may come before `b`. -/
def directoryBefore (featured : Bool) (a b : Artist) : Bool :=
  if featured then
    !(keyGe b.views a.views) || (a.views == b.views && keyGe (ratingAverage a) (ratingAverage b))
  else
    !(keyGe (ratingAverage b) (ratingAverage a)) ||
      (ratingAverage a == ratingAverage b && decide (b.createdAt ≤ a.createdAt))

/-- The population `populate('portfolio', 'title views template')` of the
back-reference of an artist. -/
def populatePortfolio (db : Db) (a : Artist) : Option PortfolioSummary :=
  a.portfolio.bind fun id =>
    (db.portfolios.find? (fun p => p._id == id)).map fun p =>
      ⟨p._id, p.title, p.views, p.template⟩

/-- The object `artist.toObject()` of a found artist: the selected fields
with the portfolio populated; `email` is not selected and is absent. -/
def selectedArtist (db : Db) (a : Artist) : DirectoryArtist :=
  { _id := a._id, name := a.name, category := a.category, experience := a.experience,
    location := a.location, genres := a.genres, media := a.media, rating := a.rating,
    portfolio := populatePortfolio db a, createdAt := a.createdAt, email := none }

/-- The mapping `artist => ({ ...artist.toObject(), email: undefined })`. -/
def withoutEmail (e : DirectoryArtist) : DirectoryArtist := { e with email := none }

/-- The call `.limit(n)` of a query: a limit of 0 is no limit. -/
def queryLimit {α : Type} (n : Nat) (l : List α) : List α :=
  if n = 0 then l else l.take n

/-- The route `GET /directory`. The sort leaves the artists of equal keys
in the order in which the store meets them. -/
def artistDirectory (eng : Engine) (db : Db) (q : DirectoryQuery) : Response :=
  match directoryFilter eng q with
  | Except.error e => ⟨500, Body.error e.message⟩
  | Except.ok f =>
    let artists := queryLimit q.limitValue
      ((eng.arrange (db.artists.filter f)).mergeSort
        (directoryBefore (q.featured == some "true")))
    ⟨200, Body.directory ((artists.map (selectedArtist db)).map withoutEmail)⟩

/-! ## Reference notions for the public views -/

/-- An artist with the email removed. -/
def eraseEmail (a : Artist) : Artist := { a with email := none }

/-- A store with the emails of its artists removed. -/
def eraseEmails (db : Db) : Db := ⟨db.artists.map eraseEmail, db.portfolios⟩

/-- Two stores differ at most in the emails of their artists. -/
def SameUpToEmails (db1 db2 : Db) : Prop := eraseEmails db1 = eraseEmails db2

/-- A row with the emails of its artists removed. -/
def eraseRow (r : Row) : Row :=
  { r with artist :=
      match r.artist with
      | ArtistField.ref id => ArtistField.ref id
      | ArtistField.docs l => ArtistField.docs (l.map eraseEmail)
      | ArtistField.doc a => ArtistField.doc (eraseEmail a) }

/-- A pipeline document with the emails of its artists removed. -/
def eraseDoc : AggDoc → AggDoc
  | AggDoc.row r => AggDoc.row (eraseRow r)
  | d => d

/-- The artist `plainArtist` stored with another email. -/
def otherEmailArtist : Artist := { plainArtist with email := some "a.w@example.org" }

/-! ## The analytics route `GET /:id/analytics` -/

/-- The comparator `(a, b) => new Date(b.generatedAt) - new Date(a.generatedAt)`:
whether `a` may stay before `b`, that is, whether the difference is not
positive. -/
def newestFirst (a b : GeneratedFile) : Bool := decide (b.generatedAt ≤ a.generatedAt)

/-- The analytics block of a loaded portfolio, and the loaded document
afterwards. The properties are computed in the order of the object literal:
the counts come first; `generatedFiles.sort(...)` then sorts the list of the
loaded document in place (the sort is stable) and `slice(0, 5)` copies its
first five records. -/
def buildAnalytics (p : Portfolio) : Analytics × Portfolio :=
  let sorted := p.generatedFiles.mergeSort newestFirst
  ({ views := p.views
     generatedFiles := p.generatedFiles.length
     lastUpdated := p.updatedAt
     createdAt := p.createdAt
     sectionsCount := p.sections.length
     isPublic := p.isPublic
     template := p.template
     filesGeneratedPdf := (p.generatedFiles.filter fun f => f.format == "pdf").length
     filesGeneratedHtml := (p.generatedFiles.filter fun f => f.format == "html").length
     recentActivity := sorted.take 5 },
   { p with generatedFiles := sorted })

/-- What a request to the analytics route leaves behind. -/
structure AnalyticsResult where
  /-- The response sent to the client. -/
  response : Response
  /-- The loaded document `portfolio` when the handler returns, if one was
  found. -/
  loaded : Option Portfolio
  /-- The store after the request. -/
  db : Db
  deriving DecidableEq, Repr

/-- The route `GET /:id/analytics`. The artist populated by
`populate('artist', 'name email')` is not read. -/
def portfolioAnalytics (db : Db) (id : String) : AnalyticsResult :=
  match db.portfolios.find? (fun p => p._id == id) with
  | none => ⟨⟨404, Body.error "Portfolio not found"⟩, none, db⟩
  | some p => ⟨⟨200, Body.analytics (buildAnalytics p).1⟩, some (buildAnalytics p).2, db⟩

/-- A portfolio with two generated files, in the order they were appended. -/
def twoFilesPortfolio : Portfolio :=
  { plainPortfolio with
    generatedFiles := [⟨"pdf", "portfolio-p1-100.pdf", "/uploads/portfolios/portfolio-p1-100.pdf", 100⟩,
      ⟨"html", "amina-200.html", "/uploads/web-portfolios/amina-200.html", 200⟩] }

/-! ## The statistics route `GET /stats` -/

/-- What the statistics route reads from its surroundings. -/
structure StatsEnv where
  /-- The value of `Date.now()`. -/
  now : Nat
  /-- The double nearest to a real number: the rounding that each
  floating-point operation applies to its exact result. -/
  toDouble : ℚ → ℚ

/-- The function `Math.round` on a finite number: the nearest integer, a
half rounded up. -/
def mathRound (x : ℚ) : Int := Int.floor (x + 1 / 2)

/-- The expression `Math.round((verifiedArtists / totalArtists) * 100)`.
With `totalArtists = 0` the quotient is `NaN` (or an infinity), which
`Math.round` and the product leave not finite: `none`. -/
def verificationRate (toDouble : ℚ → ℚ) (verifiedArtists totalArtists : Nat) : Option Int :=
  if totalArtists = 0 then none
  else some (mathRound (toDouble (toDouble ((verifiedArtists : ℚ) / (totalArtists : ℚ)) * 100)))

/-- One more document in the group of key `k`. -/
def bumpGroup (k : Option String) : List GroupCount → List GroupCount
  | [] => [⟨k, 1⟩]
  | g :: gs => if g._id = k then { g with count := g.count + 1 } :: gs else g :: bumpGroup k gs

/-- The stages `$group` with `count: { $sum: 1 }` and `$sort: { count: -1 }`
on the keys of the matched documents. The store leaves the order of equal
counts open; here groups are kept in the order of their first document. -/
def groupCounts (keys : List (Option String)) : List GroupCount :=
  (keys.foldl (fun acc k => bumpGroup k acc) []).mergeSort fun a b => decide (b.count ≤ a.count)

/-- Whether `location.country` exists. -/
def hasCountry (a : Artist) : Bool :=
  match a.location with
  | some l => l.country.isSome
  | none => false

/-- The `stats` object of the statistics route. -/
def platformStats (env : StatsEnv) (db : Db) : Stats :=
  let active := db.artists.filter fun a => a.isActive
  let totalArtists := active.length
  let verifiedArtists := (active.filter fun a => a.isVerified).length
  { totalArtists := totalArtists
    verifiedArtists := verifiedArtists
    recentJoins := (active.filter fun a =>
      decide ((env.now : Int) - 30 * 24 * 60 * 60 * 1000 ≤ (a.createdAt : Int))).length
    verificationRate := verificationRate env.toDouble verifiedArtists totalArtists
    categoryCounts := groupCounts (active.map fun a => a.category)
    topLocations := (groupCounts ((active.filter hasCountry).map fun a =>
      a.location.bind fun l => l.country)).take 10 }

/-- The route `GET /stats`. -/
def artistStats (env : StatsEnv) (db : Db) : Response :=
  ⟨200, Body.stats (platformStats env db)⟩

/-- An environment whose floating-point operations are exact. -/
def exactStatsEnv : StatsEnv := ⟨1700000000000, fun x => x⟩

/-- Number of binary digits of `n`, computed with fuel. -/
def bitLength : Nat → Nat → Nat
  | 0, _ => 0
  | fuel + 1, n => if n = 0 then 0 else bitLength fuel (n / 2) + 1

/-- The double nearest to the positive rational `n / d`: the quotient is
scaled by a power of two to a mantissa of 53 binary digits and rounded to
the nearest integer, a tie going to the even one. Exponent range aside. -/
def nearestDoublePos (n d : Nat) : ℚ :=
  let e0 : Int := (bitLength n n : Int) - (bitLength d d : Int) - 53
  let N : Nat := if 0 ≤ e0 then n else n * 2 ^ (-e0).toNat
  let D0 : Nat := if 0 ≤ e0 then d * 2 ^ e0.toNat else d
  let big : Bool := decide (2 ^ 53 ≤ N / D0)
  let e : Int := if big then e0 + 1 else e0
  let D : Nat := if big then 2 * D0 else D0
  let m0 : Nat := N / D
  let r : Nat := N % D
  let m : Nat := if D < 2 * r ∨ (2 * r = D ∧ m0 % 2 = 1) then m0 + 1 else m0
  (m : ℚ) * (2 : ℚ) ^ e

/-- The double nearest to a rational (round to nearest, ties to even), for
magnitudes in the normal range of the format. -/
def nearestDouble (q : ℚ) : ℚ :=
  if q = 0 then 0
  else if 0 < q then nearestDoublePos q.num.natAbs q.den
  else - nearestDoublePos q.num.natAbs q.den

/-- An environment with the floating-point operations of the platform. -/
def doubleStatsEnv : StatsEnv := ⟨1700000000000, nearestDouble⟩

/-! ## Reference notions for the in-page links -/

/-- Whether `pat` is a prefix of the text. -/
def startsWith : List Char → List Char → Bool
  | [], _ => true
  | _ :: _, [] => false
  | p :: ps, c :: cs => p == c && startsWith ps cs

/-- Whether `pat` occurs in the text. -/
def occursIn (pat : List Char) : List Char → Bool
  | [] => startsWith pat []
  | c :: cs => startsWith pat (c :: cs) || occursIn pat cs

/-- The attribute that gives an element the id `id`. -/
def idAttr (id : String) : String := "id=\"" ++ id ++ "\""

/-- The attribute of a link to the element of id `id` of the same page. -/
def hrefAttr (id : String) : String := "href=\"#" ++ id ++ "\""

/-- An artist with four social platforms, two of them populated. -/
def linkedArtist : Artist :=
  { plainArtist with
    socialLinks := some [("website", some "https://amina.example"), ("instagram", some ""),
      ("twitter", none), ("youtube", some "https://youtube.example/amina")] }

/-! # Part II: properties -/

/-! ## Facts about the built-ins -/

theorem char_eq_ofNat (c : Char) : c = Char.ofNat c.toNat := by
  simp [Char.ofNat_toNat]

theorem mem_hexChars_of_hexClass (c : Char) (h : hexClass c = true) : c ∈ hexChars := by
  have hc := char_eq_ofNat c
  by_cases hl : c.toNat ≥ 97 ∧ c.toNat ≤ 122
  · obtain ⟨h1, h2⟩ := hl
    generalize c.toNat = n at *
    subst hc
    interval_cases n <;> first | decide | (exfalso; revert h; decide)
  · have hu : canonicalize c = c := by
      unfold canonicalize Char.toUpper
      simp only [hl, if_false]
    unfold hexClass inRange at h
    simp only [hu, Bool.or_eq_true, Bool.and_eq_true, decide_eq_true_eq] at h
    have e1 : (canonicalize 'a').toNat = 65 := rfl
    have e2 : (canonicalize 'f').toNat = 70 := rfl
    have e3 : ('0' : Char).toNat = 48 := rfl
    have e4 : ('9' : Char).toNat = 57 := rfl
    rw [e1, e2, e3, e4] at h
    generalize c.toNat = n at *
    subst hc
    rcases h with ⟨h1, h2⟩ | ⟨h1, h2⟩ <;> interval_cases n <;> decide

theorem hexClass_of_mem : ∀ c ∈ hexChars, hexClass c = true := by
  decide

theorem ne_hash_of_mem : ∀ c ∈ hexChars, c ≠ '#' := by
  decide

set_option maxRecDepth 100000 in
theorem parseInt_pair :
    ∀ a ∈ hexChars, ∀ b ∈ hexChars, parseInt [a, b] 16 = some (specPairValue a b) := by
  decide

set_option maxRecDepth 100000 in
theorem specPairValue_range :
    ∀ a ∈ hexChars, ∀ b ∈ hexChars, 0 ≤ specPairValue a b ∧ specPairValue a b ≤ 255 := by
  decide

theorem toLower_eq_self_or (e : Char) :
    e.toLower = e ∨ (65 ≤ e.toNat ∧ e.toNat ≤ 90) := by
  by_cases hl : e.toNat ≥ 65 ∧ e.toNat ≤ 90
  · exact Or.inr hl
  · left
    unfold Char.toLower
    simp only [hl, if_false]

/-- A character whose lower-case form is a hexadecimal digit is one. -/
theorem mem_hexChars_of_toLower (e : Char) (h : e.toLower ∈ hexChars) : e ∈ hexChars := by
  rcases toLower_eq_self_or e with h0 | ⟨h1, h2⟩
  · rwa [h0] at h
  · have hc := char_eq_ofNat e
    generalize e.toNat = n at *
    subst hc
    interval_cases n <;> first | decide | (exfalso; revert h; decide)

theorem eq_hash_of_toLower (e : Char) (h : e.toLower = '#') : e = '#' := by
  rcases toLower_eq_self_or e with h0 | ⟨h1, h2⟩
  · rwa [h0] at h
  · have hc := char_eq_ofNat e
    generalize e.toNat = n at *
    subst hc
    interval_cases n <;> (exfalso; revert h; decide)

theorem toLower_mem_hexChars : ∀ d ∈ hexChars, d.toLower ∈ hexChars := by
  decide

theorem specPairValue_toLower (a b a' b' : Char) (ha : a'.toLower = a.toLower)
    (hb : b'.toLower = b.toLower) : specPairValue a' b' = specPairValue a b := by
  simp [specPairValue, specHexValue, ha, hb]

/-! ## Facts about the colour decoder -/

theorem matchGroups_some (cs : List Char) (g : List Char × List Char × List Char)
    (h : matchGroups cs = some g) : cs.length = 6 ∧ ∀ c ∈ cs, c ∈ hexChars := by
  match cs, h with
  | [c1, c2, c3, c4, c5, c6], h =>
    simp only [matchGroups] at h
    split at h
    · rename_i hc
      simp only [Bool.and_eq_true] at hc
      obtain ⟨⟨⟨⟨⟨a1, a2⟩, a3⟩, a4⟩, a5⟩, a6⟩ := hc
      refine ⟨rfl, ?_⟩
      intro c hcm
      simp only [List.mem_cons, List.mem_singleton, List.not_mem_nil, or_false] at hcm
      rcases hcm with rfl | rfl | rfl | rfl | rfl | rfl <;>
        exact mem_hexChars_of_hexClass _ (by assumption)
    · cases h

theorem matchGroups_digits (d1 d2 d3 d4 d5 d6 : Char)
    (hd : ∀ c ∈ [d1, d2, d3, d4, d5, d6], c ∈ hexChars) :
    matchGroups [d1, d2, d3, d4, d5, d6] = some ([d1, d2], [d3, d4], [d5, d6]) := by
  have k : ∀ c ∈ [d1, d2, d3, d4, d5, d6], hexClass c = true :=
    fun c hc => hexClass_of_mem c (hd c hc)
  simp only [matchGroups]
  rw [k d1 (by simp), k d2 (by simp), k d3 (by simp), k d4 (by simp), k d5 (by simp),
    k d6 (by simp)]
  rfl

theorem hexToRgb_digits (s : String) (d1 d2 d3 d4 d5 d6 : Char)
    (hd : ∀ c ∈ [d1, d2, d3, d4, d5, d6], c ∈ hexChars)
    (hs : s.data = [d1, d2, d3, d4, d5, d6] ∨ s.data = '#' :: [d1, d2, d3, d4, d5, d6]) :
    hexToRgb s = ⟨some (specPairValue d1 d2), some (specPairValue d3 d4),
      some (specPairValue d5 d6)⟩ := by
  have hm := matchGroups_digits d1 d2 d3 d4 d5 d6 hd
  have hx : hexExec s = some ([d1, d2], [d3, d4], [d5, d6]) := by
    unfold hexExec
    rcases hs with hs | hs
    · rw [hs]
      have : d1 ≠ '#' := ne_hash_of_mem d1 (hd d1 (by simp))
      simp only [this, if_false, hm]
    · rw [hs]
      simp only [if_true, hm, Option.orElse]
  unfold hexToRgb
  rw [hx]
  simp only
  rw [parseInt_pair d1 (hd d1 (by simp)) d2 (hd d2 (by simp)),
    parseInt_pair d3 (hd d3 (by simp)) d4 (hd d4 (by simp)),
    parseInt_pair d5 (hd d5 (by simp)) d6 (hd d6 (by simp))]


theorem map_eq_six {α β : Type} (f : α → β) (l : List α) (b1 b2 b3 b4 b5 b6 : β)
    (h : l.map f = [b1, b2, b3, b4, b5, b6]) :
    ∃ a1 a2 a3 a4 a5 a6, l = [a1, a2, a3, a4, a5, a6] ∧ f a1 = b1 ∧ f a2 = b2 ∧ f a3 = b3 ∧
      f a4 = b4 ∧ f a5 = b5 ∧ f a6 = b6 := by
  match l, h with
  | [a1, a2, a3, a4, a5, a6], h =>
    simp only [List.map, List.cons.injEq, and_true] at h
    exact ⟨a1, a2, a3, a4, a5, a6, rfl, h.1, h.2.1, h.2.2.1, h.2.2.2.1, h.2.2.2.2.1, h.2.2.2.2.2⟩

theorem hexToRgb_case_insensitive (s t : String) (d1 d2 d3 d4 d5 d6 : Char)
    (hd : ∀ c ∈ [d1, d2, d3, d4, d5, d6], c ∈ hexChars)
    (hs : s.data = [d1, d2, d3, d4, d5, d6] ∨ s.data = '#' :: [d1, d2, d3, d4, d5, d6])
    (h : t.data.map Char.toLower = s.data.map Char.toLower) : hexToRgb t = hexToRgb s := by
  rw [hexToRgb_digits s d1 d2 d3 d4 d5 d6 hd hs]
  have key : ∀ l : List Char, l.map Char.toLower = [d1, d2, d3, d4, d5, d6].map Char.toLower →
      ∃ e1 e2 e3 e4 e5 e6, l = [e1, e2, e3, e4, e5, e6] ∧
        (∀ c ∈ [e1, e2, e3, e4, e5, e6], c ∈ hexChars) ∧
        specPairValue e1 e2 = specPairValue d1 d2 ∧ specPairValue e3 e4 = specPairValue d3 d4 ∧
        specPairValue e5 e6 = specPairValue d5 d6 := by
    intro l hl
    obtain ⟨e1, e2, e3, e4, e5, e6, he, h1, h2, h3, h4, h5, h6⟩ := map_eq_six _ _ _ _ _ _ _ _ hl
    refine ⟨e1, e2, e3, e4, e5, e6, he, ?_, specPairValue_toLower _ _ _ _ h1 h2,
      specPairValue_toLower _ _ _ _ h3 h4, specPairValue_toLower _ _ _ _ h5 h6⟩
    have low : ∀ e d : Char, d ∈ hexChars → e.toLower = d.toLower → e ∈ hexChars :=
      fun e d hdm hed => mem_hexChars_of_toLower e (hed ▸ toLower_mem_hexChars d hdm)
    intro c hc
    simp only [List.mem_cons, List.mem_singleton, List.not_mem_nil, or_false] at hc
    rcases hc with rfl | rfl | rfl | rfl | rfl | rfl
    · exact low _ d1 (hd d1 (by simp)) h1
    · exact low _ d2 (hd d2 (by simp)) h2
    · exact low _ d3 (hd d3 (by simp)) h3
    · exact low _ d4 (hd d4 (by simp)) h4
    · exact low _ d5 (hd d5 (by simp)) h5
    · exact low _ d6 (hd d6 (by simp)) h6
  rcases hs with hs | hs
  · rw [hs] at h
    obtain ⟨e1, e2, e3, e4, e5, e6, he, hm, p1, p2, p3⟩ := key _ h
    rw [hexToRgb_digits t e1 e2 e3 e4 e5 e6 hm (Or.inl he), p1, p2, p3]
  · rw [hs] at h
    match ht : t.data, h with
    | e0 :: l, h =>
      simp only [List.map, List.cons.injEq] at h
      obtain ⟨h0, hl⟩ := h
      have e0h : e0 = '#' := eq_hash_of_toLower e0 h0
      obtain ⟨e1, e2, e3, e4, e5, e6, he, hm, p1, p2, p3⟩ := key l (by simpa using hl)
      rw [hexToRgb_digits t e1 e2 e3 e4 e5 e6 hm (Or.inr (by rw [ht, e0h, he])), p1, p2, p3]

theorem hexToRgb_default_of_not_match (s : String)
    (h : ∀ ds : List Char, ds.length = 6 → (∀ c ∈ ds, c ∈ hexChars) →
      s.data ≠ ds ∧ s.data ≠ '#' :: ds) : hexExec s = none := by
  unfold hexExec
  match hs : s.data with
  | [] => rfl
  | c :: rest =>
    have h1 : matchGroups (c :: rest) = none := by
      cases hm : matchGroups (c :: rest) with
      | none => rfl
      | some g =>
        obtain ⟨hl, hm⟩ := matchGroups_some _ _ hm
        exact absurd hs (h _ hl hm).1
    simp only [h1]
    split
    · rename_i hc
      have h2 : matchGroups rest = none := by
        cases hm : matchGroups rest with
        | none => rfl
        | some g =>
          obtain ⟨hl, hm⟩ := matchGroups_some _ _ hm
          exact absurd (hc ▸ hs) (h _ hl hm).2
      simp [h2, Option.orElse]
    · rfl

/-! ## The colour decoder: claims -/

/-- C1: for every string made of an optional `#` followed by exactly six
hexadecimal digits `d1 .. d6` (digits and the letters a-f in any mix of
cases), `hexToRgb` returns the triple of the base-16 values of the pairs
`d1 d2`, `d3 d4` and `d5 d6`; each component lies in `0..255`; and every
string that differs from it only in the case of its characters is decoded
to the same triple. -/
theorem hexToRgb_decodes_valid (s : String) (d1 d2 d3 d4 d5 d6 : Char)
    (hd : ∀ c ∈ [d1, d2, d3, d4, d5, d6], c ∈ hexChars)
    (hs : s.data = [d1, d2, d3, d4, d5, d6] ∨ s.data = '#' :: [d1, d2, d3, d4, d5, d6]) :
    hexToRgb s = ⟨some (specPairValue d1 d2), some (specPairValue d3 d4),
        some (specPairValue d5 d6)⟩
      ∧ (0 ≤ specPairValue d1 d2 ∧ specPairValue d1 d2 ≤ 255)
      ∧ (0 ≤ specPairValue d3 d4 ∧ specPairValue d3 d4 ≤ 255)
      ∧ (0 ≤ specPairValue d5 d6 ∧ specPairValue d5 d6 ≤ 255)
      ∧ ∀ t : String, t.data.map Char.toLower = s.data.map Char.toLower →
          hexToRgb t = hexToRgb s :=
  ⟨hexToRgb_digits s d1 d2 d3 d4 d5 d6 hd hs,
    specPairValue_range d1 (hd d1 (by simp)) d2 (hd d2 (by simp)),
    specPairValue_range d3 (hd d3 (by simp)) d4 (hd d4 (by simp)),
    specPairValue_range d5 (hd d5 (by simp)) d6 (hd d6 (by simp)),
    fun t ht => hexToRgb_case_insensitive s t d1 d2 d3 d4 d5 d6 hd hs ht⟩

/-- C1 at `#1a2B3c`: the hypotheses hold there and the triple is (26, 43, 60). -/
theorem hexToRgb_decodes_valid_witness :
    hexToRgb "#1a2B3c" = ⟨some (specPairValue '1' 'a'), some (specPairValue '2' 'B'),
        some (specPairValue '3' 'c')⟩
      ∧ specPairValue '1' 'a' = 26 ∧ specPairValue '2' 'B' = 43 ∧ specPairValue '3' 'c' = 60 :=
  ⟨(hexToRgb_decodes_valid "#1a2B3c" '1' 'a' '2' 'B' '3' 'c' (by decide) (Or.inr rfl)).1,
    by decide, by decide, by decide⟩

/-- C2: every string that is not an optional `#` followed by exactly six
hexadecimal digits is decoded to the default triple (176, 38, 255). -/
theorem hexToRgb_falls_back (s : String)
    (h : ∀ ds : List Char, ds.length = 6 → (∀ c ∈ ds, c ∈ hexChars) →
      s.data ≠ ds ∧ s.data ≠ '#' :: ds) :
    hexToRgb s = ⟨some 176, some 38, some 255⟩ := by
  unfold hexToRgb
  rw [hexToRgb_default_of_not_match s h]
  rfl

/-- C2 at the three-digit form `#fff`, which no six digits spell. -/
theorem hexToRgb_falls_back_witness : hexToRgb "#fff" = ⟨some 176, some 38, some 255⟩ :=
  hexToRgb_falls_back "#fff" (fun ds hl _ =>
    ⟨fun e => by rw [← e] at hl; exact absurd hl (by decide),
     fun e => by
      have h2 := congrArg List.length e
      simp only [List.length_cons, hl] at h2
      exact absurd h2 (by decide)⟩)

/-! ## Facts about the PDF route -/

theorem Pt.le_iff (a b : Pt) : a ≤ b ↔ a.cents ≤ b.cents := Iff.rfl

theorem Pt.lt_iff (a b : Pt) : a < b ↔ a.cents < b.cents := Iff.rfl

theorem Pt.add_cents (a b : Pt) : (a + b).cents = a.cents + b.cents := rfl

theorem Pt.sub_cents (a b : Pt) : (a - b).cents = a.cents - b.cents := rfl

theorem mediaBoxes_append (a b : List PdfOp) :
    mediaBoxes (a ++ b) = mediaBoxes a ++ mediaBoxes b := by
  simp [mediaBoxes, List.filterMap_append]

theorem mediaBoxes_headerBand (accent : Ink) (title : String) :
    mediaBoxes (headerBand accent title) = [] := by
  have h : ¬ ((40 : Pt) = 100) := by decide
  simp [mediaBoxes, headerBand, h]

theorem boxesOnPage_append_nil (a b : List PdfOp) (ha : BoxesOnPage a)
    (hb : mediaBoxes b = []) : BoxesOnPage (a ++ b) := by
  intro y hy
  rw [mediaBoxes_append, hb, List.append_nil] at hy
  exact ha y hy

theorem drawMedia_boxes (primary : Ink) (st : List PdfOp × Pt) (url : String) :
    ∃ y, y + 100 ≤ pageHeight ∧
      mediaBoxes (drawMedia primary st url).1 = mediaBoxes st.1 ++ [y] := by
  unfold drawMedia
  by_cases h : st.2 > pageHeight - 100
  · refine ⟨50, by decide, ?_⟩
    simp [h, mediaBoxes, List.filterMap_append]
  · refine ⟨st.2, ?_, ?_⟩
    · have h1 : ¬ (pageHeight - 100 < st.2) := h
      rw [Pt.lt_iff, Pt.sub_cents] at h1
      rw [Pt.le_iff, Pt.add_cents]
      omega
    · simp [h, mediaBoxes, List.filterMap_append]

theorem drawMedia_foldl_ok (primary : Ink) (media : List String) :
    ∀ st : List PdfOp × Pt, BoxesOnPage st.1 →
      BoxesOnPage (media.foldl (drawMedia primary) st).1 := by
  induction media with
  | nil => intro st h; exact h
  | cons u us ih =>
    intro st h
    rw [List.foldl_cons]
    apply ih
    obtain ⟨y, hy, he⟩ := drawMedia_boxes primary st u
    intro z hz
    rw [he, List.mem_append, List.mem_singleton] at hz
    rcases hz with hz | rfl
    · exact h z hz
    · exact hy

theorem drawSection_ok (env : PdfEnv) (primary accent : Ink) (d : List PdfOp) (sec : Section)
    (h : BoxesOnPage d) : BoxesOnPage (drawSection env primary accent d sec) := by
  unfold drawSection
  have h1 : BoxesOnPage (d ++ [PdfOp.addPage] ++
      headerBand accent (env.js.toUpperCase (interp (jsOr sec.title (some sec.type))))) := by
    apply boxesOnPage_append_nil _ _ (boxesOnPage_append_nil _ _ h (by simp [mediaBoxes]))
    exact mediaBoxes_headerBand _ _
  have h2 : BoxesOnPage (d ++ [PdfOp.addPage] ++
      headerBand accent (env.js.toUpperCase (interp (jsOr sec.title (some sec.type)))) ++
      [PdfOp.fontSize 12, PdfOp.fillColor (Ink.named "#333333"),
        PdfOp.text sec.content 50 110 justified]) :=
    boxesOnPage_append_nil _ _ h1 (by simp [mediaBoxes])
  simp only
  split <;> split <;> try split
  all_goals first
    | exact drawMedia_foldl_ok _ _ _ h2
    | exact drawMedia_foldl_ok _ _ _ h1
    | exact h2
    | exact h1

theorem sections_foldl_ok (env : PdfEnv) (primary accent : Ink) (secs : List Section) :
    ∀ d : List PdfOp, BoxesOnPage d →
      BoxesOnPage (secs.foldl (drawSection env primary accent) d) := by
  induction secs with
  | nil => intro d h; exact h
  | cons s ss ih => intro d h; exact ih _ (drawSection_ok env primary accent d s h)

theorem drawSkill_boxes (env : PdfEnv) (primary : Ink) (st : List PdfOp × Pt × Pt)
    (genre : String) :
    mediaBoxes (drawSkill env primary st genre).1 = mediaBoxes st.1 := by
  have h : ¬ ((25 : Pt) = 100) := by decide
  simp [drawSkill, mediaBoxes, List.filterMap_append, h]

theorem skills_foldl_boxes (env : PdfEnv) (primary : Ink) (genres : List String) :
    ∀ st : List PdfOp × Pt × Pt,
      mediaBoxes (genres.foldl (drawSkill env primary) st).1 = mediaBoxes st.1 := by
  induction genres with
  | nil => intro st; rfl
  | cons g gs ih => intro st; rw [List.foldl_cons, ih, drawSkill_boxes]

theorem skillsPage_boxes (env : PdfEnv) (a : Artist) (primary accent : Ink) (d : List PdfOp) :
    mediaBoxes (skillsPage env a primary accent d) = mediaBoxes d := by
  unfold skillsPage
  split
  · split
    · simp only
      rw [skills_foldl_boxes, mediaBoxes_append, mediaBoxes_append, mediaBoxes_headerBand]
      simp [mediaBoxes]
    · rfl
  · rfl

theorem drawSocial_boxes (js : Casing) (st : List PdfOp × Pt)
    (entry : String × Option String) :
    mediaBoxes (drawSocial js st entry).1 = mediaBoxes st.1 := by
  unfold drawSocial
  split
  · simp [mediaBoxes, List.filterMap_append]
  · rfl

theorem social_foldl_boxes (js : Casing) (links : List (String × Option String)) :
    ∀ st : List PdfOp × Pt, mediaBoxes (links.foldl (drawSocial js) st).1 = mediaBoxes st.1 := by
  induction links with
  | nil => intro st; rfl
  | cons l ls ih => intro st; rw [List.foldl_cons, ih, drawSocial_boxes]

theorem contactPage_boxes (env : PdfEnv) (a : Artist) (primary accent : Ink) (d : List PdfOp) :
    mediaBoxes (contactPage env a primary accent d) = mediaBoxes d := by
  unfold contactPage
  simp only
  split <;> split <;> try split
  all_goals simp only [social_foldl_boxes, mediaBoxes_append, mediaBoxes_headerBand]
  all_goals simp [mediaBoxes]

theorem coverPage_boxes (env : PdfEnv) (p : Portfolio) (a : Artist) (primary accent : Ink) :
    mediaBoxes (coverPage env p a primary accent []) = [] := by
  have h1 : ¬ ((200 : Pt) = 100) := by decide
  have h2 : ¬ ((3 : Pt) = 100) := by decide
  unfold coverPage
  simp only
  split <;> simp [mediaBoxes, List.filterMap_append, h1, h2]

theorem bioPage_boxes (a : Artist) (accent : Ink) (d : List PdfOp) :
    mediaBoxes (bioPage a accent d) = mediaBoxes d := by
  unfold bioPage
  split
  · rw [mediaBoxes_append, mediaBoxes_append, mediaBoxes_append, mediaBoxes_headerBand]
    simp [mediaBoxes]
  · rfl

theorem drawPortfolio_boxesOnPage (env : PdfEnv) (p : Portfolio) (a : Artist) :
    BoxesOnPage (drawPortfolio env p a) := by
  unfold drawPortfolio
  simp only
  intro y hy
  rw [contactPage_boxes, skillsPage_boxes] at hy
  refine sections_foldl_ok env _ _ p.sections _ ?_ y hy
  intro z hz
  rw [bioPage_boxes, coverPage_boxes] at hz
  cases hz

theorem pageBreaks_append (a b : List PdfOp) :
    pageBreaks (a ++ b) = pageBreaks a + pageBreaks b := by
  simp [pageBreaks, List.countP_append]

theorem pageBreaks_headerBand (accent : Ink) (title : String) :
    pageBreaks (headerBand accent title) = 0 := by
  simp [pageBreaks, headerBand, List.countP_cons]

theorem coverPage_pageBreaks (env : PdfEnv) (p : Portfolio) (a : Artist) (primary accent : Ink) :
    pageBreaks (coverPage env p a primary accent []) = 0 := by
  unfold coverPage
  simp only
  split <;> simp [pageBreaks, List.countP_append, List.countP_cons]

theorem drawSocial_pageBreaks (js : Casing) (st : List PdfOp × Pt)
    (entry : String × Option String) :
    pageBreaks (drawSocial js st entry).1 = pageBreaks st.1 := by
  unfold drawSocial
  split
  · simp [pageBreaks, List.countP_append, List.countP_cons]
  · rfl

theorem social_foldl_pageBreaks (js : Casing) (links : List (String × Option String)) :
    ∀ st : List PdfOp × Pt, pageBreaks (links.foldl (drawSocial js) st).1 = pageBreaks st.1 := by
  induction links with
  | nil => intro st; rfl
  | cons l ls ih => intro st; rw [List.foldl_cons, ih, drawSocial_pageBreaks]

theorem contactPage_pageBreaks (env : PdfEnv) (a : Artist) (primary accent : Ink)
    (d : List PdfOp) :
    pageBreaks (contactPage env a primary accent d) = pageBreaks d + 1 := by
  unfold contactPage
  simp only
  split <;> split <;> try split
  all_goals simp only [social_foldl_pageBreaks, pageBreaks_append, pageBreaks_headerBand]
  all_goals simp [pageBreaks, List.countP_cons]

/-! ## The PDF route: claims -/

/-- C3, as stated, fails: for the section without content text and with six
media references, the sixth placeholder box is drawn at `y = 710` and its
bottom edge `810` lies beyond the printable height `841.89 - 50`. -/
theorem media_box_beyond_printable_height :
    (710 : Pt) ∈ mediaBoxes (drawPortfolio plainPdfEnv sixMediaPortfolio plainArtist)
      ∧ ¬ ((710 : Pt) + 100 ≤ pageHeight - pageMargin) := by
  decide

/-- C3, amended: for every portfolio, library behaviour and media list,
each media placeholder box has its bottom edge `y + 100` at or above the
bottom of the page (the page height, not the printable height); in the
media loop a page break is inserted, and `yPosition` reset to 50, exactly
before a box whose top would lie beyond the page height minus 100. -/
theorem media_boxes_within_page (env : PdfEnv) (p : Portfolio) (a : Artist) :
    (∀ y ∈ mediaBoxes (drawPortfolio env p a), y + 100 ≤ pageHeight)
      ∧ ∀ (primary : Ink) (d : List PdfOp) (y : Pt) (url : String),
          (drawMedia primary (d, y) url).1 =
            (if y > pageHeight - 100 then d ++ [PdfOp.addPage] else d) ++
              [PdfOp.rect 50 (if y > pageHeight - 100 then 50 else y) 150 100,
               PdfOp.stroke primary, PdfOp.fontSize 10, PdfOp.fillColor primary,
               PdfOp.text (some "Media Content") 60
                 ((if y > pageHeight - 100 then 50 else y) + 45)
                 ⟨some "center", some 130, none, false⟩] := by
  refine ⟨drawPortfolio_boxesOnPage env p a, ?_⟩
  intro primary d y url
  unfold drawMedia
  by_cases h : y > pageHeight - 100 <;> simp [h]

theorem pagesStarted_eq (ops : List PdfOp) :
    pagesStarted ops = 1 + pageBreaks ops + ops.countP textBelowMargin := rfl

theorem minimal_drawing (env : PdfEnv) (p : Portfolio) (a : Artist)
    (hs : p.sections = []) (hb : truthy a.bio = false)
    (hg : a.genres = none ∨ a.genres = some []) :
    drawPortfolio env p a =
      contactPage env a (Ink.rgb (hexToRgb (interp (resolveColors p).primary)))
        (Ink.rgb (hexToRgb (interp (resolveColors p).accent)))
        (coverPage env p a (Ink.rgb (hexToRgb (interp (resolveColors p).primary)))
          (Ink.rgb (hexToRgb (interp (resolveColors p).accent))) []) := by
  unfold drawPortfolio
  simp only [hs, List.foldl_nil]
  have hbio : ∀ ac d, bioPage a ac d = d := by
    intro ac d
    simp [bioPage, hb]
  have hsk : ∀ pr ac d, skillsPage env a pr ac d = d := by
    intro pr ac d
    unfold skillsPage
    rcases hg with hg | hg <;> simp [hg]
  rw [hbio, hsk]

theorem footer_in_contactPage (env : PdfEnv) (a : Artist) (primary accent : Ink)
    (d : List PdfOp) :
    PdfOp.text
        (some ("Generated by KatikaNaMe Platform • " ++ env.dateString ++ " • www.katikaname.com"))
        50 (pageHeight - 30) ⟨some "center", some (pageWidth - 100), none, false⟩
      ∈ contactPage env a primary accent d := by
  unfold contactPage
  simp

/-- C4, what the route does: for a portfolio with zero sections whose
artist has no bio and no genres (whatever the description and the social
links), the drawing is the cover page followed at once by the contact page,
with exactly one explicit page break and no bio, section or skills page;
but the footer, the last text of the contact page, is placed at
`page.height - 30`, below the text area that ends at `page.height - 50`, so
that the library adds a page for it: at least three pages are started, not
two. For the portfolio without description of an artist without social
links the calls are spelled out, and exactly three pages are started. -/
theorem footer_opens_third_page (env : PdfEnv) (p : Portfolio) (a : Artist)
    (hs : p.sections = []) (hb : truthy a.bio = false)
    (hg : a.genres = none ∨ a.genres = some []) :
    drawPortfolio env p a =
        contactPage env a (Ink.rgb (hexToRgb (interp (resolveColors p).primary)))
          (Ink.rgb (hexToRgb (interp (resolveColors p).accent)))
          (coverPage env p a (Ink.rgb (hexToRgb (interp (resolveColors p).primary)))
            (Ink.rgb (hexToRgb (interp (resolveColors p).accent))) [])
      ∧ pageBreaks (drawPortfolio env p a) = 1
      ∧ PdfOp.text
          (some ("Generated by KatikaNaMe Platform • " ++ env.dateString
            ++ " • www.katikaname.com"))
          50 (pageHeight - 30) ⟨some "center", some (pageWidth - 100), none, false⟩
          ∈ drawPortfolio env p a
      ∧ pageHeight - 30 > pageMaxY
      ∧ 3 ≤ pagesStarted (drawPortfolio env p a)
      ∧ (∀ primary accent : Ink,
          coverPage env p a primary accent [] =
            coverHead env p a primary accent ++
              (if truthy p.description then
                [PdfOp.fontSize 12, PdfOp.fillColor (Ink.named "#333333"),
                 PdfOp.text p.description 50
                   (env.cursor (coverHead env p a primary accent ++
                     [PdfOp.fontSize 12, PdfOp.fillColor (Ink.named "#333333")]))
                   justified,
                 PdfOp.moveDown 2]
              else []))
      ∧ drawPortfolio plainPdfEnv plainPortfolio plainArtist =
          [PdfOp.rect 0 0 pageWidth 200, PdfOp.fill (Ink.rgb ⟨some 176, some 38, some 255⟩),
           PdfOp.fontSize 32, PdfOp.fillColor white, PdfOp.text (some "Amina") 50 80 centered,
           PdfOp.fontSize 18, PdfOp.text (some "CREATIVE PROFESSIONAL") 50 120 centered,
           PdfOp.fontSize 14, PdfOp.text (some "undefined LEVEL") 50 145 centered,
           PdfOp.rect 50 180 (pageWidth - 100) 3,
           PdfOp.fill (Ink.rgb ⟨some 255, some 210, some 63⟩),
           PdfOp.fontSize 24, PdfOp.fillColor (Ink.rgb ⟨some 176, some 38, some 255⟩),
           PdfOp.text (some "Work") 50 220 noOpts, PdfOp.moveDown 1,
           PdfOp.addPage,
           PdfOp.rect 50 50 (pageWidth - 100) 40,
           PdfOp.fill (Ink.rgb ⟨some 255, some 210, some 63⟩),
           PdfOp.fontSize 18, PdfOp.fillColor white,
           PdfOp.text (some "CONTACT INFORMATION") 60 65 noOpts,
           PdfOp.fontSize 14, PdfOp.fillColor (Ink.rgb ⟨some 176, some 38, some 255⟩),
           PdfOp.text (some "Email:") 50 120 noOpts,
           PdfOp.fontSize 12, PdfOp.fillColor (Ink.named "#333333"),
           PdfOp.text (some "amina@example.com") 50 140 noOpts,
           PdfOp.fontSize 8, PdfOp.fillColor (Ink.named "#666666"),
           PdfOp.text
             (some "Generated by KatikaNaMe Platform • 11/14/2023 • www.katikaname.com")
             50 (pageHeight - 30) ⟨some "center", some (pageWidth - 100), none, false⟩,
           PdfOp.finish]
      ∧ pagesStarted (drawPortfolio plainPdfEnv plainPortfolio plainArtist) = 3 := by
  have e := minimal_drawing env p a hs hb hg
  have hc : pageBreaks (drawPortfolio env p a) = 1 := by
    rw [e, contactPage_pageBreaks, coverPage_pageBreaks]
  have hfoot : PdfOp.text
      (some ("Generated by KatikaNaMe Platform • " ++ env.dateString
        ++ " • www.katikaname.com"))
      50 (pageHeight - 30) ⟨some "center", some (pageWidth - 100), none, false⟩
      ∈ drawPortfolio env p a := by
    rw [e]
    exact footer_in_contactPage env a _ _ _
  refine ⟨e, hc, hfoot, by decide, ?_, ?_, by decide, by decide⟩
  · rw [pagesStarted_eq, hc]
    have hpos : 0 < (drawPortfolio env p a).countP textBelowMargin :=
      List.countP_pos_iff.mpr ⟨_, hfoot,
        by show decide (pageHeight - 30 > pageMaxY) = true; decide⟩
    omega
  · intro primary accent
    cases hd : truthy p.description <;> simp [coverPage, coverHead, hd]

/-- C4 at the plain portfolio: no sections, no bio, no genres, no social
links, no description; one explicit page break, and three pages started,
the third one for the footer. -/
theorem footer_opens_third_page_witness :
    pageBreaks (drawPortfolio plainPdfEnv plainPortfolio plainArtist) = 1
      ∧ 3 ≤ pagesStarted (drawPortfolio plainPdfEnv plainPortfolio plainArtist) :=
  ⟨(footer_opens_third_page plainPdfEnv plainPortfolio plainArtist rfl rfl (Or.inl rfl)).2.1,
   (footer_opens_third_page plainPdfEnv plainPortfolio plainArtist rfl rfl
     (Or.inl rfl)).2.2.2.2.1⟩

/-- C5, what the route does: for a stored portfolio whose artist reference
resolves to no artist, the request is answered with status 500 and the
message of the `TypeError` (not with 404), no call is made on a PDF
document, and the store is unchanged. -/
theorem generatePdf_unresolved_artist (env : PdfEnv) (db : Db) (id : String) (p : Portfolio)
    (h : findByIdPopulated db id = some ⟨p, none⟩) :
    generatePdf env db id = ⟨⟨500, Body.error nullArtistError⟩, [], db⟩ := by
  unfold generatePdf
  rw [h]
  rfl

/-- C5 at a store holding one portfolio whose artist `a1` does not exist. -/
theorem generatePdf_unresolved_artist_witness :
    (generatePdf plainPdfEnv ⟨[], [plainPortfolio]⟩ "p1").response.status = 500
      ∧ (generatePdf plainPdfEnv ⟨[], [plainPortfolio]⟩ "p1").ops = [] := by
  rw [generatePdf_unresolved_artist plainPdfEnv ⟨[], [plainPortfolio]⟩ "p1" plainPortfolio
    (by decide)]
  exact ⟨rfl, rfl⟩

/-! ## Facts about the listing -/

theorem mathCeilDiv_pos (total limit : Nat) (h : 0 < limit) :
    mathCeilDiv total limit = some (Int.ceil ((total : ℚ) / (limit : ℚ))) := by
  unfold mathCeilDiv
  rw [if_neg (by omega)]

theorem ceil_div_least (total limit : Nat) (h : 0 < limit) :
    (total : Int) ≤ Int.ceil ((total : ℚ) / (limit : ℚ)) * limit
      ∧ ∀ m : Int, (total : Int) ≤ m * limit → Int.ceil ((total : ℚ) / (limit : ℚ)) ≤ m := by
  have hl : (0 : ℚ) < (limit : ℚ) := by exact_mod_cast h
  constructor
  · have h1 : (total : ℚ) / limit ≤ (Int.ceil ((total : ℚ) / (limit : ℚ)) : ℚ) := Int.le_ceil _
    rw [div_le_iff₀ hl] at h1
    exact_mod_cast h1
  · intro m hm
    rw [Int.ceil_le, div_le_iff₀ hl]
    exact_mod_cast hm

theorem mathCeilDiv_25_12 : mathCeilDiv 25 12 = some 3 := by
  rw [mathCeilDiv_pos 25 12 (by decide)]
  congr 1
  rw [Int.ceil_eq_iff]
  norm_num

theorem asRows_map_row (rows : List Row) : asRows (rows.map AggDoc.row) = Except.ok rows := by
  unfold asRows
  induction rows with
  | nil => rfl
  | cons r rs ih =>
    rw [List.map_cons, List.mapM_cons, ih]
    rfl

theorem runStages_append (eng : Engine) (db : Db) (s1 s2 : List Stage) :
    ∀ docs, runStages eng db (s1 ++ s2) docs =
      match runStages eng db s1 docs with
      | Except.ok d1 => runStages eng db s2 d1
      | Except.error e => Except.error e := by
  induction s1 with
  | nil => intro docs; rfl
  | cons s ss ih =>
    intro docs
    rw [List.cons_append, runStages, runStages]
    cases runStage eng db s docs with
    | error e => rfl
    | ok d1 => exact ih d1

theorem runStage_match_rows (eng : Engine) (db : Db) (c : Cond) (f : Row → Bool) (rows : List Row)
    (hc : compileCond eng c = Except.ok f) :
    runStage eng db (Stage.matchDocs c) (rows.map AggDoc.row) =
      Except.ok ((rows.filter f).map AggDoc.row) := by
  simp only [runStage, hc, asRows_map_row]

theorem countPipeline_eq (q : Query) :
    countPipeline q = filterStages q ++ [Stage.sort, Stage.count] := by
  unfold countPipeline listingPipeline
  have h : (filterStages q ++ [Stage.sort, Stage.skip (((q.pageValue : Int) - 1) * q.limitValue),
      Stage.limit q.limitValue, Stage.project]).length - 3 = (filterStages q).length + 1 := by
    simp
  rw [h, List.take_append]
  simp

theorem unwind_lookup (db : Db) (p : Portfolio) :
    unwindRow (lookupRow db ⟨p, ArtistField.ref p.artist⟩) =
      (db.artists.filter fun a => a._id == p.artist).map fun a =>
        (⟨p, ArtistField.doc a⟩ : Row) := rfl

/-- The four fixed stages leave the public portfolios joined to their
active artists. -/
theorem base_stages (eng : Engine) (db : Db) :
    runStages eng db [Stage.matchDocs Cond.isPublic, Stage.lookup, Stage.unwind,
        Stage.matchDocs Cond.artistActive]
      (db.portfolios.map fun p => AggDoc.row ⟨p, ArtistField.ref p.artist⟩) =
      Except.ok ((publicActivePairs db).map pairRow) := by
  have e0 : (db.portfolios.map fun p => AggDoc.row ⟨p, ArtistField.ref p.artist⟩) =
      (db.portfolios.map fun p => (⟨p, ArtistField.ref p.artist⟩ : Row)).map AggDoc.row := by
    simp [List.map_map, Function.comp_def]
  rw [e0]
  simp only [runStages, runStage, compileCond, asRows_map_row]
  congr 1
  unfold publicActivePairs
  generalize db.portfolios = ps
  induction ps with
  | nil => rfl
  | cons p ps ih =>
    simp only [List.map_cons, List.filter_cons]
    by_cases hp : p.isPublic = true
    · simp only [hp, if_true, List.map_cons, List.flatMap_cons, unwind_lookup,
        List.filter_append, List.map_append]
      rw [ih]
      congr 1
      simp [List.filter_map, List.map_map, Function.comp_def, pairRow, artistAny]
    · simp only [hp, if_false]
      exact ih

theorem pairRow_map (l : List (Portfolio × Artist)) :
    l.map pairRow = (l.map fun pa => (⟨pa.1, ArtistField.doc pa.2⟩ : Row)).map AggDoc.row := by
  simp [pairRow, List.map_map, Function.comp_def]

theorem runStage_match_pairs (eng : Engine) (db : Db) (c : Cond) (f : Row → Bool)
    (g : Portfolio × Artist → Bool) (l : List (Portfolio × Artist))
    (hc : compileCond eng c = Except.ok f) (hfg : ∀ pa, f ⟨pa.1, ArtistField.doc pa.2⟩ = g pa) :
    runStage eng db (Stage.matchDocs c) (l.map pairRow) = Except.ok ((l.filter g).map pairRow) := by
  rw [pairRow_map, runStage_match_rows eng db c f _ hc, pairRow_map]
  congr 2
  rw [List.filter_map]
  congr 1
  apply List.filter_congr
  intro pa _
  exact hfg pa

theorem compileCond_search (eng : Engine) (term : String) (rx : String → Bool)
    (h : eng.regex term = some rx) :
    compileCond eng (Cond.search term) = Except.ok (searchRow rx) := by
  simp only [compileCond, h]

theorem runStage_search_invalid (eng : Engine) (db : Db) (term : String) (docs : List AggDoc)
    (h : eng.regex term = none) :
    runStage eng db (Stage.matchDocs (Cond.search term)) docs =
      Except.error AggError.invalidPattern := by
  simp only [runStage, compileCond, h]

theorem runStage_search_pairs (eng : Engine) (db : Db) (term : String)
    (l : List (Portfolio × Artist)) :
    runStage eng db (Stage.matchDocs (Cond.search term)) (l.map pairRow) =
      match eng.regex term with
      | none => Except.error AggError.invalidPattern
      | some rx => Except.ok ((l.filter fun pa => searchHit rx pa.1 pa.2).map pairRow) := by
  cases hp : eng.regex term with
  | none => exact runStage_search_invalid eng db term _ hp
  | some rx =>
    exact runStage_match_pairs eng db _ _ _ l (compileCond_search eng term rx hp) (fun _ => rfl)

/-- The filter stages compute the filtered set. -/
theorem aggregate_filterStages (eng : Engine) (db : Db) (q : Query) :
    aggregate eng db (filterStages q) = (filteredSet eng db q).map fun l => l.map pairRow := by
  unfold aggregate filterStages filteredSet
  simp only
  have hcat : ∀ l : List (Portfolio × Artist),
      runStage eng db (Stage.matchDocs (Cond.artistCategory (interp q.category))) (l.map pairRow) =
        Except.ok ((l.filter fun pa => pa.2.category == some (interp q.category)).map pairRow) :=
    fun l => runStage_match_pairs eng db _ _ _ l rfl (fun _ => rfl)
  cases hc : truthy q.category <;> cases hs : truthy q.search
  · simp only [Bool.false_eq_true, ↓reduceIte]
    rw [base_stages]
    rfl
  · simp only [Bool.false_eq_true, ↓reduceIte]
    rw [runStages_append, base_stages]
    simp only [runStages, runStage_search_pairs]
    cases eng.regex (interp q.search) <;> rfl
  · simp only [Bool.false_eq_true, ↓reduceIte]
    rw [runStages_append, base_stages]
    simp only [runStages, hcat]
    rfl
  · simp only [↓reduceIte]
    rw [runStages_append, runStages_append, base_stages]
    simp only [runStages, hcat, runStage_search_pairs]
    cases eng.regex (interp q.search) <;> rfl

theorem range_filterMap_getElem {α : Type} (l : List α) :
    (List.range l.length).filterMap (fun i => l[i]?) = l := by
  induction l with
  | nil => rfl
  | cons x xs ih =>
    rw [List.length_cons, List.range_succ_eq_map, List.filterMap_cons, List.filterMap_map]
    simpa [Function.comp_def] using ih

theorem arrange_perm {α : Type} (eng : Engine) (l : List α) : (eng.arrange l).Perm l := by
  have h := (eng.scan_perm l.length).filterMap (fun i => l[i]?)
  rw [range_filterMap_getElem] at h
  exact h

theorem arrange_map {α β : Type} (eng : Engine) (f : α → β) (l : List α) :
    eng.arrange (l.map f) = (eng.arrange l).map f := by
  unfold Engine.arrange
  rw [List.map_filterMap, List.length_map]
  congr 1
  funext i
  rw [List.getElem?_map]

theorem arrange_range {α : Type} (l : List α) : fragmentEngine.arrange l = l :=
  range_filterMap_getElem l

theorem arrange_reverse {α : Type} (l : List α) : reverseEngine.arrange l = l.reverse := by
  show (List.range l.length).reverse.filterMap (fun i => l[i]?) = l.reverse
  rw [List.filterMap_reverse, range_filterMap_getElem]

theorem listedOrder_perm (eng : Engine) (l : List (Portfolio × Artist)) :
    (listedOrder eng l).Perm (l.map fun pa => (⟨pa.1, ArtistField.doc pa.2⟩ : Row)) :=
  (List.mergeSort_perm _ _).trans (arrange_perm eng _)

theorem runStages_sort_count (eng : Engine) (db : Db) (l : List (Portfolio × Artist)) :
    (runStages eng db [Stage.sort, Stage.count] (l.map pairRow)).map totalOf =
      Except.ok l.length := by
  rw [pairRow_map]
  simp only [runStages, runStage, asRows_map_row]
  have hlen : (List.map AggDoc.row
      ((eng.arrange (List.map
        (fun pa : Portfolio × Artist => (⟨pa.1, ArtistField.doc pa.2⟩ : Row)) l)).mergeSort
        sortBefore)).length = l.length := by
    rw [List.length_map]
    exact (listedOrder_perm eng l).length_eq.trans (by simp)
  rw [hlen]
  by_cases h0 : l.length = 0
  · rw [if_pos h0, h0]
    rfl
  · rw [if_neg h0]
    rfl

theorem count_total_eq (eng : Engine) (db : Db) (q : Query) :
    (aggregate eng db (countPipeline q)).map totalOf = (filteredSet eng db q).map List.length := by
  have h := aggregate_filterStages eng db q
  unfold aggregate at h ⊢
  rw [countPipeline_eq, runStages_append, h]
  cases filteredSet eng db q with
  | error e => rfl
  | ok l => exact runStages_sort_count eng db l

theorem listingPipeline_ok (eng : Engine) (db : Db) (q : Query) (l : List (Portfolio × Artist))
    (hf : filteredSet eng db q = Except.ok l) (hp : 1 ≤ q.pageValue) (hl : 1 ≤ q.limitValue) :
    aggregate eng db (listingPipeline q) =
      Except.ok ((((listedOrder eng l).drop ((q.pageValue - 1) * q.limitValue)).take
        q.limitValue).map fun r => AggDoc.listed (projectRow r)) := by
  have h := aggregate_filterStages eng db q
  unfold aggregate at h ⊢
  unfold listingPipeline
  rw [runStages_append, h, hf]
  simp only [Except.map]
  rw [pairRow_map]
  have hskip : ¬ (((q.pageValue : Int) - 1) * (q.limitValue : Int) < 0) := by
    have : (0 : Int) ≤ (q.pageValue : Int) - 1 := by omega
    have := Int.mul_nonneg this (Int.ofNat_nonneg q.limitValue)
    omega
  have hlim : ¬ ((q.limitValue : Int) ≤ 0) := by omega
  have hk : (((q.pageValue : Int) - 1) * (q.limitValue : Int)).toNat =
      (q.pageValue - 1) * q.limitValue := by
    have e : ((q.pageValue : Int) - 1) * (q.limitValue : Int) =
        (((q.pageValue - 1) * q.limitValue : Nat) : Int) := by
      push_cast [Nat.cast_sub hp]
      ring
    rw [e, Int.toNat_ofNat]
  simp only [runStages, runStage, asRows_map_row, if_neg hskip, if_neg hlim, hk,
    Int.toNat_ofNat, ← List.map_drop, ← List.map_take]
  rw [List.map_map]
  rfl

theorem publicListing_ok (eng : Engine) (db : Db) (q : Query) (l : List (Portfolio × Artist))
    (hf : filteredSet eng db q = Except.ok l) (hp : 1 ≤ q.pageValue) (hl : 1 ≤ q.limitValue) :
    ∃ ps, publicListing eng db q =
      ⟨200, Body.listing ps (pagination q.pageValue q.limitValue l.length)⟩ := by
  have h1 := listingPipeline_ok eng db q l hf hp hl
  have h2 := count_total_eq eng db q
  rw [hf] at h2
  unfold publicListing
  rw [h1]
  cases hc : aggregate eng db (countPipeline q) with
  | error e => rw [hc] at h2; cases h2
  | ok tr =>
    rw [hc] at h2
    simp only [Except.map, Except.ok.injEq] at h2
    simp only [h2]
    exact ⟨_, rfl⟩

theorem publicListing_total (eng : Engine) (db : Db) (q : Query) (ps : List AggDoc) (pg : Pagination)
    (h : publicListing eng db q = ⟨200, Body.listing ps pg⟩) :
    pg = pagination q.pageValue q.limitValue pg.total ∧
      ∃ l, filteredSet eng db q = Except.ok l ∧ pg.total = l.length := by
  have h2 := count_total_eq eng db q
  unfold publicListing at h
  cases h1 : aggregate eng db (listingPipeline q) with
  | error e => rw [h1] at h; simp at h
  | ok ps1 =>
    rw [h1] at h
    cases hc : aggregate eng db (countPipeline q) with
    | error e => rw [hc] at h; simp at h
    | ok tr =>
      rw [hc] at h h2
      simp only [Response.mk.injEq, Body.listing.injEq, true_and] at h
      obtain ⟨_, hpg⟩ := h
      cases hf : filteredSet eng db q with
      | error e => rw [hf] at h2; cases h2
      | ok l =>
        rw [hf] at h2
        simp only [Except.map, Except.ok.injEq] at h2
        subst hpg
        exact ⟨rfl, l, rfl, h2⟩

theorem filteredSet_congr (eng : Engine) (db : Db) (q q1 : Query) (hc : q1.category = q.category)
    (hs : q1.search = q.search) : filteredSet eng db q1 = filteredSet eng db q := by
  unfold filteredSet
  rw [hc, hs]

theorem filteredSet_regex (eng eng1 : Engine) (h : eng1.regex = eng.regex) (db : Db) (q : Query) :
    filteredSet eng1 db q = filteredSet eng db q := by
  unfold filteredSet
  rw [h]

theorem compilePattern_literal (term : String) (h : ∀ c ∈ term.data, c ∉ rxMeta) :
    compilePattern term = some (term.data.map RxAtom.lit) := by
  unfold compilePattern
  generalize term.data = cs at h
  induction cs with
  | nil => rfl
  | cons c cs ih =>
    have hc := h c (List.mem_cons_self _ _)
    simp only [rxMeta, List.mem_cons, not_or] at hc
    obtain ⟨h1, h2, h3, h4⟩ := hc
    rw [List.mapM_cons, ih (fun d hd => h d (List.mem_cons_of_mem _ hd))]
    simp only [h1, h2, h3, h4, if_false]
    rfl

theorem matchHere_literal (cs : List Char) :
    ∀ (xs ys : List Char) (b : Bool), cs.map foldCase = xs.map foldCase →
      matchHere (cs.map RxAtom.lit) b (xs ++ ys) = true := by
  induction cs with
  | nil => intro xs ys b _; simp [matchHere]
  | cons c cs ih =>
    intro xs ys b h
    cases xs with
    | nil => simp at h
    | cons x xs =>
      simp only [List.map_cons, List.cons.injEq] at h
      simp only [List.map_cons, List.cons_append, matchHere, h.1, beq_self_eq_true,
        Bool.true_and]
      exact ih xs ys false h.2

theorem searchFrom_literal (cs : List Char) :
    ∀ (pre mid post : List Char) (b : Bool), cs.map foldCase = mid.map foldCase →
      searchFrom (cs.map RxAtom.lit) b (pre ++ mid ++ post) = true := by
  intro pre
  induction pre with
  | nil =>
    intro mid post b h
    have hm := matchHere_literal cs mid post b h
    rw [List.nil_append]
    cases hmp : mid ++ post with
    | nil => rw [hmp] at hm; simpa [searchFrom] using hm
    | cons x xs => rw [hmp] at hm; simp [searchFrom, hm]
  | cons p pre ih =>
    intro mid post b h
    have e : p :: pre ++ mid ++ post = p :: (pre ++ mid ++ post) := rfl
    rw [e, searchFrom, ih mid post false h, Bool.or_true]

theorem regexTest_literal (term subject : String) (h : occursIgnoringCase term subject) :
    regexTest (term.data.map RxAtom.lit) subject = true := by
  obtain ⟨s, t, hst⟩ := h
  unfold regexTest
  obtain ⟨l1, post, h1, h2, _⟩ := List.map_eq_append_iff.mp hst.symm
  obtain ⟨pre, mid, h3, _, h5⟩ := List.map_eq_append_iff.mp h2
  rw [h1, h3]
  exact searchFrom_literal term.data pre mid post true h5.symm

theorem mem_publicActivePairs (db : Db) (p : Portfolio) (a : Artist)
    (hp : p ∈ db.portfolios) (hpub : p.isPublic = true) (ha : a ∈ db.artists)
    (hid : a._id = p.artist) (hact : a.isActive = true) : (p, a) ∈ publicActivePairs db := by
  unfold publicActivePairs
  rw [List.mem_filter]
  refine ⟨?_, hact⟩
  rw [List.mem_flatMap]
  refine ⟨p, List.mem_filter.mpr ⟨hp, hpub⟩, ?_⟩
  rw [List.mem_map]
  exact ⟨a, List.mem_filter.mpr ⟨ha, by simp [hid]⟩, rfl⟩

/-! ## The listing: claims -/

/-- C6: the pagination block is computed from `page`, `limit` and `total`
as `current = page`, `hasNext = (page * limit < total)`,
`hasPrev = (page > 1)` and, for a positive limit,
`pages = ceil(total / limit)`, the least number of pages of `limit` entries
that hold `total` entries; for `total = 25` and `limit = 12`, page 1 has
`hasNext`, no `hasPrev` and 3 pages, page 3 has no `hasNext` and `hasPrev`;
and the block of a successful listing is this block at the query's page
and limit. -/
theorem pagination_block (page limit total : Nat) :
    (pagination page limit total).current = page
      ∧ (pagination page limit total).total = total
      ∧ ((pagination page limit total).hasNext = true ↔ page * limit < total)
      ∧ ((pagination page limit total).hasPrev = true ↔ 1 < page)
      ∧ (0 < limit →
          (pagination page limit total).pages = some (Int.ceil ((total : ℚ) / (limit : ℚ)))
            ∧ (total : Int) ≤ Int.ceil ((total : ℚ) / (limit : ℚ)) * limit
            ∧ ∀ m : Int, (total : Int) ≤ m * limit → Int.ceil ((total : ℚ) / (limit : ℚ)) ≤ m)
      ∧ pagination 1 12 25 = ⟨1, some 3, 25, true, false⟩
      ∧ pagination 3 12 25 = ⟨3, some 3, 25, false, true⟩
      ∧ ∀ (eng : Engine) (db : Db) (q : Query) (ps : List AggDoc) (pg : Pagination),
          publicListing eng db q = ⟨200, Body.listing ps pg⟩ →
            pg = pagination q.pageValue q.limitValue pg.total := by
  refine ⟨rfl, rfl, by simp [pagination], by simp [pagination], ?_, ?_, ?_, ?_⟩
  · intro h
    exact ⟨mathCeilDiv_pos total limit h, ceil_div_least total limit h⟩
  · simp only [pagination, mathCeilDiv_25_12]
    decide
  · simp only [pagination, mathCeilDiv_25_12]
    decide
  · intro eng db q ps pg h
    exact (publicListing_total eng db q ps pg h).1

/-- C7: for every store, every way the store reads regular expressions and
orders what it sorts, and every query, the total computed by the count
pipeline equals the size of the filtered set (the public portfolios joined
to their active artists, restricted by the optional category and search);
the count pipeline is the filter stages followed by the sort and the count
(the page and project stages are gone); a successful listing reports this
size as its total; the listing succeeds, for a page and a limit of at least
1, whenever the search term is absent or accepted as a regular expression;
and the total depends neither on page and limit nor on the order in which
the store meets the documents. -/
theorem total_matches_filtered_set (eng : Engine) (db : Db) (q : Query) :
    (aggregate eng db (countPipeline q)).map totalOf = (filteredSet eng db q).map List.length
      ∧ countPipeline q = filterStages q ++ [Stage.sort, Stage.count]
      ∧ aggregate eng db (filterStages q) = (filteredSet eng db q).map (fun l => l.map pairRow)
      ∧ (∀ (ps : List AggDoc) (pg : Pagination),
          publicListing eng db q = ⟨200, Body.listing ps pg⟩ →
            ∃ l, filteredSet eng db q = Except.ok l ∧ pg.total = l.length)
      ∧ (∀ l, filteredSet eng db q = Except.ok l → 1 ≤ q.pageValue → 1 ≤ q.limitValue →
          ∃ ps, publicListing eng db q =
            ⟨200, Body.listing ps (pagination q.pageValue q.limitValue l.length)⟩)
      ∧ ((truthy q.search = true → ∃ rx, eng.regex (interp q.search) = some rx) →
          ∃ l, filteredSet eng db q = Except.ok l
            ∧ (1 ≤ q.pageValue → 1 ≤ q.limitValue →
                ∃ ps, publicListing eng db q =
                  ⟨200, Body.listing ps (pagination q.pageValue q.limitValue l.length)⟩))
      ∧ (∀ q1 : Query, q1.category = q.category → q1.search = q.search →
          (aggregate eng db (countPipeline q1)).map totalOf =
            (aggregate eng db (countPipeline q)).map totalOf)
      ∧ ∀ eng1 : Engine, eng1.regex = eng.regex →
          (aggregate eng1 db (countPipeline q)).map totalOf =
            (aggregate eng db (countPipeline q)).map totalOf := by
  refine ⟨count_total_eq eng db q, countPipeline_eq q, aggregate_filterStages eng db q,
    ?_, ?_, ?_, ?_, ?_⟩
  · intro ps pg h
    exact (publicListing_total eng db q ps pg h).2
  · intro l hf hp hl
    exact publicListing_ok eng db q l hf hp hl
  · intro hrx
    have hok : ∃ l, filteredSet eng db q = Except.ok l := by
      unfold filteredSet
      by_cases hs : truthy q.search = true
      · obtain ⟨rx, h⟩ := hrx hs
        simp only [hs, if_true, h]
        exact ⟨_, rfl⟩
      · simp only [hs, Bool.false_eq_true, if_false]
        exact ⟨_, rfl⟩
    obtain ⟨l, hf⟩ := hok
    exact ⟨l, hf, fun hp hl => publicListing_ok eng db q l hf hp hl⟩
  · intro q1 hc hs
    rw [count_total_eq, count_total_eq, filteredSet_congr eng db q q1 hc hs]
  · intro eng1 h
    rw [count_total_eq, count_total_eq, filteredSet_regex eng eng1 h]

/-- C8, as stated, fails: the term `US$` occurs in the genre tag
`US$ rates` of an active artist with a public portfolio, yet the search
stage rejects the portfolio and the filter stages return nothing, because
the term is read as a regular expression in which `$` is an anchor. -/
theorem search_misses_genre_with_anchor :
    occursIgnoringCase "US$" "US$ rates"
      ∧ dollarArtist.genres = some ["US$ rates"]
      ∧ dollarArtist.isActive = true ∧ plainPortfolio.isPublic = true
      ∧ runStage fragmentEngine ⟨[dollarArtist], [plainPortfolio]⟩
          (Stage.matchDocs (Cond.search "US$"))
          [pairRow (plainPortfolio, dollarArtist)] = Except.ok []
      ∧ aggregate fragmentEngine ⟨[dollarArtist], [plainPortfolio]⟩
          (filterStages ⟨none, none, none, some "US$"⟩) = Except.ok [] := by
  refine ⟨?_, rfl, rfl, rfl, by rfl, by rfl⟩
  unfold occursIgnoringCase
  decide

/-- C8, amended: for every search term free of regular-expression
metacharacters and every public portfolio of an active artist (of the
requested category, when one is requested), if the term occurs, letter case
ignored, in one of the artist's genre tags, then the search stage accepts
the portfolio and the filter stages of the listing return it, whatever the
artist name, the title and the description are; this for every engine that
reads the term as the fragment of the patterns does. -/
theorem search_accepts_genre_hit (eng : Engine) (db : Db) (q : Query) (term : String)
    (p : Portfolio) (a : Artist) (gs : List String) (g : String)
    (heng : eng.regex term = (compilePattern term).map regexTest)
    (hq : q.search = some term)
    (hterm : ∀ c ∈ term.data, c ∉ rxMeta)
    (hcat : truthy q.category = true → a.category = some (interp q.category))
    (hp : p ∈ db.portfolios) (hpub : p.isPublic = true)
    (ha : a ∈ db.artists) (hid : a._id = p.artist) (hact : a.isActive = true)
    (hg : a.genres = some gs) (hmem : g ∈ gs) (hocc : occursIgnoringCase term g) :
    (∃ rx, compilePattern term = some rx
        ∧ searchRow (regexTest rx) ⟨p, ArtistField.doc a⟩ = true)
      ∧ ∃ docs, aggregate eng db (filterStages q) = Except.ok docs
          ∧ pairRow (p, a) ∈ docs := by
  have hrx := compilePattern_literal term hterm
  have hrx1 : eng.regex term = some (regexTest (term.data.map RxAtom.lit)) := by
    rw [heng, hrx]
    rfl
  have hany : gs.any (regexTest (term.data.map RxAtom.lit)) = true := by
    simp only [List.any_eq_true]
    exact ⟨g, hmem, regexTest_literal term g hocc⟩
  have hhit : searchHit (regexTest (term.data.map RxAtom.lit)) p a = true := by
    unfold searchHit
    simp only [hg, hany, Bool.or_true]
  refine ⟨⟨_, hrx, ?_⟩, ?_⟩
  · unfold searchRow
    simp only [artistAny, hg, hany, Bool.or_true]
  · rw [aggregate_filterStages]
    have hbase := mem_publicActivePairs db p a hp hpub ha hid hact
    have hbc : (p, a) ∈ (if truthy q.category then
        (publicActivePairs db).filter fun pa => pa.2.category == some (interp q.category)
        else publicActivePairs db) := by
      split
      · rename_i hc
        rw [List.mem_filter]
        exact ⟨hbase, by simp [hcat hc]⟩
      · exact hbase
    unfold filteredSet
    simp only [hq, interp]
    split
    · rw [hrx1]
      refine ⟨_, rfl, ?_⟩
      rw [List.mem_map]
      refine ⟨(p, a), ?_, rfl⟩
      rw [List.mem_filter]
      exact ⟨by simpa [hq, interp] using hbc, hhit⟩
    · refine ⟨_, rfl, ?_⟩
      rw [List.mem_map]
      exact ⟨(p, a), by simpa [hq, interp] using hbc, rfl⟩

/-- C8 amended, at the term `jazz` and an artist tagged `Afro Jazz`, whose
name and portfolio title do not hold the term. -/
theorem search_accepts_genre_hit_witness :
    ∃ docs, aggregate fragmentEngine ⟨[jazzArtist], [plainPortfolio]⟩
        (filterStages ⟨none, none, none, some "jazz"⟩) = Except.ok docs
      ∧ pairRow (plainPortfolio, jazzArtist) ∈ docs :=
  (search_accepts_genre_hit fragmentEngine ⟨[jazzArtist], [plainPortfolio]⟩
    ⟨none, none, none, some "jazz"⟩
    "jazz" plainPortfolio jazzArtist ["Afro Jazz"] "Afro Jazz" rfl rfl (by decide)
    (fun h => absurd h (by decide)) (by decide) rfl (by decide) rfl rfl rfl (by decide)
    (by unfold occursIgnoringCase; decide)).2

/-! ## Generated files and the navigation list -/

theorem find_after_save (l : List Portfolio) (id : String) (p p1 : Portfolio)
    (h : l.find? (fun q => q._id == id) = some p) (h1 : p1._id = p._id) :
    (l.map (fun q => if q._id == p1._id then p1 else q)).find? (fun q => q._id == id)
      = some p1 := by
  have hid : p._id = id := by
    have := List.find?_some h
    simpa using this
  induction l with
  | nil => simp at h
  | cons x xs ih =>
    rw [List.find?_cons] at h
    rw [List.map_cons, List.find?_cons]
    by_cases hx : x._id = id
    · have hx1 : (x._id == p1._id) = true := by simp [hx, h1, hid]
      have hp1 : (p1._id == id) = true := by simp [h1, hid]
      simp only [hx1, if_true, hp1]
    · have hx0 : (x._id == id) = false := by simpa using hx
      have hx1 : (x._id == p1._id) = false := by simpa [h1, hid] using hx
      rw [hx0] at h
      simp only [hx1, Bool.false_eq_true, if_false, hx0]
      exact ih h

theorem findByIdPopulated_eq (db : Db) (id : String) (p : Portfolio) (a : Artist)
    (hp : db.portfolios.find? (fun q => q._id == id) = some p)
    (ha : db.artists.find? (fun b => b._id == p.artist) = some a) :
    findByIdPopulated db id = some ⟨p, some a⟩ := by
  unfold findByIdPopulated
  rw [hp]
  simp only [Option.map, ha]

/-- C9: for every stored portfolio with a resolvable artist, after a
successful PDF render (completion handler with a successful save) and
after a successful web render (file written, save successful) the request
is answered with status 200 and the stored portfolio is the old one with
its `generatedFiles` list followed by exactly one new record (format, file
name, URL, generation time): the prior entries stay as they were, in their
order. -/
theorem generated_file_appended (db : Db) (id : String) (p : Portfolio) (a : Artist)
    (hp : db.portfolios.find? (fun q => q._id == id) = some p)
    (ha : db.artists.find? (fun b => b._id == p.artist) = some a) :
    (∀ env : PdfEnv, env.saveOk = true →
        (generatePdf env db id).response.status = 200
          ∧ (generatePdf env db id).db.portfolios.find? (fun q => q._id == id) =
              some { p with generatedFiles := p.generatedFiles ++
                [⟨"pdf", pdfFilename env p, "/uploads/portfolios/" ++ pdfFilename env p,
                  env.endTime⟩] })
      ∧ ∀ (env : WebEnv) (customDomain : Option String),
          env.writeError = none → env.saveError = none →
          (generateWeb env db id customDomain).response.status = 200
            ∧ (generateWeb env db id customDomain).db.portfolios.find?
                (fun q => q._id == id) =
              some { p with generatedFiles := p.generatedFiles ++
                [⟨"html", webDomain env.js customDomain a.name ++ "-" ++ toString env.now ++ ".html",
                  "/uploads/web-portfolios/" ++
                    (webDomain env.js customDomain a.name ++ "-" ++ toString env.now ++ ".html"),
                  env.generatedAt⟩] } := by
  have hf := findByIdPopulated_eq db id p a hp ha
  constructor
  · intro env hs
    unfold generatePdf
    rw [hf]
    simp only [renderPdf, onPdfEnd, hs, if_true]
    exact ⟨trivial, find_after_save db.portfolios id p _ hp rfl⟩
  · intro env cd hw hs
    unfold generateWeb findByIdWithoutEmail
    rw [hf]
    simp only [Option.map, generateWebPortfolioHTML, hw, hs]
    exact ⟨trivial, find_after_save db.portfolios id p _ hp rfl⟩

/-- C9 at the store of the plain artist and portfolio, which already holds
one generated file. -/
theorem generated_file_appended_witness :
    ((generatePdf plainPdfEnv
        ⟨[plainArtist], [{ plainPortfolio with generatedFiles := [⟨"html", "f", "u", 1⟩] }]⟩
        "p1").db.portfolios.find? (fun q => q._id == "p1")).map (fun q => q.generatedFiles)
      = some [⟨"html", "f", "u", 1⟩,
          ⟨"pdf", "portfolio-p1-1700000000000.pdf",
            "/uploads/portfolios/portfolio-p1-1700000000000.pdf", 1700000000500⟩] := by
  rw [((generated_file_appended
    ⟨[plainArtist], [{ plainPortfolio with generatedFiles := [⟨"html", "f", "u", 1⟩] }]⟩
    "p1" { plainPortfolio with generatedFiles := [⟨"html", "f", "u", 1⟩] } plainArtist
    (by decide) (by decide)).1 plainPdfEnv rfl).2]
  decide


/-! ## Facts about strings -/

theorem foldl_append_data (l : List String) :
    ∀ acc : String, (l.foldl (fun r s => r ++ s) acc).data = acc.data ++ l.flatMap String.data := by
  induction l with
  | nil => intro acc; simp
  | cons s ss ih =>
    intro acc
    rw [List.foldl_cons, ih, List.flatMap_cons, String.data_append, List.append_assoc]

theorem join_data (l : List String) : (String.join l).data = l.flatMap String.data := by
  unfold String.join
  rw [foldl_append_data]
  rfl

theorem infix_join_of_mem (l : List String) (s : String) (h : s ∈ l) :
    s.data <:+: (String.join l).data := by
  rw [join_data]
  obtain ⟨l1, l2, rfl⟩ := List.append_of_mem h
  rw [List.flatMap_append, List.flatMap_cons]
  exact ⟨l1.flatMap String.data, l2.flatMap String.data, by simp [List.append_assoc]⟩

theorem startsWith_iff (pat : List Char) : ∀ s : List Char, startsWith pat s = true ↔ pat <+: s := by
  induction pat with
  | nil => intro s; simp [startsWith]
  | cons p ps ih =>
    intro s
    cases s with
    | nil => simp [startsWith]
    | cons c cs =>
      simp only [startsWith, Bool.and_eq_true, beq_iff_eq, ih, List.cons_prefix_cons]

theorem occursIn_iff (pat : List Char) : ∀ s : List Char, occursIn pat s = true ↔ pat <:+: s := by
  intro s
  induction s with
  | nil =>
    simp only [occursIn, startsWith_iff, List.prefix_nil, List.infix_nil]
  | cons c cs ih =>
    rw [occursIn, Bool.or_eq_true, startsWith_iff, ih, List.infix_cons_iff]

/-! ## The blocks of the page: claims -/

/-- C12: for every portfolio, the content string of each section and the
artist's bio, when it is non-empty, occur in the generated page character
for character: the template writes them between fixed pieces of markup
without escaping or any other change. -/
theorem content_and_bio_verbatim (js : Casing) (year : Nat) (p : Portfolio) (a : Artist) :
    (∀ sec ∈ p.sections, ∀ c : String, sec.content = some c →
        c.data <:+: (webPage js year p a).data)
      ∧ (∀ b : String, a.bio = some b → b ≠ "" → b.data <:+: (webPage js year p a).data)
      ∧ (∀ (sec : Section) (c : String), sec.content = some c →
          sectionBlock js sec = String.join ["\n",
            "        <section id=\"", sec.type, "\" class=\"fade-in\">\n",
            "            <h2>", sectionHeading js sec, "</h2>\n",
            "            <div class=\"content-card\">\n",
            "                <div style=\"white-space: pre-line; font-size: 1.1rem; line-height: 1.8;\">",
            c, "</div>\n", "            </div>\n", "        </section>\n", "        "])
      ∧ (∀ b : String, a.bio = some b → b ≠ "" →
          aboutBlock p a = String.join ["        <section id=\"about\" class=\"fade-in\">\n",
            "            <h2>About Me</h2>\n", "            <div class=\"content-card\">\n",
            "                <p style=\"font-size: 1.1rem; line-height: 1.8;\">", b, "</p>\n",
            "            </div>\n", "        </section>"])
      ∧ generateWebPortfolioHTML js year ⟨p, some a⟩ = Except.ok (webPage js year p a) := by
  have hmain : (webMain js p a).data <:+: (webPage js year p a).data :=
    infix_join_of_mem _ _ (by simp)
  have hsecs : (String.join (p.sections.map (sectionBlock js))).data <:+: (webMain js p a).data :=
    infix_join_of_mem _ _ (by simp)
  have habout : (aboutBlock p a).data <:+: (webMain js p a).data :=
    infix_join_of_mem _ _ (by simp)
  have hb : ∀ b : String, a.bio = some b → b ≠ "" → interp (jsOr a.bio p.description) = b := by
    intro b hb hne
    simp [jsOr, truthy, hb, hne, interp]
  refine ⟨?_, ?_, ?_, ?_, rfl⟩
  · intro sec hsec c hc
    have h1 : c.data <:+: (sectionBlock js sec).data :=
      infix_join_of_mem _ _ (by simp [hc, interp])
    have h2 : (sectionBlock js sec).data <:+: (String.join (p.sections.map (sectionBlock js))).data :=
      infix_join_of_mem _ _ (List.mem_map_of_mem _ hsec)
    exact ((h1.trans h2).trans hsecs).trans hmain
  · intro b hbio hne
    have h1 : b.data <:+: (aboutBlock p a).data :=
      infix_join_of_mem _ _ (by simp [hb b hbio hne])
    exact (h1.trans habout).trans hmain
  · intro sec c hc
    simp only [sectionBlock, hc, interp]
  · intro b hbio hne
    simp only [aboutBlock, hb b hbio hne]

theorem join_cons (s : String) (l : List String) : String.join (s :: l) = s ++ String.join l := by
  apply String.ext
  rw [join_data, String.data_append, join_data, List.flatMap_cons]

theorem join_nil : String.join [] = "" := rfl

theorem socialLink_populated (platform url : String) (h : url ≠ "") :
    socialLink (platform, some url) = iconLink platform url := by
  apply String.ext
  by_cases hw : platform = "website"
  · simp [socialLink, iconLink, iconClass, truthy, h, interp, hw, join_data,
      String.data_append]
  · simp [socialLink, iconLink, iconClass, truthy, h, interp, hw, join_data,
      String.data_append]

theorem socialLink_empty (platform : String) (url : Option String)
    (h : url = none ∨ url = some "") : socialLink (platform, url) = "" := by
  rcases h with h | h <;> simp [socialLink, truthy, h]

theorem social_row_eq (links : List (String × Option String)) :
    String.join (links.map socialLink) =
      String.join ((populatedLinks links).map fun e => iconLink e.1 e.2) := by
  induction links with
  | nil => rfl
  | cons e es ih =>
    obtain ⟨platform, url⟩ := e
    rw [List.map_cons, join_cons, ih]
    cases url with
    | none =>
      rw [socialLink_empty platform none (Or.inl rfl)]
      simp [populatedLinks]
    | some u =>
      by_cases hu : u = ""
      · rw [socialLink_empty platform (some u) (Or.inr (by rw [hu]))]
        simp [populatedLinks, hu]
      · rw [socialLink_populated platform u hu]
        simp [populatedLinks, hu, join_cons]


/-! ## The create route and the error middleware: claims -/

/-- C14: for every create request (customizations absent, complete or
partial), the bundle of the portfolio that is built has a concrete value
for each of the primary, secondary and accent colours, the heading and body
font names and the layout mode: the value of the request where it gives
one, and otherwise the documented default (`#B026FF`, `#ffffff`, `#FFD23F`,
`Montserrat`, `Poppins`, `grid`). The route replaces a colors or fonts
object that the request lacks by the object of the defaults and a layout
that is missing or empty by `grid`; an entry missing from an object that the
request gives takes its default from the schema when the document is
built. -/
theorem customizations_resolved (env : CreateEnv) (body : CreateBody) :
    (∃ (primary secondary accent heading fontBody layout : String),
        (newPortfolio env body).customizations =
            some ⟨some ⟨some primary, some secondary, some accent⟩,
              some ⟨some heading, some fontBody⟩, some layout⟩
          ∧ primary = ((body.customizations.bind fun c => c.colors).bind
              fun cols => cols.primary).getD "#B026FF"
          ∧ secondary = ((body.customizations.bind fun c => c.colors).bind
              fun cols => cols.secondary).getD "#ffffff"
          ∧ accent = ((body.customizations.bind fun c => c.colors).bind
              fun cols => cols.accent).getD "#FFD23F"
          ∧ heading = ((body.customizations.bind fun c => c.fonts).bind
              fun f => f.heading).getD "Montserrat"
          ∧ fontBody = ((body.customizations.bind fun c => c.fonts).bind
              fun f => f.body).getD "Poppins"
          ∧ layout ≠ ""
          ∧ (∀ l : String, body.customizations.bind (fun c => c.layout) = some l → l ≠ "" →
              layout = l)
          ∧ (truthy (body.customizations.bind (fun c => c.layout)) = false → layout = "grid"))
      ∧ (body.customizations.bind (fun c => c.colors) = none →
          (requestCustomizations body.customizations).colors =
            some ⟨some "#B026FF", some "#ffffff", some "#FFD23F"⟩)
      ∧ (∀ bc : Colors, body.customizations.bind (fun c => c.colors) = some bc →
          (requestCustomizations body.customizations).colors = some bc)
      ∧ (body.customizations.bind (fun c => c.fonts) = none →
          (requestCustomizations body.customizations).fonts =
            some ⟨some "Montserrat", some "Poppins"⟩)
      ∧ (∀ bf : Fonts, body.customizations.bind (fun c => c.fonts) = some bf →
          (requestCustomizations body.customizations).fonts = some bf)
      ∧ (newPortfolio plainCreateEnv partialColorsBody).customizations =
          some ⟨some ⟨some "#123456", some "#ffffff", some "#FFD23F"⟩,
            some ⟨some "Montserrat", some "Poppins"⟩, some "grid"⟩
      ∧ (newPortfolio plainCreateEnv
            { partialColorsBody with customizations := none }).customizations =
          some ⟨some ⟨some "#B026FF", some "#ffffff", some "#FFD23F"⟩,
            some ⟨some "Montserrat", some "Poppins"⟩, some "grid"⟩ := by
  refine ⟨⟨_, _, _, _, _, _, rfl, ?_, ?_, ?_, ?_, ?_, ?_, ?_, ?_⟩, ?_, ?_, ?_, ?_, by decide,
    by decide⟩
  · cases body.customizations.bind (fun c => c.colors) <;> rfl
  · cases body.customizations.bind (fun c => c.colors) <;> rfl
  · cases body.customizations.bind (fun c => c.colors) <;> rfl
  · cases body.customizations.bind (fun c => c.fonts) <;> rfl
  · cases body.customizations.bind (fun c => c.fonts) <;> rfl
  · split
    · rename_i h
      cases hl : body.customizations.bind (fun c => c.layout) with
      | none => rw [hl] at h; simp [truthy] at h
      | some l =>
        rw [hl] at h
        simpa [truthy, interp] using h
    · decide
  · intro l hl hne
    simp [hl, truthy, hne, interp]
  · intro h
    simp [h]
  · intro h
    simp only [requestCustomizations, h]
    rfl
  · intro bc h
    simp only [requestCustomizations, h]
  · intro h
    simp only [requestCustomizations, h]
    rfl
  · intro bf h
    simp only [requestCustomizations, h]

/-- C15: the error middleware answers an error by the first mark it
carries, in this order: name `ValidationError` gives 400 with
`Validation failed` and the list of the field messages; code `11000` gives
400 with `<field> already exists` for the first key of `keyValue`; name
`JsonWebTokenError` gives 401 `Invalid token`; name `TokenExpiredError`
gives 401 `Token expired`; code `LIMIT_FILE_SIZE` gives 400
`File too large` with `maxSize` `10MB`; code `LIMIT_UNEXPECTED_FILE` gives
400. An error with several marks is answered by the earliest one. -/
theorem error_classification (nodeEnv : Option String) (err : JsError) :
    (err.name = some "ValidationError" → ∀ msgs, err.errors = some msgs →
        errorMiddleware nodeEnv err =
          Except.ok ⟨400, ErrorBody.validation "Validation failed" msgs⟩)
      ∧ (err.name ≠ some "ValidationError" → err.code = some (ErrCode.num 11000) →
          ∀ field rest, err.keyValue = some (field :: rest) →
            errorMiddleware nodeEnv err =
              Except.ok ⟨400, ErrorBody.duplicate (field ++ " already exists") (some field)⟩)
      ∧ (err.name = some "JsonWebTokenError" → err.code ≠ some (ErrCode.num 11000) →
          errorMiddleware nodeEnv err = Except.ok ⟨401, ErrorBody.plain "Invalid token"⟩)
      ∧ (err.name = some "TokenExpiredError" → err.code ≠ some (ErrCode.num 11000) →
          errorMiddleware nodeEnv err = Except.ok ⟨401, ErrorBody.plain "Token expired"⟩)
      ∧ (err.name ≠ some "ValidationError" → err.name ≠ some "JsonWebTokenError" →
          err.name ≠ some "TokenExpiredError" →
          err.code = some (ErrCode.str "LIMIT_FILE_SIZE") →
          errorMiddleware nodeEnv err =
            Except.ok ⟨400, ErrorBody.tooLarge "File too large" "10MB"⟩)
      ∧ (err.name ≠ some "ValidationError" → err.name ≠ some "JsonWebTokenError" →
          err.name ≠ some "TokenExpiredError" →
          err.code = some (ErrCode.str "LIMIT_UNEXPECTED_FILE") →
          errorMiddleware nodeEnv err =
            Except.ok ⟨400, ErrorBody.plain "Too many files or unexpected field name"⟩)
      ∧ errorMiddleware nodeEnv ⟨some "ValidationError", some "m", some (ErrCode.num 11000),
            none, none, some [some "Title is required"], some ["email"]⟩ =
          Except.ok ⟨400, ErrorBody.validation "Validation failed" [some "Title is required"]⟩
      ∧ errorMiddleware nodeEnv ⟨some "JsonWebTokenError", some "m", some (ErrCode.num 11000),
            none, none, none, some ["email", "name"]⟩ =
          Except.ok ⟨400, ErrorBody.duplicate "email already exists" (some "email")⟩
      ∧ errorMiddleware nodeEnv ⟨some "TokenExpiredError", some "m",
            some (ErrCode.str "LIMIT_FILE_SIZE"), none, none, none, none⟩ =
          Except.ok ⟨401, ErrorBody.plain "Token expired"⟩ := by
  refine ⟨?_, ?_, ?_, ?_, ?_, ?_, by rfl, by rfl, by rfl⟩
  · intro hn msgs he
    simp only [errorMiddleware, hn, he, if_true]
  · intro hn hc field rest hk
    simp only [errorMiddleware, hn, hc, hk, if_true, if_false, List.head?_cons, interp]
  · intro hn hc
    have h1 : err.name ≠ some "ValidationError" := by rw [hn]; decide
    unfold errorMiddleware
    rw [if_neg h1, if_neg hc, if_pos hn]
  · intro hn hc
    have h1 : err.name ≠ some "ValidationError" := by rw [hn]; decide
    have h2 : err.name ≠ some "JsonWebTokenError" := by rw [hn]; decide
    unfold errorMiddleware
    rw [if_neg h1, if_neg hc, if_neg h2, if_pos hn]
  · intro h1 h2 h3 hc
    have h4 : err.code ≠ some (ErrCode.num 11000) := by rw [hc]; decide
    unfold errorMiddleware
    rw [if_neg h1, if_neg h4, if_neg h2, if_neg h3, if_pos hc]
  · intro h1 h2 h3 hc
    have h4 : err.code ≠ some (ErrCode.num 11000) := by rw [hc]; decide
    have h5 : err.code ≠ some (ErrCode.str "LIMIT_FILE_SIZE") := by rw [hc]; decide
    unfold errorMiddleware
    rw [if_neg h1, if_neg h4, if_neg h2, if_neg h3, if_neg h5, if_pos hc]

theorem errorMiddleware_unclassified (nodeEnv : Option String) (err : JsError)
    (h1 : err.name ≠ some "ValidationError") (h2 : err.code ≠ some (ErrCode.num 11000))
    (h3 : err.name ≠ some "JsonWebTokenError") (h4 : err.name ≠ some "TokenExpiredError")
    (h5 : err.code ≠ some (ErrCode.str "LIMIT_FILE_SIZE"))
    (h6 : err.code ≠ some (ErrCode.str "LIMIT_UNEXPECTED_FILE")) :
    errorMiddleware nodeEnv err = Except.ok ⟨statusOr500 err.status,
      ErrorBody.fallback (if truthy err.message then interp err.message else "Internal Server Error")
        (if nodeEnv = some "development" then some (err.stack, err) else none)⟩ := by
  simp only [errorMiddleware, h1, h2, h3, h4, h5, h6, if_false]

/-- C16, as stated, fails: the error built by `createError(404, ...)` is
none of the classified kinds, and the middleware answers it with its own
status 404, not with 500. -/
theorem unclassified_error_keeps_its_status :
    (createError "Error: Artist not found\n    at router" 404 "Artist not found" none).name
        = some "Error"
      ∧ (createError "Error: Artist not found\n    at router" 404 "Artist not found" none).code
        = none
      ∧ errorMiddleware (some "production")
          (createError "Error: Artist not found\n    at router" 404 "Artist not found" none) =
        Except.ok ⟨404, ErrorBody.fallback "Artist not found" none⟩ := by
  refine ⟨rfl, rfl, by rfl⟩

/-- C16, amended: for every error that is none of the classified kinds, the
middleware responds with the error's own `status` when that is set and not
zero, and with 500 otherwise, and echoes the error's message when that is
non-empty, and `Internal Server Error` otherwise. -/
theorem unclassified_error_response (nodeEnv : Option String) (err : JsError)
    (h1 : err.name ≠ some "ValidationError") (h2 : err.code ≠ some (ErrCode.num 11000))
    (h3 : err.name ≠ some "JsonWebTokenError") (h4 : err.name ≠ some "TokenExpiredError")
    (h5 : err.code ≠ some (ErrCode.str "LIMIT_FILE_SIZE"))
    (h6 : err.code ≠ some (ErrCode.str "LIMIT_UNEXPECTED_FILE")) :
    ∃ (status : Nat) (msg : String) (dbg : Option (Option String × JsError)),
      errorMiddleware nodeEnv err = Except.ok ⟨status, ErrorBody.fallback msg dbg⟩
        ∧ (∀ n : Nat, err.status = some n → n ≠ 0 → status = n)
        ∧ (err.status = none ∨ err.status = some 0 → status = 500)
        ∧ (∀ m : String, err.message = some m → m ≠ "" → msg = m)
        ∧ (err.message = none ∨ err.message = some "" → msg = "Internal Server Error") := by
  refine ⟨_, _, _, errorMiddleware_unclassified nodeEnv err h1 h2 h3 h4 h5 h6, ?_, ?_, ?_, ?_⟩
  · intro n hn hne
    simp [statusOr500, hn, hne]
  · intro h
    rcases h with h | h <;> simp [statusOr500, h]
  · intro m hm hne
    simp [truthy, hm, hne, interp]
  · intro h
    rcases h with h | h <;> simp [truthy, h]

/-- C16 amended, at a plain error without status and at an error built by
`createError(403, ...)`. -/
theorem unclassified_error_response_witness :
    errorMiddleware (some "production") ⟨some "Error", some "boom", none, none, some "trace",
        none, none⟩ = Except.ok ⟨500, ErrorBody.fallback "boom" none⟩
      ∧ ∃ (status : Nat) (msg : String) (dbg : Option (Option String × JsError)),
          errorMiddleware (some "production") (createError "trace" 403 "Forbidden" none) =
            Except.ok ⟨status, ErrorBody.fallback msg dbg⟩ ∧ status = 403 ∧ msg = "Forbidden" := by
  refine ⟨by rfl, ?_⟩
  obtain ⟨status, msg, dbg, h, hs, _, hm, _⟩ :=
    unclassified_error_response (some "production") (createError "trace" 403 "Forbidden" none)
      (by decide) (by decide) (by decide) (by decide) (by decide) (by decide)
  exact ⟨status, msg, dbg, h, hs 403 rfl (by decide), hm "Forbidden" rfl (by decide)⟩

/-- C17: in production mode the response of the error middleware does not
depend on the error's stack: two errors that differ only in their stack
get the same response (or make the middleware fail in the same way), and
the default response carries neither the stack nor the error object. The
same holds in every mode other than development. -/
theorem production_response_hides_stack (err : JsError) (stack : Option String) :
    errorMiddleware (some "production") { err with stack := stack } =
        errorMiddleware (some "production") err
      ∧ (∀ (status : Nat) (msg : String) (dbg : Option (Option String × JsError)),
          errorMiddleware (some "production") err =
            Except.ok ⟨status, ErrorBody.fallback msg dbg⟩ → dbg = none)
      ∧ (∀ nodeEnv : Option String, nodeEnv ≠ some "development" →
          errorMiddleware nodeEnv { err with stack := stack } = errorMiddleware nodeEnv err)
      ∧ errorMiddleware (some "production")
          ⟨some "Error", some "boom", none, none, some "at secret.js:1", none, none⟩ =
          Except.ok ⟨500, ErrorBody.fallback "boom" none⟩ := by
  have key : ∀ nodeEnv : Option String, nodeEnv ≠ some "development" →
      errorMiddleware nodeEnv { err with stack := stack } = errorMiddleware nodeEnv err := by
    intro nodeEnv hne
    simp only [errorMiddleware, hne, if_false]
  refine ⟨key _ (by decide), ?_, key, by rfl⟩
  intro status msg dbg h
  unfold errorMiddleware at h
  have hp : (some "production" : Option String) ≠ some "development" := by decide
  simp only [hp, if_false] at h
  split at h
  · split at h <;> simp at h
  · split at h
    · split at h <;> simp at h
    · split at h
      · simp at h
      · split at h
        · simp at h
        · split at h
          · simp at h
          · split at h
            · simp at h
            · simp only [Except.ok.injEq, ErrorResponse.mk.injEq, ErrorBody.fallback.injEq] at h
              exact h.2.2.symm

theorem find_after_saveArtist (l : List Artist) (id : String) (a a1 : Artist)
    (h : l.find? (fun b => b._id == id) = some a) (h1 : a1._id = a._id) :
    (l.map (fun b => if b._id == a1._id then a1 else b)).find? (fun b => b._id == a._id)
      = some a1 := by
  have hid : a._id = id := by
    have := List.find?_some h
    simpa using this
  induction l with
  | nil => simp at h
  | cons x xs ih =>
    rw [List.find?_cons] at h
    rw [List.map_cons, List.find?_cons]
    by_cases hx : x._id = id
    · have hx1 : (x._id == a1._id) = true := by simp [hx, h1, hid]
      have hp1 : (a1._id == a._id) = true := by simp [h1]
      simp only [hx1, if_true, hp1]
    · have hx0 : (x._id == id) = false := by simpa using hx
      have hx1 : (x._id == a1._id) = false := by simpa [h1, hid] using hx
      have hx2 : (x._id == a._id) = false := by simpa [hid] using hx
      rw [hx0] at h
      simp only [hx1, Bool.false_eq_true, if_false, hx2]
      exact ih h

theorem findArtistById_none (db : Db) (artistId : Option String)
    (h : ∀ a ∈ db.artists, artistId ≠ some a._id) : findArtistById db artistId = none := by
  unfold findArtistById
  cases artistId with
  | none => rfl
  | some id =>
    simp only
    rw [List.find?_eq_none]
    intro a ha hq
    have : a._id = id := by simpa using hq
    exact h a ha (by rw [this])

/-- C18: for every create request whose `artistId` matches no artist, the
route responds 404 with `Artist not found` and leaves the store as it was
(no portfolio is saved, no artist is changed); when the artist exists and
both saves succeed it responds 201, the new portfolio is stored, and the
stored artist is the old one with its `portfolio` back-reference set to the
new portfolio's id. -/
theorem create_portfolio_outcomes (env : CreateEnv) (db : Db) (body : CreateBody) :
    ((∀ a ∈ db.artists, body.artistId ≠ some a._id) →
        createPortfolio env db body = ⟨⟨404, Body.error "Artist not found"⟩, db⟩)
      ∧ ∀ (id : String) (artist : Artist), body.artistId = some id →
          db.artists.find? (fun a => a._id == id) = some artist →
          env.portfolioSaveError = none → env.artistSaveError = none →
          (createPortfolio env db body).response.status = 201
            ∧ (createPortfolio env db body).db.portfolios =
                db.portfolios ++ [newPortfolio env body]
            ∧ (newPortfolio env body)._id = env.newId
            ∧ (newPortfolio env body).artist = id
            ∧ (createPortfolio env db body).db.artists.find? (fun a => a._id == artist._id) =
                some { artist with portfolio := some env.newId } := by
  constructor
  · intro h
    unfold createPortfolio
    rw [findArtistById_none db body.artistId h]
  · intro id artist hid hfind hps has
    have hf : findArtistById db body.artistId = some artist := by
      unfold findArtistById
      rw [hid]
      exact hfind
    unfold createPortfolio
    rw [hf]
    simp only [hps, has]
    refine ⟨trivial, rfl, rfl, by simp [newPortfolio, hid, interp], ?_⟩
    exact find_after_saveArtist db.artists id artist _ hfind rfl

/-- The create route at the store of the plain artist: a request for the
artist `a1` is answered with 201 and sets the back-reference, a request for
an unknown artist is answered with 404 and changes nothing. -/
theorem create_portfolio_samples :
    (createPortfolio plainCreateEnv ⟨[plainArtist], []⟩ partialColorsBody).response.status = 201
      ∧ (createPortfolio plainCreateEnv ⟨[plainArtist], []⟩ partialColorsBody).db.artists =
          [{ plainArtist with portfolio := some "p9" }]
      ∧ createPortfolio plainCreateEnv ⟨[plainArtist], []⟩
          { partialColorsBody with artistId := some "zz" } =
          ⟨⟨404, Body.error "Artist not found"⟩, ⟨[plainArtist], []⟩⟩ := by
  refine ⟨by rfl, by decide, by decide⟩

/-- C19, what the route does: with the request body
`{ customDomain: "../x" }` the request succeeds, the file name is
`../x-<epoch-ms>.html`, and the path joined to the web-portfolios directory
resolves to a file of the parent directory, outside the web-portfolios
directory. -/
theorem custom_domain_escapes_web_directory :
    (generateWeb plainWebEnv ⟨[plainArtist], [plainPortfolio]⟩ "p1" (some "../x")).response.status
        = 200
      ∧ (generateWeb plainWebEnv ⟨[plainArtist], [plainPortfolio]⟩ "p1"
          (some "../x")).written.map (fun w => w.1) = some "../x-1700000000000.html"
      ∧ webDir "/srv/app/routes" = "/srv/app/uploads/web-portfolios"
      ∧ webFilePath "/srv/app/routes" "../x-1700000000000.html" =
          "/srv/app/uploads/x-1700000000000.html"
      ∧ ¬ ((webDir "/srv/app/routes" ++ "/").data <+:
          (webFilePath "/srv/app/routes" "../x-1700000000000.html").data)
      ∧ webFilePath "/srv/app/routes" "amina-1700000000000.html" =
          "/srv/app/uploads/web-portfolios/amina-1700000000000.html" := by
  refine ⟨by rfl, by rfl, by decide, by decide, by decide, by decide⟩

/-! ## The default domain of the web route -/

theorem toLower_toLower (c : Char) : c.toLower.toLower = c.toLower := by
  rcases toLower_eq_self_or c with h | ⟨h1, h2⟩
  · rw [h, h]
  · have hc := char_eq_ofNat c
    generalize c.toNat = n at *
    subst hc
    interval_cases n <;> decide

theorem hyphen_not_space : isStrWhiteSpace '-' = false := by decide

theorem replaceSpaceRuns_cons (b : Bool) (x : Char) (xs : List Char) :
    replaceSpaceRuns b (x :: xs) =
      if isStrWhiteSpace x then
        if b then replaceSpaceRuns true xs else '-' :: replaceSpaceRuns true xs
      else x :: replaceSpaceRuns false xs := by
  rw [replaceSpaceRuns]

theorem replaceSpaceRuns_no_space (cs : List Char) :
    ∀ b : Bool, ∀ c ∈ replaceSpaceRuns b cs, isStrWhiteSpace c = false := by
  induction cs with
  | nil => intro b c hc; simp [replaceSpaceRuns] at hc
  | cons x xs ih =>
    intro b c hc
    rw [replaceSpaceRuns_cons] at hc
    cases hx : isStrWhiteSpace x
    · simp only [hx, Bool.false_eq_true, if_false, List.mem_cons] at hc
      rcases hc with rfl | hc
      · exact hx
      · exact ih false c hc
    · cases b
      · simp only [hx, if_true, Bool.false_eq_true, if_false, List.mem_cons] at hc
        rcases hc with rfl | hc
        · exact hyphen_not_space
        · exact ih true c hc
      · simp only [hx, if_true] at hc
        exact ih true c hc

theorem replaceSpaceRuns_of_no_space (cs : List Char)
    (h : ∀ c ∈ cs, isStrWhiteSpace c = false) : ∀ b : Bool, replaceSpaceRuns b cs = cs := by
  induction cs with
  | nil => intro b; rfl
  | cons x xs ih =>
    intro b
    have hx : isStrWhiteSpace x = false := h x (List.mem_cons_self _ _)
    rw [replaceSpaceRuns_cons]
    simp only [hx, Bool.false_eq_true, if_false]
    rw [ih (fun c hc => h c (List.mem_cons_of_mem _ hc))]

/-- Every character of the collapsed text is a hyphen or a character of the
input. -/
theorem replaceSpaceRuns_mem (cs : List Char) :
    ∀ b : Bool, ∀ c ∈ replaceSpaceRuns b cs, c = '-' ∨ c ∈ cs := by
  induction cs with
  | nil => intro b c hc; simp [replaceSpaceRuns] at hc
  | cons x xs ih =>
    intro b c hc
    rw [replaceSpaceRuns_cons] at hc
    cases hx : isStrWhiteSpace x
    · simp only [hx, Bool.false_eq_true, if_false, List.mem_cons] at hc
      rcases hc with rfl | hc
      · exact Or.inr (List.mem_cons_self _ _)
      · rcases ih false c hc with h | h
        · exact Or.inl h
        · exact Or.inr (List.mem_cons_of_mem _ h)
    · cases b
      · simp only [hx, if_true, Bool.false_eq_true, if_false, List.mem_cons] at hc
        rcases hc with rfl | hc
        · exact Or.inl rfl
        · rcases ih true c hc with h | h
          · exact Or.inl h
          · exact Or.inr (List.mem_cons_of_mem _ h)
      · simp only [hx, if_true] at hc
        rcases ih true c hc with h | h
        · exact Or.inl h
        · exact Or.inr (List.mem_cons_of_mem _ h)

theorem defaultDomain_data (js : Casing) (name : String) :
    (defaultDomain js name).data = replaceSpaceRuns false (js.toLowerCase name).data := rfl

theorem defaultDomain_idem (js : Casing) (lower : Char → Prop) (h : LowerStable js lower)
    (name : String) : defaultDomain js (defaultDomain js name) = defaultDomain js name := by
  have hfix : js.toLowerCase (defaultDomain js name) = defaultDomain js name := by
    apply h.fixed
    intro c hc
    rw [defaultDomain_data] at hc
    rcases replaceSpaceRuns_mem _ false c hc with hc | hc
    · rw [hc]
      exact h.hyphen
    · exact h.result name c hc
  apply String.ext
  rw [defaultDomain_data js (defaultDomain js name), hfix, defaultDomain_data js name]
  exact replaceSpaceRuns_of_no_space _ (replaceSpaceRuns_no_space _ false) false

theorem asciiCasing_lowerStable : LowerStable asciiCasing (fun c => c.toLower = c) where
  hyphen := by decide
  result := by
    intro s c hc
    simp only [asciiCasing, List.mem_map] at hc
    obtain ⟨d, _, rfl⟩ := hc
    exact toLower_toLower d
  fixed := by
    intro s hs
    apply String.ext
    simp only [asciiCasing]
    have hid : ∀ c ∈ s.data, Char.toLower c = id c := hs
    rw [List.map_congr_left hid, List.map_id]

theorem replaceSpaceRuns_skip (w : List Char) (hw : ∀ c ∈ w, isStrWhiteSpace c = true)
    (v : List Char) : replaceSpaceRuns true (w ++ v) = replaceSpaceRuns true v := by
  induction w with
  | nil => rfl
  | cons x xs ih =>
    have hx := hw x (List.mem_cons_self _ _)
    rw [List.cons_append, replaceSpaceRuns_cons]
    simp only [hx, if_true]
    exact ih (fun c hc => hw c (List.mem_cons_of_mem _ hc))

theorem replaceSpaceRuns_flag (v : List Char)
    (hv : ∀ c, v.head? = some c → isStrWhiteSpace c = false) :
    replaceSpaceRuns true v = replaceSpaceRuns false v := by
  cases v with
  | nil => rfl
  | cons x xs =>
    have hx := hv x rfl
    rw [replaceSpaceRuns_cons, replaceSpaceRuns_cons]
    simp only [hx, Bool.false_eq_true, if_false]

/-- A word, a maximal run of white space and the rest: the word is kept,
the run becomes one hyphen. -/
theorem replaceSpaceRuns_run (u w v : List Char)
    (hu : ∀ c ∈ u, isStrWhiteSpace c = false) (hne : w ≠ [])
    (hw : ∀ c ∈ w, isStrWhiteSpace c = true)
    (hv : ∀ c, v.head? = some c → isStrWhiteSpace c = false) :
    replaceSpaceRuns false (u ++ w ++ v) = u ++ '-' :: replaceSpaceRuns false v := by
  induction u with
  | nil =>
    cases w with
    | nil => exact absurd rfl hne
    | cons x xs =>
      have hx := hw x (List.mem_cons_self _ _)
      rw [List.nil_append, List.cons_append, replaceSpaceRuns_cons]
      simp only [hx, if_true, Bool.false_eq_true, if_false]
      rw [replaceSpaceRuns_skip xs (fun c hc => hw c (List.mem_cons_of_mem _ hc)),
        replaceSpaceRuns_flag v hv]
      rfl
  | cons x xs ih =>
    have hx := hu x (List.mem_cons_self _ _)
    rw [List.cons_append, List.cons_append, replaceSpaceRuns_cons]
    simp only [hx, Bool.false_eq_true, if_false]
    rw [ih (fun c hc => hu c (List.mem_cons_of_mem _ hc))]
    rfl

/-- C20: for every artist name and every engine, when no `customDomain` is
supplied the domain of the web route is the name lower-cased by the engine
with every maximal run of white space replaced by one hyphen: it holds no
white-space character, and the same transformation leaves it unchanged, the
engine's lower-casing leaving lower-cased text alone; on success the file
name is the domain, a hyphen, the epoch milliseconds and `.html`, and the
URL sent back and stored is `/uploads/web-portfolios/` followed by the file
name. -/
theorem default_domain_slug (js : Casing) (name : String) :
    webDomain js none name = defaultDomain js name
      ∧ (defaultDomain js name).data = replaceSpaceRuns false (js.toLowerCase name).data
      ∧ (∀ c ∈ (defaultDomain js name).data, isStrWhiteSpace c = false)
      ∧ (∀ lower : Char → Prop, LowerStable js lower →
          defaultDomain js (defaultDomain js name) = defaultDomain js name)
      ∧ (∀ u w v : List Char, (∀ c ∈ u, isStrWhiteSpace c = false) → w ≠ [] →
          (∀ c ∈ w, isStrWhiteSpace c = true) →
          (∀ c, v.head? = some c → isStrWhiteSpace c = false) →
          replaceSpaceRuns false (u ++ w ++ v) = u ++ '-' :: replaceSpaceRuns false v)
      ∧ (∀ u : List Char, (∀ c ∈ u, isStrWhiteSpace c = false) →
          replaceSpaceRuns false u = u)
      ∧ (∀ c ∈ replaceSpaceRuns false (js.toLowerCase name).data,
          c = '-' ∨ c ∈ (js.toLowerCase name).data)
      ∧ ∀ (env : WebEnv) (db : Db) (id : String) (p : Portfolio) (a : Artist),
          env.js = js →
          db.portfolios.find? (fun q => q._id == id) = some p →
          db.artists.find? (fun b => b._id == p.artist) = some a →
          a.name = name → env.writeError = none → env.saveError = none →
          (generateWeb env db id none).response =
              ⟨200, Body.webGenerated "Web portfolio generated successfully"
                ("https://" ++ defaultDomain js name ++ ".katikaname.com")
                ("/uploads/web-portfolios/" ++
                  (defaultDomain js name ++ "-" ++ toString env.now ++ ".html"))
                (defaultDomain js name ++ "-" ++ toString env.now ++ ".html")
                (defaultDomain js name)⟩
            ∧ (generateWeb env db id none).written.map (fun w => w.1) =
                some (defaultDomain js name ++ "-" ++ toString env.now ++ ".html")
            ∧ ((generateWeb env db id none).db.portfolios.find?
                (fun q => q._id == id)).map (fun q => q.generatedFiles) =
                some (p.generatedFiles ++
                  [⟨"html", defaultDomain js name ++ "-" ++ toString env.now ++ ".html",
                    "/uploads/web-portfolios/" ++
                      (defaultDomain js name ++ "-" ++ toString env.now ++ ".html"),
                    env.generatedAt⟩]) := by
  refine ⟨rfl, rfl, replaceSpaceRuns_no_space _ false,
    fun lower h => defaultDomain_idem js lower h name, replaceSpaceRuns_run,
    fun u hu => replaceSpaceRuns_of_no_space u hu false, replaceSpaceRuns_mem _ false, ?_⟩
  intro env db id p a hjs hp ha hname hw hs
  have hf := findByIdPopulated_eq db id p a hp ha
  have hsave := find_after_save db.portfolios id p
    { p with generatedFiles := p.generatedFiles ++
      [⟨"html", webDomain env.js none a.name ++ "-" ++ toString env.now ++ ".html",
        "/uploads/web-portfolios/" ++
          (webDomain env.js none a.name ++ "-" ++ toString env.now ++ ".html"),
        env.generatedAt⟩] } hp rfl
  subst hname
  subst hjs
  unfold generateWeb findByIdWithoutEmail
  rw [hf]
  simp only [Option.map, generateWebPortfolioHTML, hw, hs]
  refine ⟨rfl, rfl, ?_⟩
  have e : (Db.save db { p with generatedFiles := p.generatedFiles ++
      [⟨"html", webDomain env.js none a.name ++ "-" ++ toString env.now ++ ".html",
        "/uploads/web-portfolios/" ++
          (webDomain env.js none a.name ++ "-" ++ toString env.now ++ ".html"),
        env.generatedAt⟩] }).portfolios.find? (fun q => q._id == id) = _ := hsave
  rw [e]
  rfl

/-- C20 at the engine cut down to ASCII letters, whose lower-casing leaves
lower-cased text alone: the name `Amina  Wanjiru` followed by a tab and `K`
gives the domain `amina-wanjiru-k`, which the transformation leaves
unchanged. -/
theorem default_domain_slug_ascii :
    (defaultDomain asciiCasing "Amina  Wanjiru\tK").data = "amina-wanjiru-k".data
      ∧ defaultDomain asciiCasing (defaultDomain asciiCasing "Amina  Wanjiru\tK") =
          defaultDomain asciiCasing "Amina  Wanjiru\tK"
      ∧ LowerStable asciiCasing (fun c => c.toLower = c) :=
  ⟨by decide, defaultDomain_idem asciiCasing _ asciiCasing_lowerStable _,
    asciiCasing_lowerStable⟩

/-! ## Facts about the PDF colours and the contact page -/

theorem hexToRgb_undefined : hexToRgb (interp none) = defaultRgb := by decide

theorem hexToRgb_entry_invalid (e : Option String)
    (h : e = none ∨ ∃ s, e = some s ∧ ∀ ds : List Char, ds.length = 6 →
      (∀ c ∈ ds, c ∈ hexChars) → s.data ≠ ds ∧ s.data ≠ '#' :: ds) :
    hexToRgb (interp e) = defaultRgb := by
  rcases h with h | ⟨s, hs, h⟩
  · rw [h]; exact hexToRgb_undefined
  · rw [hs]
    unfold hexToRgb
    rw [show interp (some s) = s from rfl, hexToRgb_default_of_not_match s h]

/-! ## The PDF colours and the contact page: claims -/

/-- C22, as stated, fails: for the portfolio whose colours object holds the
primary `#112233` and no accent, the accent triple of the PDF route is the
decoder's fallback (176, 38, 255), the default primary, and not the accent
(255, 210, 63) of the default palette; the decorative rule of the cover is
filled with it. -/
theorem accent_fallback_is_primary_default :
    resolveColors missingAccentPortfolio = ⟨some "#112233", some "#ffffff", none⟩
      ∧ primaryRgb missingAccentPortfolio = ⟨some 17, some 34, some 51⟩
      ∧ accentRgb missingAccentPortfolio = ⟨some 176, some 38, some 255⟩
      ∧ accentRgb missingAccentPortfolio ≠ ⟨some 255, some 210, some 63⟩
      ∧ (drawPortfolio plainPdfEnv missingAccentPortfolio plainArtist).take 11 =
          [PdfOp.rect 0 0 pageWidth 200, PdfOp.fill (Ink.rgb ⟨some 17, some 34, some 51⟩),
           PdfOp.fontSize 32, PdfOp.fillColor white, PdfOp.text (some "Amina") 50 80 centered,
           PdfOp.fontSize 18, PdfOp.text (some "CREATIVE PROFESSIONAL") 50 120 centered,
           PdfOp.fontSize 14, PdfOp.text (some "undefined LEVEL") 50 145 centered,
           PdfOp.rect 50 180 (pageWidth - 100) 3,
           PdfOp.fill (Ink.rgb ⟨some 176, some 38, some 255⟩)] := by
  decide

/-- C22, amended: for every portfolio, the drawing uses the triples
`primaryRgb` and `accentRgb`; when the colours object is absent they are
the default palette, (176, 38, 255) and (255, 210, 63); when it is present,
each of them is the decoded entry when the entry is an optional `#`
followed by six hexadecimal digits, and the decoder's single fallback
(176, 38, 255), for the accent as for the primary, when the entry is
missing or malformed. -/
theorem pdf_colors_resolved (p : Portfolio) :
    (∀ (env : PdfEnv) (a : Artist), drawPortfolio env p a =
        contactPage env a (Ink.rgb (primaryRgb p)) (Ink.rgb (accentRgb p))
          (skillsPage env a (Ink.rgb (primaryRgb p)) (Ink.rgb (accentRgb p))
            (p.sections.foldl (drawSection env (Ink.rgb (primaryRgb p)) (Ink.rgb (accentRgb p)))
              (bioPage a (Ink.rgb (accentRgb p))
                (coverPage env p a (Ink.rgb (primaryRgb p)) (Ink.rgb (accentRgb p)) [])))))
      ∧ ((p.customizations = none ∨ ∃ c, p.customizations = some c ∧ c.colors = none) →
          primaryRgb p = ⟨some 176, some 38, some 255⟩
            ∧ accentRgb p = ⟨some 255, some 210, some 63⟩)
      ∧ ∀ (c : Customizations) (cols : Colors), p.customizations = some c →
          c.colors = some cols →
          (∀ (s : String) (d1 d2 d3 d4 d5 d6 : Char), cols.primary = some s →
              (∀ x ∈ [d1, d2, d3, d4, d5, d6], x ∈ hexChars) →
              (s.data = [d1, d2, d3, d4, d5, d6] ∨ s.data = '#' :: [d1, d2, d3, d4, d5, d6]) →
              primaryRgb p = ⟨some (specPairValue d1 d2), some (specPairValue d3 d4),
                some (specPairValue d5 d6)⟩)
          ∧ (∀ (s : String) (d1 d2 d3 d4 d5 d6 : Char), cols.accent = some s →
              (∀ x ∈ [d1, d2, d3, d4, d5, d6], x ∈ hexChars) →
              (s.data = [d1, d2, d3, d4, d5, d6] ∨ s.data = '#' :: [d1, d2, d3, d4, d5, d6]) →
              accentRgb p = ⟨some (specPairValue d1 d2), some (specPairValue d3 d4),
                some (specPairValue d5 d6)⟩)
          ∧ ((cols.primary = none ∨ ∃ s, cols.primary = some s ∧ ∀ ds : List Char,
                ds.length = 6 → (∀ x ∈ ds, x ∈ hexChars) → s.data ≠ ds ∧ s.data ≠ '#' :: ds) →
              primaryRgb p = ⟨some 176, some 38, some 255⟩)
          ∧ ((cols.accent = none ∨ ∃ s, cols.accent = some s ∧ ∀ ds : List Char,
                ds.length = 6 → (∀ x ∈ ds, x ∈ hexChars) → s.data ≠ ds ∧ s.data ≠ '#' :: ds) →
              accentRgb p = ⟨some 176, some 38, some 255⟩) := by
  refine ⟨fun env a => rfl, ?_, ?_⟩
  · intro h
    have hr : resolveColors p = defaultColors := by
      unfold resolveColors
      rcases h with h | ⟨c, hc, h⟩
      · rw [h]
      · rw [hc]; simp only [h]
    unfold primaryRgb accentRgb
    rw [hr]
    exact ⟨by decide, by decide⟩
  · intro c cols hc hcols
    have hr : resolveColors p = cols := by
      unfold resolveColors
      rw [hc]; simp only [hcols]
    unfold primaryRgb accentRgb
    rw [hr]
    refine ⟨?_, ?_, ?_, ?_⟩
    · intro s d1 d2 d3 d4 d5 d6 hs hd hf
      rw [hs]
      exact hexToRgb_digits s d1 d2 d3 d4 d5 d6 hd hf
    · intro s d1 d2 d3 d4 d5 d6 hs hd hf
      rw [hs]
      exact hexToRgb_digits s d1 d2 d3 d4 d5 d6 hd hf
    · intro h
      exact hexToRgb_entry_invalid _ h
    · intro h
      exact hexToRgb_entry_invalid _ h

theorem contactPage_blocks (env : PdfEnv) (a : Artist) (primary accent : Ink) (d : List PdfOp) :
    contactPage env a primary accent d =
      (pdfSocialBlock env.js a primary
        (pdfLocationBlock a primary (contactHead a primary accent d, 120 + 50))).1
        ++ contactFooter env := by
  unfold contactPage pdfSocialBlock pdfLocationBlock contactHead contactFooter
  cases a.location <;> cases a.socialLinks <;> rfl

theorem Pt.ext_cents (a b : Pt) (h : a.cents = b.cents) : a = b := by
  cases a; cases b; simp only at h; rw [h]

theorem drawSocial_foldl_lines (js : Casing) (links : List (String × Option String)) :
    ∀ (d : List PdfOp) (y : Pt), links.foldl (drawSocial js) (d, y) =
      (d ++ socialLines js y (populatedLinks links),
        ⟨y.cents + 2000 * ((populatedLinks links).length : Int)⟩) := by
  induction links with
  | nil =>
    intro d y
    simp [populatedLinks, socialLines]
  | cons e es ih =>
    intro d y
    rw [List.foldl_cons]
    obtain ⟨pl, url⟩ := e
    cases url with
    | none =>
      have h1 : drawSocial js (d, y) (pl, none) = (d, y) := rfl
      have h2 : populatedLinks ((pl, none) :: es) = populatedLinks es := rfl
      rw [h1, h2, ih]
    | some u =>
      by_cases hu : u = ""
      · have h1 : drawSocial js (d, y) (pl, some u) = (d, y) := by
          simp [drawSocial, truthy, hu]
        have h2 : populatedLinks ((pl, some u) :: es) = populatedLinks es := by
          simp [populatedLinks, List.filterMap_cons, hu]
        rw [h1, h2, ih]
      · have h1 : drawSocial js (d, y) (pl, some u) =
            (d ++ [PdfOp.fontSize 12, PdfOp.fillColor (Ink.named "#0066cc"),
              PdfOp.text (some (capitalize js pl ++ ": " ++ u)) 50 y ⟨none, none, some u, true⟩],
             y + 20) := by
          simp [drawSocial, truthy, hu, interp]
        have h2 : populatedLinks ((pl, some u) :: es) = (pl, u) :: populatedLinks es := by
          simp [populatedLinks, List.filterMap_cons, hu]
        rw [h1, h2, ih]
        simp only [socialLines, List.append_assoc, List.length_cons, Prod.mk.injEq, true_and]
        apply Pt.ext_cents
        simp only [Pt.add_cents]
        have : (20 : Pt).cents = 2000 := rfl
        rw [this]
        push_cast
        ring

/-- C23, as stated, fails: for an artist whose social-links map is present
and holds no populated platform (every URL empty or missing, or no entry at
all), the heading `Connect Online:` is drawn on the contact page and the
offset is advanced by 25. -/
theorem heading_drawn_without_links :
    populatedLinks [("instagram", some ""), ("twitter", none)] = []
      ∧ emptyLinksArtist.socialLinks = some [("instagram", some ""), ("twitter", none)]
      ∧ pdfSocialBlock asciiCasing emptyLinksArtist (Ink.named "p") ([], 170) =
          ([PdfOp.fontSize 14, PdfOp.fillColor (Ink.named "p"),
            PdfOp.text (some "Connect Online:") 50 170 noOpts], 195)
      ∧ PdfOp.text (some "Connect Online:") 50 170 noOpts ∈
          drawPortfolio plainPdfEnv plainPortfolio emptyLinksArtist
      ∧ PdfOp.text (some "Connect Online:") 50 170 noOpts ∈
          drawPortfolio plainPdfEnv plainPortfolio { plainArtist with socialLinks := some [] } := by
  decide

/-- C23, amended: the contact page is the email block followed by the
location block, the social-links block and the footer. The location block
is drawn, and advances the offset by 50, only when the artist has a city or
a country. The social-links block is drawn when the social-links map is
present: its heading is drawn and the offset advanced by 25 whatever the
map holds, and a line is drawn and the offset advanced by 20 for each
populated platform only; when the map is absent nothing is drawn and the
offset is not advanced. -/
theorem contact_blocks (env : PdfEnv) (a : Artist) (primary accent : Ink) (d : List PdfOp) :
    contactPage env a primary accent d =
        (pdfSocialBlock env.js a primary
          (pdfLocationBlock a primary (contactHead a primary accent d, 170))).1
          ++ contactFooter env
      ∧ (hasLocation a = false → ∀ st, pdfLocationBlock a primary st = st)
      ∧ (∀ l, a.location = some l → hasLocation a = true →
          ∀ st, pdfLocationBlock a primary st =
            (st.1 ++ locationOps primary l st.2, st.2 + 50))
      ∧ (a.socialLinks = none → ∀ st, pdfSocialBlock env.js a primary st = st)
      ∧ ∀ links, a.socialLinks = some links →
          ∀ st, pdfSocialBlock env.js a primary st =
            (st.1 ++ socialHeading primary st.2
                ++ socialLines env.js (st.2 + 25) (populatedLinks links),
              ⟨st.2.cents + 2500 + 2000 * ((populatedLinks links).length : Int)⟩) := by
  refine ⟨contactPage_blocks env a primary accent d, ?_, ?_, ?_, ?_⟩
  · intro h st
    unfold pdfLocationBlock
    cases a.location with
    | none => rfl
    | some l => simp [h]
  · intro l hl h st
    unfold pdfLocationBlock
    rw [hl]
    simp [h]
  · intro h st
    unfold pdfSocialBlock
    rw [h]
  · intro links h st
    unfold pdfSocialBlock
    rw [h]
    simp only
    rw [drawSocial_foldl_lines]
    rfl

/-! ## Facts about the media placeholders and the skills page -/

theorem drawMedia_step (primary : Ink) (d : List PdfOp) (url : String) (k : Nat) (y : Pt)
    (hy : y.cents = if k ≤ 6 then 11000 + 12000 * (k : Int)
      else 5000 + 12000 * ((((k - 1) % 6 + 1 : Nat)) : Int)) :
    ∃ y1 : Pt, drawMedia primary (d, y) url =
        (d ++ ((if 0 < k ∧ k % 6 = 0 then [PdfOp.addPage] else []) ++ boxOps primary (boxY k)),
          y1)
      ∧ y1.cents = if k + 1 ≤ 6 then 11000 + 12000 * ((k + 1 : Nat) : Int)
          else 5000 + 12000 * ((((k + 1 - 1) % 6 + 1 : Nat)) : Int) := by
  unfold drawMedia
  have hph : (pageHeight - 100).cents = 74189 := rfl
  by_cases hk : 0 < k ∧ k % 6 = 0
  · have hgt : (d, y).2 > pageHeight - 100 := by
      show pageHeight - 100 < y
      rw [Pt.lt_iff, hph, hy]
      split <;> omega
    have hb : boxY k = 50 := by
      apply Pt.ext_cents
      unfold boxY
      have : ¬ k < 6 := by omega
      simp only [this, if_false]
      have : k % 6 = 0 := hk.2
      rw [this]
      rfl
    simp only [hgt, if_true, hk, and_self, boxOps, hb]
    refine ⟨50 + 120, by simp, ?_⟩
    have : ((50 : Pt) + 120).cents = 17000 := rfl
    rw [this]
    split <;> omega
  · have hgt : ¬ ((d, y).2 > pageHeight - 100) := by
      show ¬ (pageHeight - 100 < y)
      rw [Pt.lt_iff, hph, hy]
      split <;> omega
    have hb : boxY k = y := by
      apply Pt.ext_cents
      unfold boxY
      dsimp only
      rw [hy]
      split <;> split <;> omega
    simp only [hgt, if_false, hk, boxOps, hb, List.nil_append]
    refine ⟨_, rfl, ?_⟩
    rw [Pt.add_cents, hy]
    have : (120 : Pt).cents = 12000 := rfl
    rw [this]
    split <;> split <;> omega

theorem drawMedia_foldl_eq (primary : Ink) (media : List String) (d : List PdfOp) :
    ∃ y : Pt, media.foldl (drawMedia primary) (d, 110) = (d ++ mediaOps primary media.length, y)
      ∧ y.cents = if media.length ≤ 6 then 11000 + 12000 * (media.length : Int)
          else 5000 + 12000 * ((((media.length - 1) % 6 + 1 : Nat)) : Int) := by
  induction media using List.reverseRecOn with
  | nil => exact ⟨110, by simp [mediaOps], rfl⟩
  | append_singleton ms u ih =>
    obtain ⟨y, h1, h2⟩ := ih
    obtain ⟨y1, h3, h4⟩ := drawMedia_step primary (d ++ mediaOps primary ms.length) u ms.length y h2
    refine ⟨y1, ?_, ?_⟩
    · rw [List.foldl_append, h1, List.foldl_cons, List.foldl_nil, h3]
      simp only [List.length_append, List.length_singleton, mediaOps, List.range_succ,
        List.flatMap_append, List.flatMap_cons, List.flatMap_nil, List.append_nil,
        List.append_assoc]
    · simpa using h4

theorem mediaOps_succ (primary : Ink) (n : Nat) :
    mediaOps primary (n + 1) = mediaOps primary n ++
      ((if 0 < n ∧ n % 6 = 0 then [PdfOp.addPage] else []) ++ boxOps primary (boxY n)) := by
  simp only [mediaOps, List.range_succ, List.flatMap_append, List.flatMap_cons,
    List.flatMap_nil, List.append_nil]

theorem mediaBoxes_mediaOps (primary : Ink) (n : Nat) :
    mediaBoxes (mediaOps primary n) = (List.range n).map boxY := by
  induction n with
  | zero => rfl
  | succ n ih =>
    rw [mediaOps_succ, mediaBoxes_append, ih, List.range_succ, List.map_append]
    congr 1
    split <;> simp [mediaBoxes, boxOps]

theorem pageBreaks_mediaOps (primary : Ink) (n : Nat) :
    pageBreaks (mediaOps primary n) = (n - 1) / 6 := by
  induction n with
  | zero => rfl
  | succ n ih =>
    rw [mediaOps_succ, pageBreaks_append, ih]
    by_cases h : 0 < n ∧ n % 6 = 0
    · rw [if_pos h]
      have : pageBreaks ([PdfOp.addPage] ++ boxOps primary (boxY n)) = 1 := by
        simp [pageBreaks, boxOps, List.countP_cons]
      rw [this]
      omega
    · rw [if_neg h]
      have : pageBreaks ([] ++ boxOps primary (boxY n)) = 0 := by
        simp [pageBreaks, boxOps, List.countP_cons]
      rw [this]
      omega

theorem pageBoxCounts_append (a b : List PdfOp) :
    pageBoxCounts (a ++ b) = b.foldl countStep (pageBoxCounts a) := by
  unfold pageBoxCounts
  rw [List.foldl_append]

theorem countStep_boxOps (primary : Ink) (y : Pt) (c : Nat) (rest : List Nat) :
    (boxOps primary y).foldl countStep (c :: rest) = (c + 1) :: rest := by
  simp [boxOps, countStep]

theorem pageBoxCounts_section (primary accent : Ink) (title : String) (n : Nat) (hn : 1 ≤ n) :
    pageBoxCounts ([PdfOp.addPage] ++ headerBand accent title ++ mediaOps primary n) =
      (n - 6 * ((n - 1) / 6)) :: (List.replicate ((n - 1) / 6) 6 ++ [0]) := by
  induction n with
  | zero => omega
  | succ n ih =>
    rw [mediaOps_succ, ← List.append_assoc, pageBoxCounts_append]
    by_cases h0 : n = 0
    · subst h0
      have h40 : ¬ ((40 : Pt) = 100) := by decide
      simp [pageBoxCounts, headerBand, mediaOps, countStep, boxOps, h40]
    · rw [ih (by omega)]
      by_cases h : 0 < n ∧ n % 6 = 0
      · rw [if_pos h, List.foldl_append]
        have e1 : List.foldl countStep
            ((n - 6 * ((n - 1) / 6)) :: (List.replicate ((n - 1) / 6) 6 ++ [0])) [PdfOp.addPage]
            = 0 :: (n - 6 * ((n - 1) / 6)) :: (List.replicate ((n - 1) / 6) 6 ++ [0]) := rfl
        rw [e1, countStep_boxOps]
        have e2 : n - 6 * ((n - 1) / 6) = 6 := by omega
        have e3 : (n + 1 - 1) / 6 = (n - 1) / 6 + 1 := by omega
        have e4 : n + 1 - 6 * ((n - 1) / 6 + 1) = 0 + 1 := by omega
        rw [e2, e3, e4, List.replicate_succ, List.cons_append]
      · rw [if_neg h, List.nil_append, countStep_boxOps]
        have e3 : (n + 1 - 1) / 6 = (n - 1) / 6 := by omega
        have e4 : n + 1 - 6 * ((n - 1) / 6) = n - 6 * ((n - 1) / 6) + 1 := by omega
        rw [e3, e4]

theorem drawSection_media (env : PdfEnv) (primary accent : Ink) (d : List PdfOp)
    (sec : Section) (media : List String) (hc : truthy sec.content = false)
    (hm : sec.media = some media) :
    drawSection env primary accent d sec =
      d ++ ([PdfOp.addPage] ++ headerBand accent (env.js.toUpperCase (interp (jsOr sec.title (some sec.type))))
        ++ mediaOps primary media.length) := by
  unfold drawSection
  simp only [hc, hm, Bool.false_eq_true, if_false]
  obtain ⟨y, h1, _⟩ := drawMedia_foldl_eq primary media
    (d ++ [PdfOp.addPage] ++ headerBand accent (env.js.toUpperCase (interp (jsOr sec.title (some sec.type)))))
  split
  · rw [h1]
    simp only [List.append_assoc]
  · have : media = [] := List.eq_nil_of_length_eq_zero (by omega)
    subst this
    simp [mediaOps]

/-- C28: for a section with no content text and `M >= 1` media references
on an A4 page, the section is drawn as its page break and header band
followed by the placeholder boxes, box `i` at `y = 110 + 120 * i` for
`i < 6` and at `y = 50 + 120 * (i mod 6)` for `i >= 6`, with a page break
before each box whose index is a positive multiple of six; exactly
`floor((M - 1) / 6)` pages are added to the section's page; the last page
carries `M - 6 * floor((M - 1) / 6)` boxes and every page before it six, so
no page carries more than six. -/
theorem media_boxes_six_per_page (env : PdfEnv) (primary accent : Ink) (d : List PdfOp)
    (sec : Section) (media : List String) (hc : truthy sec.content = false)
    (hm : sec.media = some media) (hM : 1 ≤ media.length) :
    drawSection env primary accent d sec =
        d ++ ([PdfOp.addPage]
          ++ headerBand accent (env.js.toUpperCase (interp (jsOr sec.title (some sec.type))))
          ++ mediaOps primary media.length)
      ∧ mediaBoxes ([PdfOp.addPage]
          ++ headerBand accent (env.js.toUpperCase (interp (jsOr sec.title (some sec.type))))
          ++ mediaOps primary media.length) = (List.range media.length).map boxY
      ∧ (∀ i, i < 6 → boxY i = ⟨100 * (110 + 120 * (i : Int))⟩)
      ∧ (∀ i, 6 ≤ i → boxY i = ⟨100 * (50 + 120 * ((i % 6 : Nat) : Int))⟩)
      ∧ pageBreaks ([PdfOp.addPage]
          ++ headerBand accent (env.js.toUpperCase (interp (jsOr sec.title (some sec.type))))
          ++ mediaOps primary media.length) = 1 + (media.length - 1) / 6
      ∧ pageBoxCounts ([PdfOp.addPage]
          ++ headerBand accent (env.js.toUpperCase (interp (jsOr sec.title (some sec.type))))
          ++ mediaOps primary media.length) =
          (media.length - 6 * ((media.length - 1) / 6))
            :: (List.replicate ((media.length - 1) / 6) 6 ++ [0])
      ∧ ∀ c ∈ pageBoxCounts ([PdfOp.addPage]
          ++ headerBand accent (env.js.toUpperCase (interp (jsOr sec.title (some sec.type))))
          ++ mediaOps primary media.length), c ≤ 6 := by
  have hcounts := pageBoxCounts_section primary accent
    (env.js.toUpperCase (interp (jsOr sec.title (some sec.type)))) media.length hM
  refine ⟨drawSection_media env primary accent d sec media hc hm, ?_, ?_, ?_, ?_, hcounts, ?_⟩
  · rw [mediaBoxes_append, mediaBoxes_append, mediaBoxes_headerBand, mediaBoxes_mediaOps]
    simp [mediaBoxes]
  · intro i hi
    simp [boxY, hi]
  · intro i hi
    have : ¬ i < 6 := by omega
    simp [boxY, this]
  · rw [pageBreaks_append, pageBreaks_append, pageBreaks_headerBand, pageBreaks_mediaOps]
    simp [pageBreaks]
  · intro c hcm
    rw [hcounts] at hcm
    simp only [List.mem_cons, List.mem_append, List.mem_replicate, List.mem_singleton,
      List.not_mem_nil, or_false] at hcm
    rcases hcm with h | ⟨_, h⟩ | h <;> omega

/-- C28 at a section with seven media references: six boxes on the
section's page, a page break, the seventh box at `y = 50`. -/
theorem media_boxes_six_per_page_witness :
    mediaBoxes (drawSection plainPdfEnv (Ink.named "p") (Ink.named "a") []
        (mediaSection ["m1", "m2", "m3", "m4", "m5", "m6", "m7"])) =
      [110, 230, 350, 470, 590, 710, 50]
      ∧ pageBreaks (drawSection plainPdfEnv (Ink.named "p") (Ink.named "a") []
        (mediaSection ["m1", "m2", "m3", "m4", "m5", "m6", "m7"])) = 2
      ∧ pageBoxCounts (drawSection plainPdfEnv (Ink.named "p") (Ink.named "a") []
        (mediaSection ["m1", "m2", "m3", "m4", "m5", "m6", "m7"])) = [1, 6, 0] := by
  obtain ⟨h1, h2, _, _, h3, h4, _⟩ := media_boxes_six_per_page plainPdfEnv (Ink.named "p")
    (Ink.named "a") [] (mediaSection ["m1", "m2", "m3", "m4", "m5", "m6", "m7"])
    ["m1", "m2", "m3", "m4", "m5", "m6", "m7"] rfl rfl (by decide)
  rw [h1, List.nil_append, h2, h3, h4]
  exact ⟨by decide, by decide, by decide⟩

theorem skills_foldl_packed (env : PdfEnv) (primary : Ink)
    (hw : ∀ ops s, (0 : Pt) ≤ env.widthOfString ops s) (genres : List String) :
    ∀ (d : List PdfOp) (cx cy : Pt), (50 : Pt) ≤ cx →
      ∃ tags : List Tag,
        (genres.foldl (drawSkill env primary) (d, cx, cy)).1 = d ++ tags.flatMap (tagOps primary)
          ∧ tags.map Tag.genre = genres
          ∧ Measured env primary d tags
          ∧ Packed cx cy tags
          ∧ ∀ t ∈ tags, (50 : Pt) ≤ t.x
              ∧ (∃ k : Nat, t.y.cents = cy.cents + 3500 * (k : Int))
              ∧ (t.w ≤ pageWidth - 100 → t.x + t.w ≤ pageWidth - 50) := by
  induction genres with
  | nil =>
    intro d cx cy _
    exact ⟨[], by simp, rfl, trivial, trivial, by simp⟩
  | cons g gs ih =>
    intro d cx cy hcx
    have hw0 := hw d g
    rw [Pt.le_iff] at hw0 hcx
    have h0 : (0 : Pt).cents = 0 := rfl
    have h50 : (50 : Pt).cents = 5000 := rfl
    have h20 : (20 : Pt).cents = 2000 := rfl
    have h10 : (10 : Pt).cents = 1000 := rfl
    have h35 : (35 : Pt).cents = 3500 := rfl
    have hpw : (pageWidth - 50).cents = 54528 := rfl
    have hpw1 : (pageWidth - 100).cents = 49528 := rfl
    rw [h0] at hw0
    rw [h50] at hcx
    by_cases hc : cx + (env.widthOfString d g + 20) > pageWidth - 50
    · -- the tag starts a new row
      have hstep : drawSkill env primary (d, cx, cy) g =
          (d ++ tagOps primary ⟨g, 50, cy + 35, env.widthOfString d g + 20⟩,
            50 + (env.widthOfString d g + 20) + 10, cy + 35) := by
        simp [drawSkill, hc, tagOps]
      obtain ⟨tags, h1, h2, h3, h4, h5⟩ := ih
        (d ++ tagOps primary ⟨g, 50, cy + 35, env.widthOfString d g + 20⟩)
        (50 + (env.widthOfString d g + 20) + 10) (cy + 35)
        (by rw [Pt.le_iff]; simp only [Pt.add_cents, h50, h20, h10]; omega)
      refine ⟨⟨g, 50, cy + 35, env.widthOfString d g + 20⟩ :: tags, ?_, ?_, ?_, ?_, ?_⟩
      · rw [List.foldl_cons, hstep, h1]
        simp only [List.flatMap_cons, List.append_assoc]
      · simp [h2]
      · exact ⟨rfl, h3⟩
      · exact ⟨by simp [Placed, hc], h4⟩
      · intro t ht
        rcases List.mem_cons.mp ht with rfl | ht
        · refine ⟨by rw [Pt.le_iff], ⟨1, by simp [Pt.add_cents, h35]⟩, ?_⟩
          intro hle
          rw [Pt.le_iff] at hle ⊢
          simp only [Pt.add_cents, h50, h20, hpw, hpw1] at hle ⊢
          omega
        · obtain ⟨a1, ⟨k, a2⟩, a3⟩ := h5 t ht
          refine ⟨a1, ⟨k + 1, ?_⟩, a3⟩
          rw [a2, Pt.add_cents, h35]
          push_cast
          ring
    · -- the tag stays on the row
      have hstep : drawSkill env primary (d, cx, cy) g =
          (d ++ tagOps primary ⟨g, cx, cy, env.widthOfString d g + 20⟩,
            cx + (env.widthOfString d g + 20) + 10, cy) := by
        simp [drawSkill, hc, tagOps]
      obtain ⟨tags, h1, h2, h3, h4, h5⟩ := ih
        (d ++ tagOps primary ⟨g, cx, cy, env.widthOfString d g + 20⟩)
        (cx + (env.widthOfString d g + 20) + 10) cy
        (by rw [Pt.le_iff]; simp only [Pt.add_cents, h50, h20, h10]; omega)
      refine ⟨⟨g, cx, cy, env.widthOfString d g + 20⟩ :: tags, ?_, ?_, ?_, ?_, ?_⟩
      · rw [List.foldl_cons, hstep, h1]
        simp only [List.flatMap_cons, List.append_assoc]
      · simp [h2]
      · exact ⟨rfl, h3⟩
      · exact ⟨by simp [Placed, hc], h4⟩
      · intro t ht
        rcases List.mem_cons.mp ht with rfl | ht
        · refine ⟨by rw [Pt.le_iff, h50]; exact hcx, ⟨0, by simp⟩, ?_⟩
          intro _
          have hc1 : ¬ (pageWidth - 50 < cx + (env.widthOfString d g + 20)) := hc
          rw [Pt.lt_iff] at hc1
          rw [Pt.le_iff]
          simp only [Pt.add_cents] at hc1 ⊢
          omega
        · exact h5 t ht

/-- C24: for every non-empty genre list and every text-width function (a
width is not negative), the skills page is its page break and header band
followed by one tag per genre, in input order; the width of a tag is the
measured width of its text plus 20; the tags are packed from the running
position `(50, 120)`: a tag starts a new row, at `x = 50` and 35 lower,
exactly when its right edge would exceed the page width minus 50, and is
otherwise drawn at the running position, which after a tag lies 10 to the
right of its right edge; the first tag is at `(50, 120)` when its width is
at most the page width minus 100; every tag has `x >= 50` and lies on a row
`y = 120 + 35 * k`; and every tag whose width is at most the page width
minus 100 ends at or before the page width minus 50. -/
theorem skill_tags_packed (env : PdfEnv) (a : Artist) (genres : List String)
    (primary accent : Ink) (d : List PdfOp) (hg : a.genres = some genres) (hne : genres ≠ [])
    (hw : ∀ ops s, (0 : Pt) ≤ env.widthOfString ops s) :
    ∃ tags : List Tag,
      skillsPage env a primary accent d =
          d ++ [PdfOp.addPage] ++ headerBand accent "SKILLS & SPECIALTIES"
            ++ tags.flatMap (tagOps primary)
        ∧ tags.map Tag.genre = genres
        ∧ Measured env primary
            (d ++ [PdfOp.addPage] ++ headerBand accent "SKILLS & SPECIALTIES") tags
        ∧ Packed 50 120 tags
        ∧ (∀ (t : Tag) (rest : List Tag), tags = t :: rest → t.w ≤ pageWidth - 100 →
            t.x = 50 ∧ t.y = 120)
        ∧ ∀ t ∈ tags, (50 : Pt) ≤ t.x
            ∧ (∃ k : Nat, t.y.cents = 100 * (120 + 35 * (k : Int)))
            ∧ (t.w ≤ pageWidth - 100 → (50 : Pt) ≤ t.x ∧ t.x + t.w ≤ pageWidth - 50) := by
  obtain ⟨tags, h1, h2, h3, h4, h5⟩ := skills_foldl_packed env primary hw genres
    (d ++ [PdfOp.addPage] ++ headerBand accent "SKILLS & SPECIALTIES") 50 120
    (by rw [Pt.le_iff])
  refine ⟨tags, ?_, h2, h3, h4, ?_, ?_⟩
  · unfold skillsPage
    rw [hg]
    have hl : genres.length > 0 := List.length_pos.mpr hne
    simp only [hl, if_true]
    exact h1
  · intro t rest ht hwt
    rw [ht] at h4
    have hp : Placed 50 120 t := h4.1
    unfold Placed at hp
    have hfit : ¬ ((50 : Pt) + t.w > pageWidth - 50) := by
      show ¬ (pageWidth - 50 < 50 + t.w)
      rw [Pt.le_iff] at hwt
      rw [Pt.lt_iff, Pt.add_cents]
      have e1 : (pageWidth - 50).cents = 54528 := rfl
      have e2 : (pageWidth - 100).cents = 49528 := rfl
      have e3 : (50 : Pt).cents = 5000 := rfl
      rw [e1, e3]
      rw [e2] at hwt
      omega
    rw [if_neg hfit] at hp
    exact hp
  · intro t ht
    obtain ⟨a1, ⟨k, a2⟩, a3⟩ := h5 t ht
    refine ⟨a1, ⟨k, ?_⟩, fun h => ⟨a1, a3 h⟩⟩
    rw [a2]
    have : (120 : Pt).cents = 12000 := rfl
    rw [this]
    ring

/-- C24 at two genres and a library that measures every text as 30 wide:
both tags are on the first row, 50 wide, at `x = 50` and `x = 110`. -/
theorem skill_tags_packed_witness :
    (∃ tags : List Tag,
      skillsPage wideTextEnv jazzSoulArtist (Ink.named "p") (Ink.named "a") [] =
          [] ++ [PdfOp.addPage] ++ headerBand (Ink.named "a") "SKILLS & SPECIALTIES"
            ++ tags.flatMap (tagOps (Ink.named "p"))
        ∧ tags.map Tag.genre = ["jazz", "soul"]
        ∧ Packed 50 120 tags)
      ∧ skillsPage wideTextEnv jazzSoulArtist (Ink.named "p") (Ink.named "a") [] =
          [PdfOp.addPage] ++ headerBand (Ink.named "a") "SKILLS & SPECIALTIES"
            ++ tagOps (Ink.named "p") ⟨"jazz", 50, 120, 50⟩
            ++ tagOps (Ink.named "p") ⟨"soul", 110, 120, 50⟩ := by
  obtain ⟨tags, h1, h2, _, h4, _, _⟩ := skill_tags_packed wideTextEnv jazzSoulArtist
    ["jazz", "soul"] (Ink.named "p") (Ink.named "a") [] rfl (by decide)
    (fun _ _ => (by decide : (0 : Pt) ≤ 30))
  exact ⟨⟨tags, h1, h2, h4⟩, by decide⟩

/-! ## Facts about the pages of the listing -/

theorem hasNext_iff_lt_ceil (page limit total : Nat) (hl : 1 ≤ limit) :
    page * limit < total ↔ (page : Int) < Int.ceil ((total : ℚ) / (limit : ℚ)) := by
  have hq : (0 : ℚ) < (limit : ℚ) := by exact_mod_cast hl
  rw [Int.lt_ceil, lt_div_iff₀ hq]
  constructor
  · intro h; exact_mod_cast h
  · intro h; exact_mod_cast h

theorem ceil_zero_div (limit : Nat) : Int.ceil (((0 : Nat) : ℚ) / (limit : ℚ)) = 0 := by
  simp

/-- C27: for every page, every limit of at least 1 and every total, the
pagination block has `pages = ceil(total / limit)`, `hasNext` is true
exactly when `page < pages` and `hasPrev` exactly when `page > 1`; on the
last page (`page = pages`) `hasNext` is false; when `total = 0`, `pages` is
0 and `hasNext` is false; and the block of a successful listing agrees in
the same way with the page of the query. -/
theorem pagination_flags_agree (page limit total : Nat) (hl : 1 ≤ limit) :
    (pagination page limit total).pages = some (Int.ceil ((total : ℚ) / (limit : ℚ)))
      ∧ ((pagination page limit total).hasNext = true ↔
          (page : Int) < Int.ceil ((total : ℚ) / (limit : ℚ)))
      ∧ ((pagination page limit total).hasPrev = true ↔ 1 < page)
      ∧ ((page : Int) = Int.ceil ((total : ℚ) / (limit : ℚ)) →
          (pagination page limit total).hasNext = false)
      ∧ (total = 0 → (pagination page limit total).pages = some 0
          ∧ (pagination page limit total).hasNext = false)
      ∧ ∀ (eng : Engine) (db : Db) (q : Query) (ps : List AggDoc) (pg : Pagination),
          q.pageValue = page → q.limitValue = limit →
          publicListing eng db q = ⟨200, Body.listing ps pg⟩ →
          ∃ pages : Int, pg.pages = some pages ∧ (pg.hasNext = true ↔ (page : Int) < pages)
            ∧ (pg.hasPrev = true ↔ 1 < page) := by
  have hp := mathCeilDiv_pos total limit hl
  have hn : (pagination page limit total).hasNext = true ↔
      (page : Int) < Int.ceil ((total : ℚ) / (limit : ℚ)) := by
    rw [← hasNext_iff_lt_ceil page limit total hl]
    simp [pagination]
  have hv : (pagination page limit total).hasPrev = true ↔ 1 < page := by
    simp [pagination]
  refine ⟨hp, hn, hv, ?_, ?_, ?_⟩
  · intro h
    cases hb : (pagination page limit total).hasNext with
    | false => rfl
    | true => exact absurd (hn.mp hb) (by omega)
  · intro h0
    subst h0
    refine ⟨by rw [show (pagination page limit 0).pages = mathCeilDiv 0 limit from rfl,
      mathCeilDiv_pos 0 limit hl, ceil_zero_div], ?_⟩
    simp [pagination]
  · intro eng db q ps pg hpg hlim h
    have h1 := (publicListing_total eng db q ps pg h).1
    rw [hpg, hlim] at h1
    refine ⟨Int.ceil ((pg.total : ℚ) / (limit : ℚ)), ?_, ?_, ?_⟩
    · rw [h1]; exact mathCeilDiv_pos _ limit hl
    · rw [← hasNext_iff_lt_ceil page limit pg.total hl, h1]
      simp [pagination]
    · rw [h1]
      simp [pagination]

/-- C27 at page 2 of 25 entries by 12. -/
theorem pagination_flags_agree_witness :
    (pagination 2 12 25).pages = some (Int.ceil (((25 : Nat) : ℚ) / ((12 : Nat) : ℚ)))
      ∧ ((pagination 2 12 25).hasNext = true ↔
          ((2 : Nat) : Int) < Int.ceil (((25 : Nat) : ℚ) / ((12 : Nat) : ℚ))) :=
  ⟨(pagination_flags_agree 2 12 25 (by decide)).1, (pagination_flags_agree 2 12 25 (by decide)).2.1⟩

theorem sortBefore_iff (a b : Row) : sortBefore a b = true ↔ ListedBefore a b := by
  simp [sortBefore, ListedBefore]

theorem sortBefore_trans (a b c : Row) (h1 : sortBefore a b = true) (h2 : sortBefore b c = true) :
    sortBefore a c = true := by
  rw [sortBefore_iff] at *
  unfold ListedBefore at *
  omega

theorem sortBefore_total (a b : Row) : (sortBefore a b || sortBefore b a) = true := by
  rw [Bool.or_eq_true, sortBefore_iff, sortBefore_iff]
  unfold ListedBefore
  omega

theorem flatMap_range_chunks {α : Type} (L : Nat) :
    ∀ (n : Nat) (l : List α), l.length ≤ n * L →
      (List.range n).flatMap (fun k => (l.drop (k * L)).take L) = l := by
  intro n
  induction n with
  | zero =>
    intro l h
    have : l = [] := List.eq_nil_of_length_eq_zero (by omega)
    simp [this]
  | succ n ih =>
    intro l h
    rw [List.range_succ_eq_map, List.flatMap_cons, List.flatMap_map]
    have hd : (l.drop L).length ≤ n * L := by
      rw [List.length_drop]
      have : (n + 1) * L = n * L + L := by ring
      omega
    have e : (fun k => (l.drop ((k + 1) * L)).take L) =
        (fun k => ((l.drop L).drop (k * L)).take L) := by
      funext k
      rw [List.drop_drop]
      congr 2
      ring
    simp only [Nat.zero_mul, List.drop_zero, Function.comp_def, Nat.succ_eq_add_one]
    rw [e, ih _ hd, List.take_append_drop]

theorem publicListing_page (eng : Engine) (db : Db) (q : Query) (l : List (Portfolio × Artist))
    (hf : filteredSet eng db q = Except.ok l) (hp : 1 ≤ q.pageValue) (hl : 1 ≤ q.limitValue) :
    publicListing eng db q =
      ⟨200, Body.listing
        ((((listedOrder eng l).drop ((q.pageValue - 1) * q.limitValue)).take
          q.limitValue).map fun r => AggDoc.listed (projectRow r))
        (pagination q.pageValue q.limitValue l.length)⟩ := by
  have h1 := listingPipeline_ok eng db q l hf hp hl
  have h2 := count_total_eq eng db q
  rw [hf] at h2
  unfold publicListing
  rw [h1]
  cases hc : aggregate eng db (countPipeline q) with
  | error e => rw [hc] at h2; cases h2
  | ok tr =>
    rw [hc] at h2
    simp only [Except.map, Except.ok.injEq] at h2
    simp only [h2]

theorem listedOrder_sorted (eng : Engine) (l : List (Portfolio × Artist)) :
    (listedOrder eng l).Pairwise ListedBefore := by
  have h := List.sorted_mergeSort sortBefore_trans sortBefore_total
    (eng.arrange (l.map fun pa => (⟨pa.1, ArtistField.doc pa.2⟩ : Row)))
  exact h.imp (fun h => (sortBefore_iff _ _).mp h)

/-- Without ties the order of the listing is the same at every request. -/
theorem listedOrder_unique (eng eng1 : Engine) (l : List (Portfolio × Artist))
    (h : NoTies l) : listedOrder eng1 l = listedOrder eng l := by
  have hp : (listedOrder eng1 l).Perm (listedOrder eng l) :=
    (listedOrder_perm eng1 l).trans (listedOrder_perm eng l).symm
  have hrows : (l.map fun pa => (⟨pa.1, ArtistField.doc pa.2⟩ : Row)).Pairwise
      (fun x y => ¬ (x.p.views = y.p.views ∧ x.p.createdAt = y.p.createdAt)) := by
    rw [List.pairwise_map]
    exact h
  have hsymm : Symmetric (fun x y : Row =>
      ¬ (x.p.views = y.p.views ∧ x.p.createdAt = y.p.createdAt)) := by
    intro x y hxy hyx
    exact hxy ⟨hyx.1.symm, hyx.2.symm⟩
  have hanti : ∀ a b : Row, a ∈ listedOrder eng1 l → b ∈ listedOrder eng l →
      ListedBefore a b → ListedBefore b a → a = b := by
    intro a b ha hb hab hba
    by_contra hne
    have ha1 := (listedOrder_perm eng1 l).mem_iff.mp ha
    have hb1 := (listedOrder_perm eng l).mem_iff.mp hb
    have := hrows.forall hsymm ha1 hb1 hne
    unfold ListedBefore at hab hba
    omega
  exact List.Perm.eq_of_sorted hanti (listedOrder_sorted eng1 l) (listedOrder_sorted eng l) hp

theorem tiedDb_filtered (eng : Engine) (q : Query) (hc : q.category = none)
    (hs : q.search = none) :
    filteredSet eng tiedDb q = Except.ok
      [({ plainPortfolio with _id := "p1", views := 5, createdAt := 10 }, plainArtist),
       ({ plainPortfolio with _id := "p2", views := 5, createdAt := 10 }, plainArtist)] := by
  unfold filteredSet
  rw [hc, hs]
  rfl

/-- C25, as stated, fails: in a store whose two public portfolios `p1` and
`p2` have the same view count and creation time, listed one per page, a
request for page 1 at which the store meets `p1` first and a request for
page 2 at which it meets `p2` first are both answered with `p1`: put end to
end, the two pages hold `p1` twice and `p2` not at all. -/
theorem tied_portfolio_on_two_pages :
    reverseEngine.regex = fragmentEngine.regex
      ∧ filteredSet fragmentEngine tiedDb ⟨none, some 1, none, none⟩ = Except.ok
          [({ plainPortfolio with _id := "p1", views := 5, createdAt := 10 }, plainArtist),
           ({ plainPortfolio with _id := "p2", views := 5, createdAt := 10 }, plainArtist)]
      ∧ (pagination 1 1 2).pages = some 2
      ∧ (∃ x, publicListing fragmentEngine tiedDb ⟨some 1, some 1, none, none⟩ =
            ⟨200, Body.listing [AggDoc.listed x] (pagination 1 1 2)⟩ ∧ x._id = "p1")
      ∧ (∃ x, publicListing reverseEngine tiedDb ⟨some 2, some 1, none, none⟩ =
            ⟨200, Body.listing [AggDoc.listed x] (pagination 2 1 2)⟩ ∧ x._id = "p1") := by
  refine ⟨rfl, tiedDb_filtered _ _ rfl rfl, ?_, ?_, ?_⟩
  · rw [show (pagination 1 1 2).pages = mathCeilDiv 2 1 from rfl,
      mathCeilDiv_pos 2 1 (by decide)]
    congr 1
    rw [Int.ceil_eq_iff]
    norm_num
  · rw [publicListing_page fragmentEngine tiedDb ⟨some 1, some 1, none, none⟩ _
      (tiedDb_filtered _ _ rfl rfl) (by decide) (by decide)]
    simp [listedOrder, arrange_range, List.mergeSort, List.merge, sortBefore, plainPortfolio,
      projectRow, Query.pageValue, Query.limitValue]
  · rw [publicListing_page reverseEngine tiedDb ⟨some 2, some 1, none, none⟩ _
      (tiedDb_filtered _ _ rfl rfl) (by decide) (by decide)]
    simp [listedOrder, arrange_reverse, List.mergeSort, List.merge, sortBefore, plainPortfolio,
      projectRow, Query.pageValue, Query.limitValue]

/-- C25, amended: for every store, every query whose filtered set is `l`
and whose limit `L` is at least 1, and every request, the listing responds
200 to page `k >= 1` with the elements at the positions
`(k-1)*L .. k*L-1` of the filtered portfolios in the order of that request:
every joined portfolio of `l` exactly once (a permutation of `l`), sorted by
view count descending and then creation time descending (the sort comes
before skip and limit), portfolios of equal view count and creation time in
the order in which the store meets them at that request. Each page has at
most `L` entries, and the pages `1 .. ceil(total / L)` of one such order put
end to end are that order. When no two filtered portfolios have both the
same view count and the same creation time, the order, and with it every
page, is the same at every request. -/
theorem listing_pages_partition (eng : Engine) (db : Db) (q : Query)
    (l : List (Portfolio × Artist))
    (hf : filteredSet eng db q = Except.ok l) (hl : 1 ≤ q.limitValue) :
    (listedOrder eng l).Perm (l.map fun pa => (⟨pa.1, ArtistField.doc pa.2⟩ : Row))
      ∧ (listedOrder eng l).Pairwise ListedBefore
      ∧ (∀ k, 1 ≤ k →
          publicListing eng db { q with page := some k } =
            ⟨200, Body.listing
              ((((listedOrder eng l).drop ((k - 1) * q.limitValue)).take q.limitValue).map
                fun r => AggDoc.listed (projectRow r))
              (pagination k q.limitValue l.length)⟩)
      ∧ (∀ k i, i < q.limitValue →
          (((listedOrder eng l).drop ((k - 1) * q.limitValue)).take q.limitValue)[i]? =
            (listedOrder eng l)[(k - 1) * q.limitValue + i]?)
      ∧ (∀ k, (((listedOrder eng l).drop ((k - 1) * q.limitValue)).take q.limitValue).length
          ≤ q.limitValue)
      ∧ (∃ pages : Nat,
          (pagination 1 q.limitValue l.length).pages = some (pages : Int)
            ∧ (List.range pages).flatMap
                (fun k => ((listedOrder eng l).drop ((k + 1 - 1) * q.limitValue)).take
                  q.limitValue)
              = listedOrder eng l)
      ∧ (NoTies l → ∀ eng1 : Engine, eng1.regex = eng.regex →
          listedOrder eng1 l = listedOrder eng l
            ∧ ∀ k, 1 ≤ k →
                publicListing eng1 db { q with page := some k } =
                  publicListing eng db { q with page := some k }) := by
  have hpage : ∀ (e : Engine), e.regex = eng.regex → ∀ k, 1 ≤ k →
      publicListing e db { q with page := some k } =
        ⟨200, Body.listing
          ((((listedOrder e l).drop ((k - 1) * q.limitValue)).take q.limitValue).map
            fun r => AggDoc.listed (projectRow r))
          (pagination k q.limitValue l.length)⟩ := by
    intro e he k hk
    have hf1 : filteredSet e db { q with page := some k } = Except.ok l :=
      ((filteredSet_regex eng e he db _).trans
        (filteredSet_congr eng db q { q with page := some k } rfl rfl)).trans hf
    exact publicListing_page e db { q with page := some k } l hf1 hk hl
  refine ⟨listedOrder_perm eng l, listedOrder_sorted eng l, hpage eng rfl, ?_, ?_, ?_, ?_⟩
  · intro k i hi
    rw [List.getElem?_take, if_pos hi, List.getElem?_drop]
  · intro k
    rw [List.length_take]
    exact Nat.min_le_left _ _
  · have hlen : (listedOrder eng l).length = l.length :=
      (listedOrder_perm eng l).length_eq.trans (by simp)
    have hc := ceil_div_least l.length q.limitValue hl
    have h0 : (0 : Int) ≤ Int.ceil ((l.length : ℚ) / (q.limitValue : ℚ)) :=
      Int.ceil_nonneg (by positivity)
    refine ⟨(Int.ceil ((l.length : ℚ) / (q.limitValue : ℚ))).toNat, ?_, ?_⟩
    · rw [Int.toNat_of_nonneg h0]
      exact mathCeilDiv_pos _ _ hl
    · simp only [Nat.add_sub_cancel]
      apply flatMap_range_chunks
      rw [hlen]
      have h1 := hc.1
      rw [← Int.toNat_of_nonneg h0] at h1
      exact_mod_cast h1
  · intro hno eng1 he
    have hu := listedOrder_unique eng eng1 l hno
    refine ⟨hu, ?_⟩
    intro k hk
    rw [hpage eng1 he k hk, hpage eng rfl k hk, hu]

/-- C25 amended, at a store of three public portfolios without ties, listed
two per page: at every request the first page holds `p2` (9 views) and `p3`
(5 views, created later), the second page holds `p1`. -/
theorem listing_pages_partition_witness :
    NoTies
        [({ plainPortfolio with _id := "p1", views := 5, createdAt := 10 }, plainArtist),
         ({ plainPortfolio with _id := "p2", views := 9, createdAt := 20 }, plainArtist),
         ({ plainPortfolio with _id := "p3", views := 5, createdAt := 30 }, plainArtist)]
      ∧ (∀ k, 1 ≤ k →
          publicListing reverseEngine threePortfolioDb ⟨some k, some 2, none, none⟩ =
            publicListing fragmentEngine threePortfolioDb ⟨some k, some 2, none, none⟩)
      ∧ (aggregate fragmentEngine threePortfolioDb
            (listingPipeline ⟨some 1, some 2, none, none⟩)).map listedIds
          = Except.ok ["p2", "p3"]
      ∧ (aggregate fragmentEngine threePortfolioDb
            (listingPipeline ⟨some 2, some 2, none, none⟩)).map listedIds
          = Except.ok ["p1"] := by
  have hf : filteredSet fragmentEngine threePortfolioDb ⟨none, some 2, none, none⟩ = Except.ok
      [({ plainPortfolio with _id := "p1", views := 5, createdAt := 10 }, plainArtist),
       ({ plainPortfolio with _id := "p2", views := 9, createdAt := 20 }, plainArtist),
       ({ plainPortfolio with _id := "p3", views := 5, createdAt := 30 }, plainArtist)] := rfl
  have hno : NoTies
      [({ plainPortfolio with _id := "p1", views := 5, createdAt := 10 }, plainArtist),
       ({ plainPortfolio with _id := "p2", views := 9, createdAt := 20 }, plainArtist),
       ({ plainPortfolio with _id := "p3", views := 5, createdAt := 30 }, plainArtist)] := by
    simp [NoTies]
  have h := listing_pages_partition fragmentEngine threePortfolioDb ⟨none, some 2, none, none⟩
    _ hf (by decide)
  refine ⟨hno, fun k hk => (h.2.2.2.2.2.2 hno reverseEngine rfl).2 k hk, ?_, ?_⟩
  · rw [listingPipeline_ok fragmentEngine threePortfolioDb ⟨some 1, some 2, none, none⟩ _ hf
      (by decide) (by decide)]
    simp [listedOrder, arrange_range, List.mergeSort, List.merge, sortBefore, plainPortfolio,
      listedIds, projectRow, Query.pageValue, Query.limitValue]
    rfl
  · rw [listingPipeline_ok fragmentEngine threePortfolioDb ⟨some 2, some 2, none, none⟩ _ hf
      (by decide) (by decide)]
    simp [listedOrder, arrange_range, List.mergeSort, List.merge, sortBefore, plainPortfolio,
      listedIds, projectRow, Query.pageValue, Query.limitValue]
    rfl

/-! ## Facts about the public views -/

theorem directoryFilter_erase (eng : Engine) (q : DirectoryQuery) (f : Artist → Bool)
    (h : directoryFilter eng q = Except.ok f) : ∀ a, f (eraseEmail a) = f a := by
  unfold directoryFilter at h
  simp only at h
  split at h
  · split at h
    · cases h
    · simp only [Except.ok.injEq] at h
      subst h
      intro a
      rfl
  · simp only [Except.ok.injEq] at h
    subst h
    intro a
    rfl

theorem directoryBefore_erase (b : Bool) (x y : Artist) :
    directoryBefore b (eraseEmail x) (eraseEmail y) = directoryBefore b x y := rfl

theorem selectedArtist_erase (db : Db) (a : Artist) :
    selectedArtist (eraseEmails db) (eraseEmail a) = selectedArtist db a := rfl

theorem queryLimit_map {α β : Type} (g : α → β) (n : Nat) (l : List α) :
    queryLimit n (l.map g) = (queryLimit n l).map g := by
  unfold queryLimit
  split
  · rfl
  · rw [List.map_take]

theorem artistDirectory_erase (eng : Engine) (db : Db) (q : DirectoryQuery) :
    artistDirectory eng (eraseEmails db) q = artistDirectory eng db q := by
  unfold artistDirectory
  cases hf : directoryFilter eng q with
  | error e => rfl
  | ok f =>
    simp only
    have hfe := directoryFilter_erase eng q f hf
    have h1 : (eraseEmails db).artists.filter f = (db.artists.filter f).map eraseEmail := by
      show (db.artists.map eraseEmail).filter f = _
      rw [List.filter_map]
      congr 1
      apply List.filter_congr
      intro a _
      exact hfe a
    rw [h1]
    have h2 : ((eng.arrange (db.artists.filter f)).map eraseEmail).mergeSort
        (directoryBefore (q.featured == some "true")) =
        ((eng.arrange (db.artists.filter f)).mergeSort
          (directoryBefore (q.featured == some "true"))).map eraseEmail :=
      (List.map_mergeSort (fun a _ b _ => (directoryBefore_erase _ a b).symm)).symm
    rw [arrange_map, h2, queryLimit_map]
    simp only [List.map_map]
    rfl

theorem asRows_cons_row (r : Row) (ds : List AggDoc) :
    asRows (AggDoc.row r :: ds) = (asRows ds).map (fun rs => r :: rs) := by
  unfold asRows
  rw [List.mapM_cons]
  change (do
    let a ← (Except.ok r : Except AggError Row)
    let b ← asRows ds
    pure (a :: b)) = Except.map (fun rs => r :: rs) (asRows ds)
  cases asRows ds <;> rfl

theorem asRows_erase (docs : List AggDoc) :
    asRows (docs.map eraseDoc) = (asRows docs).map (List.map eraseRow) := by
  induction docs with
  | nil => rfl
  | cons d ds ih =>
    cases d with
    | row r =>
      rw [List.map_cons]
      show asRows (AggDoc.row (eraseRow r) :: ds.map eraseDoc) = _
      rw [asRows_cons_row, asRows_cons_row, ih]
      cases asRows ds <;> rfl
    | listed l => rfl
    | count n => rfl

theorem artistAny_erase (f : Artist → Bool) (hf : ∀ a, f (eraseEmail a) = f a) (r : Row) :
    artistAny f (eraseRow r).artist = artistAny f r.artist := by
  obtain ⟨p, art⟩ := r
  cases art with
  | ref id => rfl
  | docs l => simp [eraseRow, artistAny, List.any_map, Function.comp_def, hf]
  | doc a => simp [eraseRow, artistAny, hf]

theorem searchRow_erase (rx : String → Bool) (r : Row) :
    searchRow rx (eraseRow r) = searchRow rx r := by
  obtain ⟨p, art⟩ := r
  cases art with
  | ref id => rfl
  | docs l =>
    simp only [searchRow, eraseRow, artistAny, List.any_map, Function.comp_def]
    rfl
  | doc a => rfl

theorem compileCond_erase (c : Cond) (f : Row → Bool) (h : compileCond eng c = Except.ok f) :
    ∀ r, f (eraseRow r) = f r := by
  cases c with
  | isPublic =>
    simp only [compileCond, Except.ok.injEq] at h
    subst h
    intro r; rfl
  | artistActive =>
    simp only [compileCond, Except.ok.injEq] at h
    subst h
    intro r
    exact artistAny_erase (fun a => a.isActive) (fun _ => rfl) r
  | artistCategory cat =>
    simp only [compileCond, Except.ok.injEq] at h
    subst h
    intro r
    exact artistAny_erase (fun a => a.category == some cat) (fun _ => rfl) r
  | search term =>
    simp only [compileCond] at h
    split at h
    · cases h
    · rename_i rx _
      simp only [Except.ok.injEq] at h
      subst h
      intro r
      exact searchRow_erase rx r

theorem lookupRow_erase (db : Db) (r : Row) :
    lookupRow (eraseEmails db) (eraseRow r) = eraseRow (lookupRow db r) := by
  obtain ⟨p, art⟩ := r
  cases art with
  | ref id =>
    simp only [lookupRow, eraseRow, eraseEmails, Row.mk.injEq, true_and, ArtistField.docs.injEq]
    rw [List.filter_map]
    congr 1
  | docs l => rfl
  | doc a => rfl

theorem unwindRow_erase (r : Row) :
    unwindRow (eraseRow r) = (unwindRow r).map eraseRow := by
  obtain ⟨p, art⟩ := r
  cases art with
  | ref id => rfl
  | docs l => simp [unwindRow, eraseRow, List.map_map, Function.comp_def]
  | doc a => rfl

theorem projectRow_erase (r : Row) : projectRow (eraseRow r) = projectRow r := by
  obtain ⟨p, art⟩ := r
  cases art with
  | ref id => rfl
  | docs l =>
    simp only [projectRow, eraseRow, List.map_map, Listed.mk.injEq, true_and,
      ListedArtistField.many.injEq]
    rfl
  | doc a => rfl

theorem map_row_erase (rows : List Row) :
    (rows.map eraseRow).map AggDoc.row = (rows.map AggDoc.row).map eraseDoc := by
  simp [List.map_map, Function.comp_def, eraseDoc]

theorem runStage_erase (eng : Engine) (db : Db) (st : Stage) (docs : List AggDoc) :
    runStage eng (eraseEmails db) st (docs.map eraseDoc) =
      (runStage eng db st docs).map (List.map eraseDoc) := by
  cases st with
  | matchDocs c =>
    simp only [runStage, asRows_erase]
    cases hc : compileCond eng c with
    | error e => cases asRows docs <;> rfl
    | ok f =>
      cases asRows docs with
      | error e => rfl
      | ok rows =>
        simp only [Except.map]
        rw [← map_row_erase, List.filter_map]
        congr 3
        apply List.filter_congr
        intro r _
        exact compileCond_erase c f hc r
  | lookup =>
    simp only [runStage, asRows_erase]
    cases asRows docs with
    | error e => rfl
    | ok rows =>
      simp only [Except.map, List.map_map]
      congr 1
      apply List.map_congr_left
      intro r _
      simp [Function.comp_def, lookupRow_erase, eraseDoc]
  | unwind =>
    simp only [runStage, asRows_erase]
    cases asRows docs with
    | error e => rfl
    | ok rows =>
      simp only [Except.map]
      rw [← map_row_erase]
      congr 2
      induction rows with
      | nil => rfl
      | cons r rs ih =>
        simp only [List.map_cons, List.flatMap_cons, List.map_append, unwindRow_erase, ih]
  | sort =>
    simp only [runStage, asRows_erase]
    cases asRows docs with
    | error e => rfl
    | ok rows =>
      simp only [Except.map]
      rw [← map_row_erase]
      congr 2
      have h : ((eng.arrange rows).mergeSort sortBefore).map eraseRow =
          ((eng.arrange rows).map eraseRow).mergeSort sortBefore :=
        List.map_mergeSort (fun a _ b _ => rfl)
      rw [arrange_map]
      exact h.symm
  | skip n =>
    simp only [runStage]
    split
    · rfl
    · simp only [Except.map, List.map_drop]
  | limit n =>
    simp only [runStage]
    split
    · rfl
    · simp only [Except.map, List.map_take]
  | project =>
    simp only [runStage, asRows_erase]
    cases asRows docs with
    | error e => rfl
    | ok rows =>
      simp only [Except.map, List.map_map]
      congr 1
      apply List.map_congr_left
      intro r _
      simp [Function.comp_def, projectRow_erase, eraseDoc]
  | count =>
    simp only [runStage, List.length_map]
    split <;> rfl

theorem runStages_erase (eng : Engine) (db : Db) (sts : List Stage) :
    ∀ docs : List AggDoc, runStages eng (eraseEmails db) sts (docs.map eraseDoc) =
      (runStages eng db sts docs).map (List.map eraseDoc) := by
  induction sts with
  | nil => intro docs; rfl
  | cons st rest ih =>
    intro docs
    rw [runStages, runStages, runStage_erase]
    cases runStage eng db st docs with
    | error e => rfl
    | ok d1 => exact ih d1

theorem aggregate_erase (eng : Engine) (db : Db) (pipeline : List Stage) :
    aggregate eng (eraseEmails db) pipeline = (aggregate eng db pipeline).map (List.map eraseDoc) := by
  unfold aggregate
  rw [← runStages_erase]
  congr 1
  simp [eraseEmails, List.map_map, Function.comp_def, eraseDoc, eraseRow]

theorem totalOf_erase (docs : List AggDoc) : totalOf (docs.map eraseDoc) = totalOf docs := by
  cases docs with
  | nil => rfl
  | cons d ds => cases d <;> rfl

theorem listing_docs_fixed (eng : Engine) (db : Db) (q : Query) (ps : List AggDoc)
    (h : aggregate eng db (listingPipeline q) = Except.ok ps) : ps.map eraseDoc = ps := by
  unfold aggregate listingPipeline at h
  have e : filterStages q ++ [Stage.sort, Stage.skip (((q.pageValue : Int) - 1) * q.limitValue),
      Stage.limit q.limitValue, Stage.project] =
      (filterStages q ++ [Stage.sort, Stage.skip (((q.pageValue : Int) - 1) * q.limitValue),
        Stage.limit q.limitValue]) ++ [Stage.project] := by simp
  rw [e, runStages_append] at h
  cases h1 : runStages eng db (filterStages q ++
      [Stage.sort, Stage.skip (((q.pageValue : Int) - 1) * q.limitValue),
        Stage.limit q.limitValue])
      (db.portfolios.map fun p => AggDoc.row ⟨p, ArtistField.ref p.artist⟩) with
  | error e1 => rw [h1] at h; cases h
  | ok d1 =>
    rw [h1] at h
    simp only [runStages, runStage] at h
    cases h2 : asRows d1 with
    | error e2 => rw [h2] at h; cases h
    | ok rows =>
      rw [h2] at h
      simp only [Except.ok.injEq] at h
      subst h
      simp [List.map_map, Function.comp_def, eraseDoc]

theorem publicListing_erase (eng : Engine) (db : Db) (q : Query) :
    publicListing eng (eraseEmails db) q = publicListing eng db q := by
  unfold publicListing
  rw [aggregate_erase, aggregate_erase]
  cases h1 : aggregate eng db (listingPipeline q) with
  | error e => rfl
  | ok ps =>
    cases h2 : aggregate eng db (countPipeline q) with
    | error e => rfl
    | ok tr =>
      simp only [Except.map]
      rw [listing_docs_fixed eng db q ps h1, totalOf_erase]

/-! ## The public views: claims -/

/-- C21: for two stores that differ at most in the emails of their artists,
the artist directory gives the same response for every query, and so does
the public listing, however the store reads regular expressions and orders
what it sorts; every artist object of a directory response has no
email, whatever the stored email is; and the listing projects of an artist
only the name, the category, the genres, the location and the first media
item, so that the projection of a row does not depend on the emails. -/
theorem public_views_hide_email (eng : Engine) (db1 db2 : Db) (h : SameUpToEmails db1 db2) :
    (∀ q : DirectoryQuery, artistDirectory eng db1 q = artistDirectory eng db2 q)
      ∧ (∀ q : Query, publicListing eng db1 q = publicListing eng db2 q)
      ∧ (∀ (q : DirectoryQuery) (artists : List DirectoryArtist),
          artistDirectory eng db1 q = ⟨200, Body.directory artists⟩ →
            ∀ e ∈ artists, e.email = none)
      ∧ (∀ a : Artist, projectArtist a =
          ⟨a.name, a.category, a.genres, a.location, a.media.map (fun m => m.take 1)⟩)
      ∧ ∀ r : Row, projectRow (eraseRow r) = projectRow r := by
  unfold SameUpToEmails at h
  refine ⟨?_, ?_, ?_, fun _ => rfl, projectRow_erase⟩
  · intro q
    rw [← artistDirectory_erase eng db1, ← artistDirectory_erase eng db2, h]
  · intro q
    rw [← publicListing_erase eng db1, ← publicListing_erase eng db2, h]
  · intro q artists hq e he
    unfold artistDirectory at hq
    cases hf : directoryFilter eng q with
    | error err => rw [hf] at hq; simp at hq
    | ok f =>
      rw [hf] at hq
      simp only [Response.mk.injEq, Body.directory.injEq, true_and] at hq
      subst hq
      simp only [List.mem_map] at he
      obtain ⟨x, _, rfl⟩ := he
      rfl

/-- C21 at two stores that hold the same artist under two emails: the
directory and the listing answer alike, and the directory entry has no
email. -/
theorem public_views_hide_email_witness :
    artistDirectory fragmentEngine ⟨[plainArtist], [plainPortfolio]⟩ ⟨none, none, none, none⟩ =
        artistDirectory fragmentEngine ⟨[otherEmailArtist], [plainPortfolio]⟩ ⟨none, none, none, none⟩
      ∧ publicListing fragmentEngine ⟨[plainArtist], [plainPortfolio]⟩ ⟨none, none, none, none⟩ =
        publicListing fragmentEngine ⟨[otherEmailArtist], [plainPortfolio]⟩ ⟨none, none, none, none⟩
      ∧ artistDirectory fragmentEngine ⟨[plainArtist], [plainPortfolio]⟩ ⟨none, none, none, none⟩ =
        ⟨200, Body.directory
          [⟨"a1", "Amina", none, none, none, none, none, none, none, 0, none⟩]⟩ :=
  ⟨(public_views_hide_email fragmentEngine ⟨[plainArtist], [plainPortfolio]⟩
      ⟨[otherEmailArtist], [plainPortfolio]⟩ rfl).1 _,
   (public_views_hide_email fragmentEngine ⟨[plainArtist], [plainPortfolio]⟩
      ⟨[otherEmailArtist], [plainPortfolio]⟩ rfl).2.1 _,
   by simp [artistDirectory, directoryFilter, truthy, plainArtist, List.mergeSort, queryLimit,
      arrange_range,
      DirectoryQuery.limitValue, selectedArtist, withoutEmail, populatePortfolio]⟩

/-! ## Facts about analytics and statistics -/

theorem newestFirst_trans (a b c : GeneratedFile) (h1 : newestFirst a b = true)
    (h2 : newestFirst b c = true) : newestFirst a c = true := by
  simp only [newestFirst, decide_eq_true_eq] at *
  omega

theorem newestFirst_total (a b : GeneratedFile) :
    (newestFirst a b || newestFirst b a) = true := by
  simp only [newestFirst, Bool.or_eq_true, decide_eq_true_eq]
  omega

/-! ## Analytics and statistics: claims -/

/-- C26, as stated, fails: for a portfolio whose list holds a PDF generated
at time 100 followed by an HTML file generated at time 200, the list of the
loaded document after the analytics block is built holds the HTML file
first: the in-place sort has reversed the append order. -/
theorem analytics_reorders_loaded_files :
    twoFilesPortfolio.generatedFiles =
        [⟨"pdf", "portfolio-p1-100.pdf", "/uploads/portfolios/portfolio-p1-100.pdf", 100⟩,
         ⟨"html", "amina-200.html", "/uploads/web-portfolios/amina-200.html", 200⟩]
      ∧ (portfolioAnalytics ⟨[plainArtist], [twoFilesPortfolio]⟩ "p1").loaded =
          some { twoFilesPortfolio with
            generatedFiles :=
              [⟨"html", "amina-200.html", "/uploads/web-portfolios/amina-200.html", 200⟩,
               ⟨"pdf", "portfolio-p1-100.pdf", "/uploads/portfolios/portfolio-p1-100.pdf", 100⟩] }
      ∧ (portfolioAnalytics ⟨[plainArtist], [twoFilesPortfolio]⟩ "p1").loaded ≠
          some twoFilesPortfolio := by
  have h : (portfolioAnalytics ⟨[plainArtist], [twoFilesPortfolio]⟩ "p1").loaded =
      some { twoFilesPortfolio with
        generatedFiles :=
          [⟨"html", "amina-200.html", "/uploads/web-portfolios/amina-200.html", 200⟩,
           ⟨"pdf", "portfolio-p1-100.pdf", "/uploads/portfolios/portfolio-p1-100.pdf", 100⟩] } := by
    simp [portfolioAnalytics, buildAnalytics, twoFilesPortfolio, plainPortfolio,
      List.mergeSort, List.merge, newestFirst]
  refine ⟨rfl, h, ?_⟩
  rw [h]
  decide

/-- C26, amended: computing the analytics of a portfolio leaves the store,
and so the stored list of generated files, as it was; the list of the
loaded document holds the same entries after the analytics block is built
(it is a permutation of the list before), reordered newest first, of which
`recentActivity` is the first five; the order is the one before only when
the list was already ordered newest first. -/
theorem analytics_keeps_store_and_entries (db : Db) (id : String) :
    (portfolioAnalytics db id).db = db
      ∧ ∀ p : Portfolio, db.portfolios.find? (fun x => x._id == id) = some p →
          ∃ files : List GeneratedFile,
            (portfolioAnalytics db id).loaded = some { p with generatedFiles := files }
              ∧ files.Perm p.generatedFiles
              ∧ files.Pairwise (fun a b => b.generatedAt ≤ a.generatedAt)
              ∧ (portfolioAnalytics db id).response =
                  ⟨200, Body.analytics
                    { views := p.views
                      generatedFiles := p.generatedFiles.length
                      lastUpdated := p.updatedAt
                      createdAt := p.createdAt
                      sectionsCount := p.sections.length
                      isPublic := p.isPublic
                      template := p.template
                      filesGeneratedPdf :=
                        (p.generatedFiles.filter fun f => f.format == "pdf").length
                      filesGeneratedHtml :=
                        (p.generatedFiles.filter fun f => f.format == "html").length
                      recentActivity := files.take 5 }⟩
              ∧ (p.generatedFiles.Pairwise (fun a b => b.generatedAt ≤ a.generatedAt) →
                  files = p.generatedFiles) := by
  constructor
  · unfold portfolioAnalytics
    cases db.portfolios.find? (fun p => p._id == id) <;> rfl
  · intro p hp
    refine ⟨p.generatedFiles.mergeSort newestFirst, ?_, List.mergeSort_perm _ _, ?_, ?_, ?_⟩
    · unfold portfolioAnalytics
      rw [hp]
      rfl
    · have h := List.sorted_mergeSort newestFirst_trans newestFirst_total p.generatedFiles
      exact h.imp (fun h => by simpa [newestFirst] using h)
    · unfold portfolioAnalytics
      rw [hp]
      rfl
    · intro hs
      apply List.mergeSort_of_sorted
      exact hs.imp (fun h => by simpa [newestFirst] using h)

theorem mathRound_bounds (y : ℚ) (h0 : 0 ≤ y) (h1 : y ≤ 100) :
    0 ≤ mathRound y ∧ mathRound y ≤ 100 := by
  unfold mathRound
  constructor
  · apply Int.floor_nonneg.mpr
    linarith
  · have : Int.floor (y + 1 / 2) < 101 := by
      rw [Int.floor_lt]
      push_cast
      linarith
    omega

theorem bitLength_zero (fuel : Nat) : bitLength fuel 0 = 0 := by
  cases fuel <;> simp [bitLength]

theorem bitLength_spec (fuel : Nat) :
    ∀ n, n ≤ fuel → n < 2 ^ bitLength fuel n ∧ (0 < n → 2 ^ (bitLength fuel n - 1) ≤ n) := by
  induction fuel with
  | zero =>
    intro n hn
    have : n = 0 := by omega
    subst this
    simp [bitLength]
  | succ fuel ih =>
    intro n hn
    by_cases h0 : n = 0
    · subst h0
      simp [bitLength]
    · have hhalf : n / 2 ≤ fuel := by omega
      obtain ⟨h1, h2⟩ := ih (n / 2) hhalf
      simp only [bitLength, h0, if_false, Nat.add_sub_cancel]
      constructor
      · rw [Nat.pow_succ]
        omega
      · intro _
        by_cases hh : n / 2 = 0
        · rw [hh, bitLength_zero]
          simp
          omega
        · have h3 := h2 (by omega)
          have hb : 1 ≤ bitLength fuel (n / 2) := by
            by_contra hc
            have : bitLength fuel (n / 2) = 0 := by omega
            rw [this] at h1
            simp at h1
            omega
          have e : 2 ^ bitLength fuel (n / 2) = 2 * 2 ^ (bitLength fuel (n / 2) - 1) := by
            rw [← Nat.pow_succ']
            congr 1
            omega
          rw [e]
          omega

theorem round_le (N D B : Nat) (hD : 0 < D) (h : N ≤ B * D) :
    (if D < 2 * (N % D) ∨ (2 * (N % D) = D ∧ (N / D) % 2 = 1) then N / D + 1 else N / D) ≤ B := by
  by_cases he : N = B * D
  · subst he
    have h1 : B * D % D = 0 := Nat.mul_mod_left B D
    have h2 : B * D / D = B := Nat.mul_div_cancel B hD
    rw [h1, h2]
    have : ¬ (D < 2 * 0 ∨ (2 * 0 = D ∧ B % 2 = 1)) := by omega
    rw [if_neg this]
  · have hlt : N < B * D := by omega
    have h3 : N / D < B := (Nat.div_lt_iff_lt_mul hD).mpr hlt
    split <;> omega

theorem scaled_le (m k K : Nat) (e : Int) (he : e = -(k : Int)) (h : m ≤ K * 2 ^ k) :
    (m : ℚ) * (2 : ℚ) ^ e ≤ (K : ℚ) := by
  rw [he, zpow_neg, zpow_natCast, ← div_eq_mul_inv, div_le_iff₀ (by positivity)]
  exact_mod_cast h

theorem nearestDoublePos_le (n d K : Nat) (hn : 0 < n) (hd : 0 < d) (hK : n ≤ K * d)
    (hK52 : K ≤ 2 ^ 52) : nearestDoublePos n d ≤ (K : ℚ) := by
  obtain ⟨ha1, ha2⟩ := bitLength_spec n n (Nat.le_refl n)
  obtain ⟨hb1, hb2⟩ := bitLength_spec d d (Nat.le_refl d)
  have ha2 := ha2 hn
  have hb2 := hb2 hd
  unfold nearestDoublePos
  generalize bitLength n n = a at ha1 ha2 ⊢
  generalize bitLength d d = b at hb1 hb2 ⊢
  have hab : a < b + 53 := by
    by_contra hc
    have h1 : 2 ^ (b + 52) ≤ 2 ^ (a - 1) := Nat.pow_le_pow_right (by decide) (by omega)
    have h2 : 2 ^ (b + 52) = 2 ^ b * 2 ^ 52 := Nat.pow_add 2 b 52
    have h3 : K * d < 2 ^ b * 2 ^ 52 := by
      calc K * d ≤ 2 ^ 52 * d := Nat.mul_le_mul_right d hK52
        _ < 2 ^ 52 * 2 ^ b := Nat.mul_lt_mul_of_pos_left hb1 (by positivity)
        _ = 2 ^ b * 2 ^ 52 := Nat.mul_comm _ _
    omega
  obtain ⟨s, hs⟩ : ∃ s : Nat, b + 53 = a + (s + 1) := ⟨b + 53 - a - 1, by omega⟩
  have he0 : (a : Int) - (b : Int) - 53 = -((s + 1 : Nat) : Int) := by push_cast; omega
  have hneg : ¬ (0 ≤ -((s + 1 : Nat) : Int)) := by push_cast; omega
  have htn : (- -((s + 1 : Nat) : Int)).toNat = s + 1 := by
    rw [neg_neg, Int.toNat_ofNat]
  simp only [he0, hneg, if_false, htn]
  have hpow : 2 ^ (s + 1) = 2 * 2 ^ s := Nat.pow_succ'
  by_cases hbig : 2 ^ 53 ≤ n * 2 ^ (s + 1) / d
  · simp only [hbig, decide_True, if_true]
    apply scaled_le _ s K _ (by push_cast; omega)
    apply round_le _ _ _ (by omega)
    calc n * 2 ^ (s + 1) ≤ K * d * 2 ^ (s + 1) := Nat.mul_le_mul_right _ hK
      _ = K * 2 ^ s * (2 * d) := by rw [hpow]; ring
  · simp only [hbig, decide_False, Bool.false_eq_true, if_false]
    apply scaled_le _ (s + 1) K _ rfl
    apply round_le _ _ _ hd
    calc n * 2 ^ (s + 1) ≤ K * d * 2 ^ (s + 1) := Nat.mul_le_mul_right _ hK
      _ = K * 2 ^ (s + 1) * d := by ring

theorem nearestDoublePos_nonneg (n d : Nat) : 0 ≤ nearestDoublePos n d := by
  unfold nearestDoublePos
  simp only
  positivity

theorem nearestDouble_bounds (q : ℚ) (K : Nat) (h0 : 0 ≤ q) (hK : q ≤ (K : ℚ))
    (hK52 : K ≤ 2 ^ 52) : 0 ≤ nearestDouble q ∧ nearestDouble q ≤ (K : ℚ) := by
  unfold nearestDouble
  by_cases hq : q = 0
  · rw [if_pos hq]
    exact ⟨le_refl 0, by positivity⟩
  · have hpos : 0 < q := lt_of_le_of_ne h0 (Ne.symm hq)
    rw [if_neg hq, if_pos hpos]
    refine ⟨nearestDoublePos_nonneg _ _, ?_⟩
    have hnum : 0 < q.num := Rat.num_pos.mpr hpos
    have hden : 0 < q.den := q.den_pos
    apply nearestDoublePos_le _ _ K (by omega) hden _ hK52
    have h1 : (q.num : ℚ) / (q.den : ℚ) ≤ (K : ℚ) := by rw [Rat.num_div_den]; exact hK
    rw [div_le_iff₀ (by exact_mod_cast hden)] at h1
    have h2 : q.num ≤ (K : Int) * (q.den : Int) := by exact_mod_cast h1
    have h3 : (q.num.natAbs : Int) = q.num := Int.natAbs_of_nonneg (le_of_lt hnum)
    have h4 : (q.num.natAbs : Int) ≤ ((K * q.den : Nat) : Int) := by
      rw [h3]; push_cast; exact h2
    exact_mod_cast h4

theorem verificationRate_double_bounds (v t : Nat) (ht : 1 ≤ t) (hv : v ≤ t) :
    ∃ r : Int, verificationRate nearestDouble v t = some r ∧ 0 ≤ r ∧ r ≤ 100 := by
  have htq : (0 : ℚ) < (t : ℚ) := by exact_mod_cast ht
  have hq0 : (0 : ℚ) ≤ (v : ℚ) / (t : ℚ) := by positivity
  have hq1 : (v : ℚ) / (t : ℚ) ≤ ((1 : Nat) : ℚ) := by
    rw [Nat.cast_one, div_le_one htq]
    exact_mod_cast hv
  obtain ⟨hx0, hx1⟩ := nearestDouble_bounds _ 1 hq0 hq1 (by decide)
  rw [Nat.cast_one] at hx1
  have hy : nearestDouble ((v : ℚ) / (t : ℚ)) * 100 ≤ ((100 : Nat) : ℚ) := by
    push_cast; linarith
  obtain ⟨hy0, hy1⟩ := nearestDouble_bounds _ 100 (by linarith) hy (by decide)
  refine ⟨_, ?_, mathRound_bounds _ hy0 (by exact_mod_cast hy1)⟩
  unfold verificationRate
  rw [if_neg (by omega)]

theorem verificationRate_bounds (toDouble : ℚ → ℚ) (v t : Nat) (ht : 1 ≤ t) (hv : v ≤ t)
    (hm : Monotone toDouble) (h0 : toDouble 0 = 0) (h1 : toDouble 1 = 1)
    (h100 : toDouble 100 = 100) :
    ∃ r : Int, verificationRate toDouble v t = some r ∧ 0 ≤ r ∧ r ≤ 100 := by
  have htq : (0 : ℚ) < (t : ℚ) := by exact_mod_cast ht
  have hq0 : (0 : ℚ) ≤ (v : ℚ) / (t : ℚ) := by positivity
  have hq1 : (v : ℚ) / (t : ℚ) ≤ 1 := by
    rw [div_le_one htq]
    exact_mod_cast hv
  have hx0 : 0 ≤ toDouble ((v : ℚ) / (t : ℚ)) := by
    have := hm hq0
    rwa [h0] at this
  have hx1 : toDouble ((v : ℚ) / (t : ℚ)) ≤ 1 := by
    have := hm hq1
    rwa [h1] at this
  have hy0 : 0 ≤ toDouble (toDouble ((v : ℚ) / (t : ℚ)) * 100) := by
    have := hm (show (0 : ℚ) ≤ toDouble ((v : ℚ) / (t : ℚ)) * 100 by linarith)
    rwa [h0] at this
  have hy1 : toDouble (toDouble ((v : ℚ) / (t : ℚ)) * 100) ≤ 100 := by
    have := hm (show toDouble ((v : ℚ) / (t : ℚ)) * 100 ≤ (100 : ℚ) by linarith)
    rwa [h100] at this
  refine ⟨mathRound (toDouble (toDouble ((v : ℚ) / (t : ℚ)) * 100)), ?_, mathRound_bounds _ hy0 hy1⟩
  unfold verificationRate
  rw [if_neg (by omega)]

theorem platformStats_no_active (env : StatsEnv) (db : Db)
    (h : ∀ a ∈ db.artists, a.isActive = false) :
    (platformStats env db).totalArtists = 0 ∧ (platformStats env db).verificationRate = none := by
  have hf : (db.artists.filter fun a => a.isActive) = [] := by
    rw [List.filter_eq_nil_iff]
    intro a ha
    simp [h a ha]
  unfold platformStats
  simp only [hf]
  exact ⟨rfl, rfl⟩

/-- C29, what the route does: on a store without artists, and on every
store without an active artist, `totalArtists` is 0 and the verification
rate is not a number (`none`, serialised as `null`), not an integer between
0 and 100. With at least one active artist the rate is an integer between
0 and 100 (with the nearest-double rounding, and with every rounding of
the floating-point operations that is monotone and keeps 0, 1 and 100),
and it is `100 * verified / total` rounded to the nearest integer, a half
rounded up, when the operations are exact; with the nearest-double
rounding 23 of 40 artists give 57, the product being just below 57.5, where
exact operations give 58. -/
theorem verification_rate_undefined_without_artists :
    artistStats exactStatsEnv ⟨[], []⟩ = ⟨200, Body.stats ⟨0, 0, 0, none, [], []⟩⟩
      ∧ (∀ (env : StatsEnv) (db : Db), (∀ a ∈ db.artists, a.isActive = false) →
          (platformStats env db).totalArtists = 0
            ∧ (platformStats env db).verificationRate = none)
      ∧ (∀ (env : StatsEnv) (db : Db),
          (platformStats env db).verifiedArtists ≤ (platformStats env db).totalArtists
            ∧ (platformStats env db).verificationRate =
                verificationRate env.toDouble (platformStats env db).verifiedArtists
                  (platformStats env db).totalArtists)
      ∧ (∀ (toDouble : ℚ → ℚ) (v t : Nat), 1 ≤ t → v ≤ t → Monotone toDouble →
          toDouble 0 = 0 → toDouble 1 = 1 → toDouble 100 = 100 →
          ∃ r : Int, verificationRate toDouble v t = some r ∧ 0 ≤ r ∧ r ≤ 100)
      ∧ (∀ v t : Nat, 1 ≤ t →
          verificationRate exactStatsEnv.toDouble v t =
            some (Int.floor (100 * (v : ℚ) / (t : ℚ) + 1 / 2)))
      ∧ (∀ v t : Nat, 1 ≤ t → v ≤ t →
          ∃ r : Int, verificationRate doubleStatsEnv.toDouble v t = some r ∧ 0 ≤ r ∧ r ≤ 100)
      ∧ verificationRate doubleStatsEnv.toDouble 23 40 = some 57
      ∧ verificationRate exactStatsEnv.toDouble 23 40 = some 58 := by
  refine ⟨?_, platformStats_no_active, ?_, ?_, ?_, verificationRate_double_bounds,
    by decide!, by decide!⟩
  · simp [artistStats, platformStats, verificationRate, groupCounts, List.mergeSort]
  · intro env db
    refine ⟨?_, rfl⟩
    show (List.filter _ _).length ≤ _
    exact List.length_filter_le _ _
  · intro toDouble v t ht hv hm h0 h1 h100
    exact verificationRate_bounds toDouble v t ht hv hm h0 h1 h100
  · intro v t ht
    unfold verificationRate mathRound exactStatsEnv
    rw [if_neg (by omega)]
    simp only
    congr 3
    ring

/-! ## Facts about the in-page links -/

theorem idAttr_data (id : String) : (idAttr id).data = "id=\"".data ++ id.data ++ "\"".data := by
  simp [idAttr, String.data_append]

theorem idAttr_in_sectionBlock (js : Casing) (sec : Section) :
    (idAttr sec.type).data <:+: (sectionBlock js sec).data := by
  rw [sectionBlock, join_data, idAttr_data]
  simp only [List.flatMap_cons, List.flatMap_nil, List.append_nil]
  refine ⟨"\n".data ++ "        <section ".data,
    " class=\"fade-in\">\n".data ++ ("            <h2>".data ++ ((sectionHeading js sec).data ++
      ("</h2>\n".data ++ ("            <div class=\"content-card\">\n".data ++
        ("                <div style=\"white-space: pre-line; font-size: 1.1rem; line-height: 1.8;\">".data
          ++ ((interp sec.content).data ++ ("</div>\n".data ++ ("            </div>\n".data ++
            ("        </section>\n".data ++ "        ".data))))))))), ?_⟩
  simp

theorem main_in_page (js : Casing) (year : Nat) (p : Portfolio) (a : Artist) :
    (webMain js p a).data <:+: (webPage js year p a).data :=
  infix_join_of_mem _ _ (by simp)

theorem nav_in_page (js : Casing) (year : Nat) (p : Portfolio) (a : Artist) :
    (webNav p).data <:+: (webPage js year p a).data :=
  infix_join_of_mem _ _ (by simp)

theorem idAttr_of_section (js : Casing) (year : Nat) (p : Portfolio) (a : Artist) (sec : Section)
    (h : sec ∈ p.sections) : (idAttr sec.type).data <:+: (webPage js year p a).data := by
  have h2 : (sectionBlock js sec).data <:+: (String.join (p.sections.map (sectionBlock js))).data :=
    infix_join_of_mem _ _ (List.mem_map_of_mem _ h)
  have h3 : (String.join (p.sections.map (sectionBlock js))).data <:+: (webMain js p a).data :=
    infix_join_of_mem _ _ (by simp)
  exact (((idAttr_in_sectionBlock js sec).trans h2).trans h3).trans (main_in_page js year p a)

theorem idAttr_about (js : Casing) (year : Nat) (p : Portfolio) (a : Artist) :
    (idAttr "about").data <:+: (webPage js year p a).data := by
  have h1 : (idAttr "about").data <:+: "        <section id=\"about\" class=\"fade-in\">\n".data := by
    rw [← occursIn_iff]; decide
  have h2 : "        <section id=\"about\" class=\"fade-in\">\n".data <:+: (aboutBlock p a).data :=
    infix_join_of_mem _ _ (by simp)
  have h3 : (aboutBlock p a).data <:+: (webMain js p a).data := infix_join_of_mem _ _ (by simp)
  exact ((h1.trans h2).trans h3).trans (main_in_page js year p a)

theorem idAttr_contact (js : Casing) (year : Nat) (p : Portfolio) (a : Artist) :
    (idAttr "contact").data <:+: (webPage js year p a).data := by
  have h1 : (idAttr "contact").data <:+:
      "        <section id=\"contact\" class=\"fade-in\">\n".data := by
    rw [← occursIn_iff]; decide
  have h2 : "        <section id=\"contact\" class=\"fade-in\">\n".data <:+:
      (contactBlock a).data := infix_join_of_mem _ _ (by simp)
  have h3 : (contactBlock a).data <:+: (webMain js p a).data := infix_join_of_mem _ _ (by simp)
  exact ((h1.trans h2).trans h3).trans (main_in_page js year p a)

theorem idAttr_skills (js : Casing) (year : Nat) (p : Portfolio) (a : Artist) (genres : List String)
    (hg : a.genres = some genres) (hne : genres ≠ []) :
    (idAttr "skills").data <:+: (webPage js year p a).data := by
  have h1 : (idAttr "skills").data <:+:
      "        <section id=\"skills\" class=\"fade-in\">\n".data := by
    rw [← occursIn_iff]; decide
  have h2 : "        <section id=\"skills\" class=\"fade-in\">\n".data <:+:
      (skillsSection genres).data := infix_join_of_mem _ _ (by simp)
  have hb : skillsBlock a = skillsSection genres := by
    unfold skillsBlock
    rw [hg]
    simp [List.length_pos.mpr hne]
  have h3 : (skillsBlock a).data <:+: (webMain js p a).data := infix_join_of_mem _ _ (by simp)
  rw [hb] at h3
  exact ((h1.trans h2).trans h3).trans (main_in_page js year p a)

theorem href_in_nav (p : Portfolio) (e id : String) (he : e ∈ navEntries p)
    (hid : (hrefAttr id).data <:+: e.data) : (hrefAttr id).data <:+: (webNav p).data := by
  have h1 : e.data <:+: (navLine e).data := by
    refine ⟨"                ".data, "\n".data, ?_⟩
    simp [navLine, String.data_append]
  have h2 : (navLine e).data <:+: (String.join ((navEntries p).map navLine)).data :=
    infix_join_of_mem _ _ (List.mem_map_of_mem _ he)
  have h3 : (String.join ((navEntries p).map navLine)).data <:+: (webNav p).data :=
    infix_join_of_mem _ _ (by simp [webNav])
  exact ((hid.trans h1).trans h2).trans h3

theorem section_of_entry (p : Portfolio) :
    (experienceEntry ∈ navEntries p → ∃ s ∈ p.sections, s.type = "experience")
      ∧ (galleryEntry ∈ navEntries p → ∃ s ∈ p.sections, s.type = "gallery") := by
  have g1 : galleryEntry ≠ "<li><a href=\"#about\">About</a></li>" := by decide
  have g2 : galleryEntry ≠ "<li><a href=\"#skills\">Skills</a></li>" := by decide
  have g3 : galleryEntry ≠ "<li><a href=\"#contact\">Contact</a></li>" := by decide
  have g4 : galleryEntry ≠ experienceEntry := by decide
  have g5 : galleryEntry ≠ "" := by decide
  have e1 : experienceEntry ≠ "<li><a href=\"#about\">About</a></li>" := by decide
  have e2 : experienceEntry ≠ "<li><a href=\"#skills\">Skills</a></li>" := by decide
  have e3 : experienceEntry ≠ "<li><a href=\"#contact\">Contact</a></li>" := by decide
  have e4 : experienceEntry ≠ galleryEntry := by decide
  have e5 : experienceEntry ≠ "" := by decide
  have hany : ∀ t : String, (p.sections.any (fun s => s.type == t) = true) ↔
      ∃ s ∈ p.sections, s.type = t := by
    intro t
    simp [List.any_eq_true]
  constructor
  · rw [← hany]
    unfold navEntries
    by_cases hx : p.sections.any (fun s => s.type == "experience") = true <;>
      by_cases hg : p.sections.any (fun s => s.type == "gallery") = true <;>
      simp [hx, hg, e1, e2, e3, e4, e5]
  · rw [← hany]
    unfold navEntries
    by_cases hx : p.sections.any (fun s => s.type == "experience") = true <;>
      by_cases hg : p.sections.any (fun s => s.type == "gallery") = true <;>
      simp [hx, hg, g1, g2, g3, g4, g5]

set_option maxRecDepth 1000000 in
theorem plain_page_has_no_skills_id :
    occursIn (idAttr "skills").data (webPage asciiCasing 2023 plainPortfolio plainArtist).data = false := by
  rw [webPage, join_data]
  simp only [List.flatMap_cons, List.flatMap_nil, List.append_nil]
  rw [webHead, join_data, webHeader, join_data, webNav, join_data, webMain, join_data,
    webFooter, join_data, webScript, join_data]
  simp only [List.flatMap_cons, List.flatMap_nil, List.append_nil]
  rw [styleRules, join_data]
  decide!

/-! ## The in-page links: claims -/

/-- C30, what the template does: for the portfolio without sections of an
artist without genres, the navigation list holds the link `#skills`, the
page holds `href="#skills"`, and `id="skills"` occurs nowhere in the page:
the link has no target. For every portfolio, the ids `about` and `contact`
occur in the page, the id of every section occurs in it (so the ids
`experience` and `gallery` occur whenever the navigation list holds their
entry), and the id `skills` occurs when the artist has a genre. -/
theorem skills_link_without_target :
    "<li><a href=\"#skills\">Skills</a></li>" ∈ navEntries plainPortfolio
      ∧ (hrefAttr "skills").data <:+: (webPage asciiCasing 2023 plainPortfolio plainArtist).data
      ∧ ¬ ((idAttr "skills").data <:+: (webPage asciiCasing 2023 plainPortfolio plainArtist).data)
      ∧ generateWebPortfolioHTML asciiCasing 2023 ⟨plainPortfolio, some plainArtist⟩ =
          Except.ok (webPage asciiCasing 2023 plainPortfolio plainArtist)
      ∧ ∀ (js : Casing) (year : Nat) (p : Portfolio) (a : Artist),
          (idAttr "about").data <:+: (webPage js year p a).data
            ∧ (idAttr "contact").data <:+: (webPage js year p a).data
            ∧ (experienceEntry ∈ navEntries p →
                (idAttr "experience").data <:+: (webPage js year p a).data)
            ∧ (galleryEntry ∈ navEntries p →
                (idAttr "gallery").data <:+: (webPage js year p a).data)
            ∧ (∀ genres : List String, a.genres = some genres → genres ≠ [] →
                (idAttr "skills").data <:+: (webPage js year p a).data)
            ∧ (∀ sec ∈ p.sections, (idAttr sec.type).data <:+: (webPage js year p a).data) := by
  refine ⟨by decide, ?_, ?_, rfl, ?_⟩
  · have h : (hrefAttr "skills").data <:+: (webNav plainPortfolio).data :=
      href_in_nav plainPortfolio "<li><a href=\"#skills\">Skills</a></li>" "skills" (by decide)
        (by rw [← occursIn_iff]; decide)
    exact h.trans (nav_in_page asciiCasing 2023 plainPortfolio plainArtist)
  · rw [← occursIn_iff, plain_page_has_no_skills_id]
    exact Bool.false_ne_true
  · intro js year p a
    refine ⟨idAttr_about js year p a, idAttr_contact js year p a, ?_, ?_, ?_, ?_⟩
    · intro h
      obtain ⟨s, hs, ht⟩ := (section_of_entry p).1 h
      rw [← ht]
      exact idAttr_of_section js year p a s hs
    · intro h
      obtain ⟨s, hs, ht⟩ := (section_of_entry p).2 h
      rw [← ht]
      exact idAttr_of_section js year p a s hs
    · intro genres hg hne
      exact idAttr_skills js year p a genres hg hne
    · intro sec hs
      exact idAttr_of_section js year p a sec hs

/-! ## The navigation list and the blocks in the generated page -/

set_option maxRecDepth 100000 in
theorem nav_occurrences (p : Portfolio) :
    (occursIn galleryEntry.data (webNav p).data =
        p.sections.any (fun s => s.type == "gallery"))
      ∧ (occursIn experienceEntry.data (webNav p).data =
        p.sections.any (fun s => s.type == "experience"))
      ∧ (occursIn (hrefAttr "gallery").data (webNav p).data =
        p.sections.any (fun s => s.type == "gallery"))
      ∧ (occursIn (hrefAttr "experience").data (webNav p).data =
        p.sections.any (fun s => s.type == "experience")) := by
  unfold webNav navEntries
  cases p.sections.any (fun s => s.type == "experience") <;>
    cases p.sections.any (fun s => s.type == "gallery") <;>
    (simp only [join_data, List.map_cons, List.map_nil, List.flatMap_cons, List.flatMap_nil]
     decide!)

theorem any_type_iff (p : Portfolio) (t : String) :
    (p.sections.any (fun s => s.type == t) = true) ↔ ∃ s ∈ p.sections, s.type = t := by
  simp [List.any_eq_true]

/-- C10: for every portfolio, the navigation list of the generated page, the
`<nav>` element that the page holds, contains the entry linking to
`#gallery`, and the link target `href="#gallery"` at all, if and only if
some section has type exactly `gallery`; and it contains the entry linking
to `#experience`, and the link target `href="#experience"` at all, if and
only if some section has type exactly `experience`. -/
theorem nav_entries_follow_sections (js : Casing) (year : Nat) (p : Portfolio) (a : Artist) :
    (galleryEntry.data <:+: (webNav p).data ↔ ∃ s ∈ p.sections, s.type = "gallery")
      ∧ (experienceEntry.data <:+: (webNav p).data ↔ ∃ s ∈ p.sections, s.type = "experience")
      ∧ ((hrefAttr "gallery").data <:+: (webNav p).data ↔
          ∃ s ∈ p.sections, s.type = "gallery")
      ∧ ((hrefAttr "experience").data <:+: (webNav p).data ↔
          ∃ s ∈ p.sections, s.type = "experience")
      ∧ galleryEntry = "<li><a href=\"#gallery\">Gallery</a></li>"
      ∧ experienceEntry = "<li><a href=\"#experience\">Experience</a></li>"
      ∧ (webNav p).data <:+: (webPage js year p a).data
      ∧ generateWebPortfolioHTML js year ⟨p, some a⟩ = Except.ok (webPage js year p a) := by
  obtain ⟨h1, h2, h3, h4⟩ := nav_occurrences p
  refine ⟨?_, ?_, ?_, ?_, rfl, rfl, nav_in_page js year p a, rfl⟩
  · rw [← occursIn_iff, h1, any_type_iff]
  · rw [← occursIn_iff, h2, any_type_iff]
  · rw [← occursIn_iff, h3, any_type_iff]
  · rw [← occursIn_iff, h4, any_type_iff]

theorem flatMap_map_data {α : Type} (f : α → String) (l : List α) :
    (l.map f).flatMap String.data = l.flatMap fun x => (f x).data := by
  induction l with
  | nil => rfl
  | cons x xs ih => simp only [List.map_cons, List.flatMap_cons, ih]

theorem capitalize_cons (js : Casing) (c : Char) (cs : List Char) :
    capitalize js (String.mk (c :: cs)) =
      if c.toNat < 0x10000 then js.toUpperCase (String.singleton c) ++ String.mk cs
      else String.mk (c :: cs) := rfl

set_option maxRecDepth 100000 in
/-- C11: for every portfolio, the generated page holds the blocks of the
sections one after the other, exactly one per section and in input order,
right after the about and skills blocks and right before the contact block;
the block of a section carries the section's type as its `id` and, as its
heading, the section's title when that is non-empty and otherwise the type
with its first character upper-cased by the engine and the rest unchanged
(a character being a UTF-16 code unit, a type that starts beyond `U+FFFF`
is left as it is). -/
theorem section_blocks_in_order (js : Casing) (year : Nat) (p : Portfolio) (a : Artist) :
    (∃ pre post : List Char,
        (webPage js year p a).data =
            pre ++ (p.sections.flatMap fun sec => (sectionBlock js sec).data) ++ post
          ∧ (String.join [aboutBlock p a, "\n", "\n", "        ", skillsBlock a, "\n", "\n",
              "        "]).data <:+ pre
          ∧ (String.join ["\n", "\n", contactBlock a]).data <+: post)
      ∧ (∀ sec : Section, ∃ inner : String,
          sectionBlock js sec = String.join ["\n",
            "        <section id=\"", sec.type, "\" class=\"fade-in\">\n",
            "            <h2>", sectionHeading js sec, "</h2>\n",
            "            <div class=\"content-card\">\n",
            "                <div style=\"white-space: pre-line; font-size: 1.1rem; line-height: 1.8;\">",
            inner, "</div>\n", "            </div>\n", "        </section>\n", "        "]
          ∧ ∀ c : String, sec.content = some c → inner = c)
      ∧ (∀ (sec : Section) (t : String), sec.title = some t → t ≠ "" →
          sectionHeading js sec = t)
      ∧ (∀ sec : Section, sec.title = none ∨ sec.title = some "" →
          sectionHeading js sec = capitalize js sec.type)
      ∧ capitalize js "" = ""
      ∧ (∀ (c : Char) (cs : List Char), c.toNat < 0x10000 →
          capitalize js (String.mk (c :: cs)) =
            js.toUpperCase (String.singleton c) ++ String.mk cs)
      ∧ (∀ (c : Char) (cs : List Char), 0x10000 ≤ c.toNat →
          capitalize js (String.mk (c :: cs)) = String.mk (c :: cs))
      ∧ sectionBlock asciiCasing ⟨"gallery", none, some "Photos", none⟩ =
          "\n        <section id=\"gallery\" class=\"fade-in\">\n"
            ++ "            <h2>Gallery</h2>\n"
            ++ "            <div class=\"content-card\">\n"
            ++ "                <div style=\"white-space: pre-line; font-size: 1.1rem; line-height: 1.8;\">Photos</div>\n"
            ++ "            </div>\n"
            ++ "        </section>\n"
            ++ "        "
      ∧ sectionHeading asciiCasing ⟨"gallery", some "My pictures", some "Photos", none⟩ =
          "My pictures"
      ∧ generateWebPortfolioHTML js year ⟨p, some a⟩ = Except.ok (webPage js year p a) := by
  refine ⟨?_, fun sec => ⟨interp sec.content, rfl, ?_⟩, ?_, ?_, rfl, ?_, ?_, by decide!,
    by decide!, rfl⟩
  · refine ⟨(webHead p a).data ++ (webHeader js a).data ++ (webNav p).data ++
        "    <main class=\"container\">\n".data ++
        (String.join [aboutBlock p a, "\n", "\n", "        ", skillsBlock a, "\n", "\n",
          "        "]).data,
      (String.join ["\n", "\n", contactBlock a]).data ++ "    </main>\n".data ++ "\n".data ++
        (webFooter year a).data ++ webScript.data, ?_, List.suffix_append _ _,
      ?_⟩
    · rw [webPage, join_data]
      simp only [List.flatMap_cons, List.flatMap_nil, List.append_nil]
      rw [webMain, join_data]
      simp only [List.flatMap_cons, List.flatMap_nil, List.append_nil, join_data,
        flatMap_map_data, List.append_assoc]
    · simp only [List.append_assoc]
      exact List.prefix_append _ _
  · intro c hc
    rw [hc]
    rfl
  · intro sec t ht hne
    simp [sectionHeading, jsOr, truthy, ht, hne, interp]
  · intro sec h
    rcases h with h | h <;> simp [sectionHeading, jsOr, truthy, h, interp]
  · intro c cs hc
    rw [capitalize_cons, if_pos hc]
  · intro c cs hc
    rw [capitalize_cons, if_neg (by omega)]

theorem contact_in_page (js : Casing) (year : Nat) (p : Portfolio) (a : Artist) :
    (contactBlock a).data <:+: (webPage js year p a).data :=
  (infix_join_of_mem _ _ (by simp [webMain])).trans (main_in_page js year p a)

theorem row_in_socialLinksBlock (a : Artist) (links : List (String × Option String))
    (h : a.socialLinks = some links) :
    (String.join (links.map socialLink)).data <:+: (socialLinksBlock a).data := by
  unfold socialLinksBlock
  rw [h]
  exact infix_join_of_mem _ _ (by simp)

set_option maxRecDepth 100000 in
/-- C13: for every social-links map, the row of social icons is the
concatenation of one icon link per platform whose URL is non-empty, in the
order of the map, a platform with an empty or missing URL contributing
nothing; the link's `href` is the platform's URL and its icon class is
`fa-globe` when the platform is named exactly `website` and `fa-` followed
by the platform name otherwise; for an artist with this map the row stands
in the social-links block, which ends the contact block of the generated
page, so that every icon link occurs in the page; without a map the block
is empty. -/
theorem social_icons_for_populated (js : Casing) (year : Nat) (p : Portfolio)
    (links : List (String × Option String)) :
    String.join (links.map socialLink) =
        String.join ((populatedLinks links).map fun e => iconLink e.1 e.2)
      ∧ (∀ e ∈ populatedLinks links, (e.1, some e.2) ∈ links ∧ e.2 ≠ "")
      ∧ (∀ (platform url : String), (platform, some url) ∈ links → url ≠ "" →
          (platform, url) ∈ populatedLinks links)
      ∧ (populatedLinks links).map (fun e => (e.1, some e.2)) =
          links.filter (fun e => truthy e.2)
      ∧ (∀ platform url : String, iconLink platform url =
          "<a href=\"" ++ url ++ "\" target=\"_blank\" title=\"" ++ platform ++ "\">\n"
            ++ "                        <i class=\"fab " ++ iconClass platform ++ "\"></i>\n"
            ++ "                      </a>")
      ∧ iconClass "website" = "fa-globe"
      ∧ (∀ platform : String, platform ≠ "website" → iconClass platform = "fa-" ++ platform)
      ∧ (∀ a : Artist, a.socialLinks = some links →
          socialLinksBlock a = String.join ["\n", "                <div class=\"social-links\">\n",
            "                    ",
            String.join ((populatedLinks links).map fun e => iconLink e.1 e.2), "\n",
            "                </div>\n", "                "]
          ∧ (socialLinksBlock a).data <:+: (contactBlock a).data
          ∧ (contactBlock a).data <:+: (webPage js year p a).data
          ∧ (String.join ((populatedLinks links).map fun e => iconLink e.1 e.2)).data <:+:
              (webPage js year p a).data
          ∧ ∀ e ∈ populatedLinks links, (iconLink e.1 e.2).data <:+: (webPage js year p a).data)
      ∧ (∀ a : Artist, a.socialLinks = none → socialLinksBlock a = "")
      ∧ (∀ a : Artist,
          (String.join [socialLinksBlock a, "\n", "            </div>\n",
            "        </section>\n"]).data <:+ (contactBlock a).data)
      ∧ socialLinksBlock linkedArtist =
          "\n                <div class=\"social-links\">\n                    "
            ++ "<a href=\"https://amina.example\" target=\"_blank\" title=\"website\">\n"
            ++ "                        <i class=\"fab fa-globe\"></i>\n"
            ++ "                      </a>"
            ++ "<a href=\"https://youtube.example/amina\" target=\"_blank\" title=\"youtube\">\n"
            ++ "                        <i class=\"fab fa-youtube\"></i>\n"
            ++ "                      </a>"
            ++ "\n                </div>\n                " := by
  refine ⟨social_row_eq links, ?_, ?_, ?_, fun _ _ => rfl, rfl, ?_, ?_, ?_, ?_, ?_⟩
  · intro e he
    simp only [populatedLinks, List.mem_filterMap] at he
    obtain ⟨⟨pl, url⟩, hmem, hsome⟩ := he
    cases url with
    | none => simp at hsome
    | some u =>
      by_cases hu : u = ""
      · simp [hu] at hsome
      · simp only [hu, ne_eq, not_false_eq_true, if_true, Option.some.injEq] at hsome
        subst hsome
        exact ⟨hmem, hu⟩
  · intro platform url hmem hne
    simp only [populatedLinks, List.mem_filterMap]
    exact ⟨(platform, some url), hmem, by simp [hne]⟩
  · induction links with
    | nil => rfl
    | cons e es ih =>
      obtain ⟨pl, url⟩ := e
      cases url with
      | none => simpa [populatedLinks, truthy] using ih
      | some u =>
        by_cases hu : u = ""
        · simpa [populatedLinks, truthy, hu] using ih
        · simpa [populatedLinks, truthy, hu] using ih
  · intro platform h
    simp [iconClass, h]
  · intro a h
    have hblock : (socialLinksBlock a).data <:+: (contactBlock a).data :=
      infix_join_of_mem _ _ (by simp)
    have hrow : (String.join ((populatedLinks links).map fun e => iconLink e.1 e.2)).data <:+:
        (webPage js year p a).data := by
      rw [← social_row_eq]
      exact ((row_in_socialLinksBlock a links h).trans hblock).trans
        (contact_in_page js year p a)
    refine ⟨?_, hblock, contact_in_page js year p a, hrow, ?_⟩
    · simp only [socialLinksBlock, h, socialLinksRow, social_row_eq]
    · intro e he
      exact (infix_join_of_mem _ _ (List.mem_map_of_mem _ he)).trans hrow
  · intro a h
    simp only [socialLinksBlock, h]
  · intro a
    refine ⟨(String.join ["        <section id=\"contact\" class=\"fade-in\">\n",
        "            <h2>Let's Connect</h2>\n",
        "            <div class=\"content-card\">\n",
        "                <div class=\"contact-info\">\n",
        "                    <div class=\"contact-item\">\n",
        "                        <i class=\"fas fa-envelope\"></i>\n",
        "                        <div>\n",
        "                            <strong>Email</strong><br>\n",
        "                            <a href=\"mailto:", interp a.email,
        "\" style=\"color: var(--accent);\">", interp a.email, "</a>\n",
        "                        </div>\n", "                    </div>\n",
        "                    ", locationBlock a, "\n", "                </div>\n",
        "                \n", "                "]).data, ?_⟩
    simp only [contactBlock, join_data, List.flatMap_cons, List.flatMap_nil, List.append_nil,
      List.append_assoc]
  · decide!

end Katika
